import Mathlib

/-!
# MIDI2USB-Converter: MIDI 1.0 byte parser and USB-MIDI codec

A shallow embedding of `Core/Src/midi_common.c` and of the UART receive parser of
`Core/Src/uart_midi_task.c`, with the properties of the specification proved (or refuted)
over it.

Conventions of the embedding:
* `uint8_t`, `uint16_t` and `uint32_t` values are natural numbers; a counter that the C code
  increments without a guard wraps modulo `2^32` explicitly;
* C arrays (`midi_msg_buffer[3]`, `uart_sysex_buffer.data[1024]`) are functions from the index
  to the stored byte, an assignment `a[i] = b` being `Function.update a i b`;
* the FreeRTOS queue `xUartToUsbQueue` is the list of the packets it has accepted, oldest
  first; whether a call of `xQueueSend` succeeds is decided by the environment, given as a
  function from the number of the call to its outcome;
* the receive LED (`TurnOnRxLed`) is not part of the protocol state and is left out.
-/

namespace MIDI2USB

/-! ## Constants of `Core/Inc/midi_common.h` -/

def MIDI_FILTER_ACTIVE_SENSING : Nat := 1
def MIDI_FILTER_TIMING_CLOCK : Nat := 0

def MIDI_NOTE_OFF : Nat := 0x80
def MIDI_NOTE_ON : Nat := 0x90
def MIDI_POLY_KEY_PRESSURE : Nat := 0xA0
def MIDI_CONTROL_CHANGE : Nat := 0xB0
def MIDI_PROGRAM_CHANGE : Nat := 0xC0
def MIDI_CHANNEL_PRESSURE : Nat := 0xD0
def MIDI_PITCH_BEND : Nat := 0xE0

def MIDI_SYSEX_START : Nat := 0xF0
def MIDI_SYSEX_END : Nat := 0xF7
def MIDI_TIMING_CLOCK : Nat := 0xF8
def MIDI_ACTIVE_SENSING : Nat := 0xFE

def MIDI_MESSAGE_TYPE_MASK : Nat := 0xF0

def USB_MIDI_CIN_MISC : Nat := 0x0
def USB_MIDI_CIN_CABLE_EVENT : Nat := 0x1
def USB_MIDI_CIN_2BYTE_SYSCOM : Nat := 0x2
def USB_MIDI_CIN_3BYTE_SYSCOM : Nat := 0x3
def USB_MIDI_CIN_SYSEX_START : Nat := 0x4
def USB_MIDI_CIN_1BYTE : Nat := 0x5
def USB_MIDI_CIN_SYSEX_END_2 : Nat := 0x6
def USB_MIDI_CIN_SYSEX_END_3 : Nat := 0x7
def USB_MIDI_CIN_NOTE_OFF : Nat := 0x8
def USB_MIDI_CIN_NOTE_ON : Nat := 0x9
def USB_MIDI_CIN_POLY_KEYPRESS : Nat := 0xA
def USB_MIDI_CIN_CTRL_CHANGE : Nat := 0xB
def USB_MIDI_CIN_PROG_CHANGE : Nat := 0xC
def USB_MIDI_CIN_CHAN_PRESSURE : Nat := 0xD
def USB_MIDI_CIN_PITCH_BEND : Nat := 0xE
def USB_MIDI_CIN_1BYTE_DATA : Nat := 0xF

/-- Size of `uart_sysex_buffer.data` (`uart_midi_task.c`). -/
def UART_SYSEX_BUFFER_SIZE : Nat := 1024

/-- Modulus of a `uint32_t` counter. -/
def UINT32_MOD : Nat := 2 ^ 32

/-! ## `Core/Src/midi_common.c` -/

/-- `MIDI_GetCIN`: the Code Index Number of a message with the given status and length. -/
def MIDI_GetCIN (status length : Nat) : Nat :=
  if length = 1 then
    USB_MIDI_CIN_1BYTE
  else if length = 2 then
    let status_type := status &&& MIDI_MESSAGE_TYPE_MASK
    if status_type = MIDI_PROGRAM_CHANGE then USB_MIDI_CIN_PROG_CHANGE
    else if status_type = MIDI_CHANNEL_PRESSURE then USB_MIDI_CIN_CHAN_PRESSURE
    else USB_MIDI_CIN_2BYTE_SYSCOM
  else if length = 3 then
    let status_type := status &&& MIDI_MESSAGE_TYPE_MASK
    if status_type = MIDI_NOTE_OFF then USB_MIDI_CIN_NOTE_OFF
    else if status_type = MIDI_NOTE_ON then USB_MIDI_CIN_NOTE_ON
    else if status_type = MIDI_POLY_KEY_PRESSURE then USB_MIDI_CIN_POLY_KEYPRESS
    else if status_type = MIDI_CONTROL_CHANGE then USB_MIDI_CIN_CTRL_CHANGE
    else if status_type = MIDI_PITCH_BEND then USB_MIDI_CIN_PITCH_BEND
    else USB_MIDI_CIN_3BYTE_SYSCOM
  else
    USB_MIDI_CIN_MISC

/-- `MIDI_GetExpectedLength`: the length of the message a UART status byte starts. -/
def MIDI_GetExpectedLength (status : Nat) : Nat :=
  if status ≥ 0xF8 then 1
  else if status ≥ 0xF0 then
    if status = 0xF1 ∨ status = 0xF3 then 2
    else if status = 0xF2 then 3
    else 1
  else
    let status_type := status &&& MIDI_MESSAGE_TYPE_MASK
    if status_type = MIDI_PROGRAM_CHANGE ∨ status_type = MIDI_CHANNEL_PRESSURE then 2
    else 3

/-! ## Parser state (`midi_common.c`, `uart_midi_task.c`) -/

/-- `MIDIPacket_t`: `data` lists the bytes the code has written, `data[0 .. length-1]`;
the rest of the C array is never initialised. -/
structure MIDIPacket_t where
  data : List Nat
  length : Nat
deriving DecidableEq, Repr

/-- `MIDIStats_t`. -/
structure MIDIStats_t where
  uart_rx_count : Nat
  uart_tx_count : Nat
  usb_rx_count : Nat
  usb_tx_count : Nat
  uart_rx_errors : Nat
  uart_tx_errors : Nat
  usb_errors : Nat
  dma_overruns : Nat
  queue_full_errors : Nat
deriving DecidableEq, Repr

/-- The static `uart_sysex_buffer` of `uart_midi_task.c`. -/
structure UartSysexBuffer where
  data : Nat → Nat
  length : Nat
  in_sysex : Bool
  overflow : Bool

/-- The globals `ProcessMidiByte` works on, with the queue it sends to.
`sends` counts the calls of `xQueueSend` made so far. -/
structure UartRxState where
  midi_running_status : Nat
  midi_msg_buffer : Nat → Nat
  midi_msg_index : Nat
  uart_sysex_buffer : UartSysexBuffer
  midi_stats : MIDIStats_t
  queue : List MIDIPacket_t
  sends : Nat

/-- The state after start-up: every global is zero-initialised and the queue is empty. -/
def initialState : UartRxState :=
  { midi_running_status := 0
    midi_msg_buffer := fun _ => 0
    midi_msg_index := 0
    uart_sysex_buffer := { data := fun _ => 0, length := 0, in_sysex := false, overflow := false }
    midi_stats := ⟨0, 0, 0, 0, 0, 0, 0, 0, 0⟩
    queue := []
    sends := 0 }

/-- `xQueueSend(xUartToUsbQueue, &pkt, ...)`: the environment `ok` decides whether the call
succeeds; a successful call appends the packet. Returns the new state and the outcome. -/
def xQueueSend (ok : Nat → Bool) (s : UartRxState) (pkt : MIDIPacket_t) : UartRxState × Bool :=
  if ok s.sends then
    ({ s with queue := s.queue ++ [pkt], sends := s.sends + 1 }, true)
  else
    ({ s with sends := s.sends + 1 }, false)

/-- `midi_stats.queue_full_errors++`. -/
def incQueueFullErrors (s : UartRxState) : UartRxState :=
  { s with midi_stats :=
      { s.midi_stats with queue_full_errors := (s.midi_stats.queue_full_errors + 1) % UINT32_MOD } }

/-- `midi_stats.uart_rx_count++`. -/
def incUartRxCount (s : UartRxState) : UartRxState :=
  { s with midi_stats :=
      { s.midi_stats with uart_rx_count := (s.midi_stats.uart_rx_count + 1) % UINT32_MOD } }

/-- `MIDI_ResetRunningStatus`. -/
def MIDI_ResetRunningStatus (s : UartRxState) : UartRxState :=
  { s with midi_running_status := 0, midi_msg_index := 0 }

/-- The guarded append used three times in `ProcessMidiByte`:
`if (length < SIZE) data[length++] = rx_byte; else overflow = true;`. -/
def sysexAppend (b : UartSysexBuffer) (rx_byte : Nat) : UartSysexBuffer :=
  if b.length < UART_SYSEX_BUFFER_SIZE then
    { b with data := Function.update b.data b.length rx_byte, length := b.length + 1 }
  else
    { b with overflow := true }

/-- The three assignments that empty the accumulator. -/
def sysexReset (b : UartSysexBuffer) : UartSysexBuffer :=
  { b with in_sysex := false, length := 0, overflow := false }

/-- `SendCompleteMessage`. -/
def SendCompleteMessage (ok : Nat → Bool) (s : UartRxState) : UartRxState :=
  let status_type := s.midi_running_status &&& MIDI_MESSAGE_TYPE_MASK
  let expected_length : Nat :=
    if status_type = MIDI_PROGRAM_CHANGE ∨ status_type = MIDI_CHANNEL_PRESSURE then 2 else 3
  if s.midi_msg_index ≥ expected_length then
    let midi_packet : MIDIPacket_t :=
      { data := (List.range expected_length).map s.midi_msg_buffer, length := expected_length }
    let r := xQueueSend ok s midi_packet
    let s1 := if r.2 then r.1 else incQueueFullErrors r.1
    { s1 with
      midi_msg_buffer := Function.update s1.midi_msg_buffer 0 s1.midi_running_status
      midi_msg_index := 1 }
  else s

/-- The flush loop of `ProcessMidiByte` at `MIDI_SYSEX_END`:
`for (offset = 0; offset < length; ) { ... }`, leaving the loop when a send fails.
Every round that does not leave advances `offset` by at least one, so `fuel = length`
rounds are enough. -/
def sysexFlushLoop (ok : Nat → Bool) : Nat → Nat → UartRxState → UartRxState
  | 0, _, s => s
  | fuel + 1, offset, s =>
    if offset < s.uart_sysex_buffer.length then
      let remaining := s.uart_sysex_buffer.length - offset
      let chunk_size := if remaining > 3 then 3 else remaining
      let sysex_packet : MIDIPacket_t :=
        { data := (List.range chunk_size).map (fun i => s.uart_sysex_buffer.data (offset + i))
          length := chunk_size }
      let r := xQueueSend ok s sysex_packet
      if r.2 then sysexFlushLoop ok fuel (offset + chunk_size) r.1
      else incQueueFullErrors r.1
    else s

/-- `ProcessMidiByte`. -/
def ProcessMidiByte (ok : Nat → Bool) (s0 : UartRxState) (rx_byte : Nat) : UartRxState :=
  let s := incUartRxCount s0
  if rx_byte &&& 0x80 ≠ 0 then
    -- Status byte
    if rx_byte = MIDI_SYSEX_START then
      let b := { s.uart_sysex_buffer with in_sysex := true, length := 0, overflow := false }
      { s with uart_sysex_buffer := sysexAppend b rx_byte, midi_msg_index := 0 }
    else if rx_byte = MIDI_SYSEX_END then
      let s1 :=
        if s.uart_sysex_buffer.in_sysex then
          let s2 := { s with uart_sysex_buffer := sysexAppend s.uart_sysex_buffer rx_byte }
          if !s2.uart_sysex_buffer.overflow then
            sysexFlushLoop ok s2.uart_sysex_buffer.length 0 s2
          else
            incQueueFullErrors s2
        else s
      { s1 with uart_sysex_buffer := sysexReset s1.uart_sysex_buffer, midi_msg_index := 0 }
    else
      let s1 :=
        if s.uart_sysex_buffer.in_sysex then
          { s with uart_sysex_buffer := sysexReset s.uart_sysex_buffer }
        else s
      -- Normal status byte processing
      let s2 := { s1 with
        midi_running_status := rx_byte
        midi_msg_buffer := Function.update s1.midi_msg_buffer 0 rx_byte
        midi_msg_index := 1 }
      if rx_byte ≥ 0xF8 then
        if MIDI_FILTER_ACTIVE_SENSING ≠ 0 ∧ rx_byte = MIDI_ACTIVE_SENSING then
          { s2 with midi_msg_index := 0 }
        else if MIDI_FILTER_TIMING_CLOCK ≠ 0 ∧ rx_byte = MIDI_TIMING_CLOCK then
          { s2 with midi_msg_index := 0 }
        else
          let midi_packet : MIDIPacket_t := { data := [rx_byte], length := 1 }
          let r := xQueueSend ok s2 midi_packet
          let s3 := if r.2 then r.1 else incQueueFullErrors r.1
          { s3 with midi_msg_index := 0 }
      else if rx_byte ≥ 0xF0 then
        let s3 := MIDI_ResetRunningStatus s2
        { s3 with
          midi_msg_buffer := Function.update s3.midi_msg_buffer 0 rx_byte
          midi_msg_index := 1 }
      else s2
  else
    -- Data byte
    if s.uart_sysex_buffer.in_sysex then
      { s with uart_sysex_buffer := sysexAppend s.uart_sysex_buffer rx_byte }
    else if s.midi_running_status ≠ 0 ∧ s.midi_msg_index < 3 then
      SendCompleteMessage ok
        { s with
          midi_msg_buffer := Function.update s.midi_msg_buffer s.midi_msg_index rx_byte
          midi_msg_index := s.midi_msg_index + 1 }
    else s

/-- The inner loop of `vUartRxMidiTask`: every received byte goes through `ProcessMidiByte`,
in order. -/
def feedBytes (ok : Nat → Bool) (s : UartRxState) (bytes : List Nat) : UartRxState :=
  bytes.foldl (ProcessMidiByte ok) s

/-- The environment in which every `xQueueSend` succeeds. -/
def allSendsOk : Nat → Bool := fun _ => true

/-- The chunks of at most three bytes in which a byte sequence is cut, in order: what the
specification calls flushing a SysEx "as a sequence of ≤3-byte chunks". -/
def chunk3 : List Nat → List MIDIPacket_t
  | [] => []
  | [a] => [⟨[a], 1⟩]
  | [a, b] => [⟨[a, b], 2⟩]
  | a :: b :: c :: rest => ⟨[a, b, c], 3⟩ :: chunk3 rest

/-- The parser has just framed the Channel Voice status `st`: it is the running status, it
heads the message buffer, and no SysEx is open. -/
structure Framed (st : Nat) (s : UartRxState) : Prop where
  run : s.midi_running_status = st
  buf0 : s.midi_msg_buffer 0 = st
  idx : s.midi_msg_index = 1
  nosx : s.uart_sysex_buffer.in_sysex = false

/-! ## The USB-MIDI codec (`midi_common.c`, `uart_midi_task.c`, `usb_midi_task.c`) -/

/-- `MIDI_GetLengthFromCIN`: the message length a Code Index Number stands for. -/
def MIDI_GetLengthFromCIN (cin : Nat) : Nat :=
  if cin = USB_MIDI_CIN_2BYTE_SYSCOM ∨ cin = USB_MIDI_CIN_PROG_CHANGE
      ∨ cin = USB_MIDI_CIN_CHAN_PRESSURE then 2
  else if cin = USB_MIDI_CIN_3BYTE_SYSCOM ∨ cin = USB_MIDI_CIN_NOTE_OFF
      ∨ cin = USB_MIDI_CIN_NOTE_ON ∨ cin = USB_MIDI_CIN_POLY_KEYPRESS
      ∨ cin = USB_MIDI_CIN_CTRL_CHANGE ∨ cin = USB_MIDI_CIN_PITCH_BEND then 3
  else if cin = USB_MIDI_CIN_1BYTE then 1
  else 3

/-- The body of `vUartToUsbTask` up to the call of `tud_midi_packet_write`: the 4-byte
`usb_packet` built for a `midi_packet` taken from `xUartToUsbQueue`. A byte of
`midi_packet.data` is read only below `midi_packet.length`. -/
def vUartToUsbTask_usb_packet (midi_packet : MIDIPacket_t) : List Nat :=
  let data := fun i => midi_packet.data.getD i 0
  let cin :=
    if data 0 = MIDI_SYSEX_START then
      USB_MIDI_CIN_SYSEX_START
    else if data (midi_packet.length - 1) = MIDI_SYSEX_END then
      if midi_packet.length = 1 then USB_MIDI_CIN_1BYTE
      else if midi_packet.length = 2 then USB_MIDI_CIN_SYSEX_END_2
      else USB_MIDI_CIN_SYSEX_END_3
    else if midi_packet.length = 3 ∧ (data 0 < 0x80 ∨ (data 1 < 0x80 ∧ data 2 < 0x80)) then
      USB_MIDI_CIN_SYSEX_START
    else
      MIDI_GetCIN (data 0) midi_packet.length
  ((0x00 <<< 4) ||| cin) ::
    (List.range 3).map (fun i => if i < midi_packet.length then data i else 0)

/-- The globals the packet loop of `vUsbRxMidiTask` works on: the static `sysex_buffer` of
`usb_midi_task.c` (same fields and size as the UART one), the statistics, and the queue
`xUsbToUartQueue` with the count of the `xQueueSend` calls made on it. -/
structure UsbRxState where
  sysex_buffer : UartSysexBuffer
  midi_stats : MIDIStats_t
  queue : List MIDIPacket_t
  sends : Nat

/-- The USB receive state after start-up. -/
def usbInitialState : UsbRxState :=
  { sysex_buffer := { data := fun _ => 0, length := 0, in_sysex := false, overflow := false }
    midi_stats := ⟨0, 0, 0, 0, 0, 0, 0, 0, 0⟩
    queue := []
    sends := 0 }

/-- `xQueueSend(xUsbToUartQueue, &pkt, ...)`, the environment `ok` deciding the outcome. -/
def usbQueueSend (ok : Nat → Bool) (s : UsbRxState) (pkt : MIDIPacket_t) : UsbRxState × Bool :=
  if ok s.sends then
    ({ s with queue := s.queue ++ [pkt], sends := s.sends + 1 }, true)
  else
    ({ s with sends := s.sends + 1 }, false)

/-- `midi_stats.usb_rx_count++`. -/
def incUsbRxCount (s : UsbRxState) : UsbRxState :=
  { s with midi_stats :=
      { s.midi_stats with usb_rx_count := (s.midi_stats.usb_rx_count + 1) % UINT32_MOD } }

/-- `midi_stats.queue_full_errors++` on the USB receive side. -/
def usbIncQueueFullErrors (s : UsbRxState) : UsbRxState :=
  { s with midi_stats :=
      { s.midi_stats with queue_full_errors := (s.midi_stats.queue_full_errors + 1) % UINT32_MOD } }

/-- The loops `for (i = 0; i < n; i++)` of `vUsbRxMidiTask` that append `packet[i + 1]` to
the accumulator; with `skip_zero` a byte equal to 0x00 is left out ("Skip padding bytes"). -/
def usbSysexAppendBytes (skip_zero : Bool) (packet : Nat → Nat) (n : Nat)
    (b : UartSysexBuffer) : UartSysexBuffer :=
  (List.range n).foldl
    (fun acc i => if skip_zero ∧ packet (i + 1) = 0x00 then acc else sysexAppend acc (packet (i + 1)))
    b

/-- The flush loop of `vUsbRxMidiTask`, as `sysexFlushLoop` with `usb_rx_count` counting
the chunks sent. -/
def usbSysexFlushLoop (ok : Nat → Bool) : Nat → Nat → UsbRxState → UsbRxState
  | 0, _, s => s
  | fuel + 1, offset, s =>
    if offset < s.sysex_buffer.length then
      let remaining := s.sysex_buffer.length - offset
      let chunk_size := if remaining > 3 then 3 else remaining
      let sysex_packet : MIDIPacket_t :=
        { data := (List.range chunk_size).map (fun i => s.sysex_buffer.data (offset + i))
          length := chunk_size }
      let r := usbQueueSend ok s sysex_packet
      if r.2 then usbSysexFlushLoop ok fuel (offset + chunk_size) (incUsbRxCount r.1)
      else usbIncQueueFullErrors r.1
    else s

/-- The body of the packet loop of `vUsbRxMidiTask` for one packet that
`tud_midi_packet_read` has delivered. -/
def vUsbRxMidiTask_packet (ok : Nat → Bool) (s : UsbRxState) (usb_packet : List Nat) :
    UsbRxState :=
  let packet := fun i => usb_packet.getD i 0
  let cin := packet 0 &&& 0x0F
  -- switch (cin): midi_length and is_sysex
  let sw : Nat × Bool :=
    if cin = USB_MIDI_CIN_2BYTE_SYSCOM ∨ cin = USB_MIDI_CIN_PROG_CHANGE
        ∨ cin = USB_MIDI_CIN_CHAN_PRESSURE then (2, false)
    else if cin = USB_MIDI_CIN_3BYTE_SYSCOM ∨ cin = USB_MIDI_CIN_NOTE_OFF
        ∨ cin = USB_MIDI_CIN_NOTE_ON ∨ cin = USB_MIDI_CIN_POLY_KEYPRESS
        ∨ cin = USB_MIDI_CIN_CTRL_CHANGE ∨ cin = USB_MIDI_CIN_PITCH_BEND then (3, false)
    else if cin = USB_MIDI_CIN_1BYTE then
      if packet 1 = 0xF7 then (1, true) else (1, false)
    else if cin = USB_MIDI_CIN_SYSEX_START then (3, true)
    else if cin = USB_MIDI_CIN_SYSEX_END_2 then (2, true)
    else if cin = USB_MIDI_CIN_SYSEX_END_3 then (3, true)
    else (3, false)
  let midi_length := sw.1
  let is_sysex := sw.2
  if is_sysex then
    if cin = USB_MIDI_CIN_SYSEX_START then
      if packet 1 = 0xF0 then
        let b := { s.sysex_buffer with length := 0, in_sysex := true, overflow := false }
        { s with sysex_buffer := usbSysexAppendBytes false packet 3 b }
      else if s.sysex_buffer.in_sysex then
        { s with sysex_buffer := usbSysexAppendBytes true packet 3 s.sysex_buffer }
      else s
    else if (cin = USB_MIDI_CIN_SYSEX_END_2 ∨ cin = USB_MIDI_CIN_SYSEX_END_3
        ∨ (cin = USB_MIDI_CIN_1BYTE ∧ packet 1 = 0xF7)) ∧ s.sysex_buffer.in_sysex then
      let s1 := { s with sysex_buffer := usbSysexAppendBytes true packet midi_length s.sysex_buffer }
      let s2 :=
        if s1.sysex_buffer.length > 0 ∧ ¬ s1.sysex_buffer.overflow then
          usbSysexFlushLoop ok s1.sysex_buffer.length 0 s1
        else if s1.sysex_buffer.overflow then usbIncQueueFullErrors s1
        else s1
      { s2 with sysex_buffer := sysexReset s2.sysex_buffer }
    else s
  else
    let midi_packet : MIDIPacket_t :=
      { data := (List.range (min midi_length 3)).map (fun i => packet (i + 1))
        length := midi_length }
    if MIDI_FILTER_ACTIVE_SENSING ≠ 0
        ∧ midi_length = 1 ∧ midi_packet.data.getD 0 0 = MIDI_ACTIVE_SENSING then s
    else
      let r := usbQueueSend ok s midi_packet
      if r.2 then incUsbRxCount r.1 else usbIncQueueFullErrors r.1

/-- The packet loop of `vUsbRxMidiTask` over the packets read, in order. -/
def usbFeedPackets (ok : Nat → Bool) (s : UsbRxState) (packets : List (List Nat)) : UsbRxState :=
  packets.foldl (vUsbRxMidiTask_packet ok) s

/-! ## UMP (`ump_task.c`) -/

/-- `GetUmpWordCount`: the number of words of the UMP message that `first_word` starts. -/
def GetUmpWordCount (first_word : Nat) : Nat :=
  let message_type := (first_word >>> 28) &&& 0xF
  if message_type = 0x0 then 1
  else if message_type = 0x1 then 1
  else if message_type = 0x2 then 1
  else if message_type = 0x3 then 2
  else if message_type = 0x4 then 2
  else if message_type = 0x5 then 4
  else if message_type = 0xF then 4
  else 1

/-! ## MIDI-CI over UMP Data Messages (`ump_discovery.h`, `ump_discovery.c`) -/

def MANUFACTURER_ID_BYTE1 : Nat := 0x7D
def MANUFACTURER_ID_BYTE2 : Nat := 0x00
def MANUFACTURER_ID_BYTE3 : Nat := 0x00
def DEVICE_FAMILY_ID_LSB : Nat := 0x01
def DEVICE_FAMILY_ID_MSB : Nat := 0x00
def DEVICE_MODEL_ID_LSB : Nat := 0x01
def DEVICE_MODEL_ID_MSB : Nat := 0x00
def SW_VERSION_MAJOR : Nat := 1
def SW_VERSION_MINOR : Nat := 0
def SW_VERSION_PATCH : Nat := 0
def SW_VERSION_BUILD : Nat := 0
def SW_REVISION_LEVEL1 : Nat := SW_VERSION_MAJOR &&& 0x7F
def SW_REVISION_LEVEL2 : Nat := SW_VERSION_MINOR &&& 0x7F
def SW_REVISION_LEVEL3 : Nat := SW_VERSION_PATCH &&& 0x7F
def SW_REVISION_LEVEL4 : Nat := SW_VERSION_BUILD &&& 0x7F

def MIDI_CI_VERSION : Nat := 0x02
def MIDI_CI_CATEGORY : Nat := 0x7E
def MIDI_CI_SUB_ID : Nat := 0x0D
def MIDI_CI_SUB_ID2_DISCOVERY : Nat := 0x70
def MIDI_CI_SUB_ID2_DISCOVERY_REPLY : Nat := 0x71
def MIDI_CI_SUB_ID2_INVALIDATE_MUID : Nat := 0x7E
def MIDI_CI_SUB_ID2_NAK : Nat := 0x7F
def MIDI_CI_NAK_STATUS_UNSUPPORTED : Nat := 0x01

def MUID_FALLBACK_VALUE : Nat := 0x12345678

/-- Size of the static `sysex_buffer` of `ump_discovery.c`. -/
def UMP_SYSEX_BUFFER_SIZE : Nat := 256

/-- A call made on `xUmpTxQueue`: `xQueueReset`, or `xQueueSendToBack` with the words of the
message handed over. The code never looks at the result of either. -/
inductive UmpTxEvent where
  | reset : UmpTxEvent
  | send (words : List Nat) : UmpTxEvent
deriving DecidableEq, Repr

/-- The statics of `ump_discovery.c` that the Data Message path works on, and `tx`, the
calls made on `xUmpTxQueue` so far, oldest first (the queue exists: `xUmpTxQueue != NULL`). -/
structure UmpDiscoveryState where
  sysex_buffer : Nat → Nat
  sysex_length : Nat
  sysex_in_progress : Bool
  device_muid : Nat
  muid_initialized : Bool
  discovery_reply_sent : Bool
  tx : List UmpTxEvent

/-- The copy loop of `SendSysExAsUMP`,
`for (i = 0; i < bytes_in_packet; i++) if (pos < length && sysex_data[pos] != 0xF7) ...`,
on the pair `(data_bytes, pos)`; the first argument counts the rounds left. -/
def SendSysExAsUMP_copy (sysex_data : List Nat) (length : Nat) :
    Nat → Nat → (Nat → Nat) × Nat → (Nat → Nat) × Nat
  | 0, _, st => st
  | n + 1, i, st =>
    let st1 :=
      if st.2 < length ∧ sysex_data.getD st.2 0 ≠ 0xF7 then
        (Function.update st.1 i (sysex_data.getD st.2 0), st.2 + 1)
      else st
    SendSysExAsUMP_copy sysex_data length n (i + 1) st1

/-- The `while (pos < length)` loop of `SendSysExAsUMP`: the messages handed to
`xQueueSendToBack`, in order, or `none` when `fuel` rounds do not end the loop. -/
def SendSysExAsUMP_loop (sysex_data : List Nat) (length : Nat) :
    Nat → Nat → Option (List (List Nat))
  | 0, pos => if pos < length then none else some []
  | fuel + 1, pos =>
    if pos < length then
      let group := 0
      -- (status, bytes_in_packet, pos)
      let hdr : Nat × Nat × Nat :=
        if pos = 0 then
          if length ≤ 8 then (0, (length + 256 - 2) % 256, pos + 1)
          else (1, 6, pos + 1)
        else
          let remaining := length - pos - 1
          if remaining ≤ 6 then (3, remaining, pos)
          else (2, 6, pos)
      let status := hdr.1
      let bytes_in_packet := hdr.2.1
      let cp := SendSysExAsUMP_copy sysex_data length bytes_in_packet 0 (fun _ => 0, hdr.2.2)
      let data_bytes := cp.1
      let pos2 := if cp.2 < length ∧ sysex_data.getD cp.2 0 = 0xF7 then cp.2 + 1 else cp.2
      let ump_msg : List Nat :=
        [ (0x3 <<< 28) ||| (group <<< 24) ||| (status <<< 20) ||| (bytes_in_packet <<< 16)
            ||| (data_bytes 0 <<< 8) ||| data_bytes 1,
          (data_bytes 2 <<< 24) ||| (data_bytes 3 <<< 16) ||| (data_bytes 4 <<< 8)
            ||| data_bytes 5 ]
      (SendSysExAsUMP_loop sysex_data length fuel pos2).map (fun rest => ump_msg :: rest)
    else some []

/-- `SendSysExAsUMP(sysex_data, length)`: the Data Messages it hands to `xQueueSendToBack`,
in order. A round of the loop that ends at all moves `pos` forward, so `length` rounds are
enough for every run that ends; `none` stands for a run that does not. -/
def SendSysExAsUMP (sysex_data : List Nat) (length : Nat) : Option (List (List Nat)) :=
  SendSysExAsUMP_loop sysex_data length length 0

/-- `MIDICI_GenerateMUID`, `tick` being what `xTaskGetTickCount` returns
(`MUID_USE_TICK_COUNT` is 1). -/
def MIDICI_GenerateMUID (tick : Nat) : Nat :=
  let muid := tick &&& 0x0FFFFFFF
  if muid = 0 ∨ muid = 0x0FFFFFFF then MUID_FALLBACK_VALUE else muid

/-- The four 7-bit fields of a MUID, least significant first, as the senders write them. -/
def muidBytes (muid : Nat) : List Nat :=
  [muid &&& 0x7F, (muid >>> 7) &&& 0x7F, (muid >>> 14) &&& 0x7F, (muid >>> 21) &&& 0x7F]

/-- Hands `sysex_msg` to `SendSysExAsUMP` and records the sends. -/
def sendSysexMsg (s : UmpDiscoveryState) (sysex_msg : List Nat) : Option UmpDiscoveryState :=
  (SendSysExAsUMP sysex_msg sysex_msg.length).map
    (fun msgs => { s with tx := s.tx ++ msgs.map UmpTxEvent.send })

/-- `MIDICI_SendDiscoveryReply`. -/
def MIDICI_SendDiscoveryReply (s : UmpDiscoveryState) (destination_muid : Nat) :
    Option UmpDiscoveryState :=
  let s1 := { s with tx := s.tx ++ [UmpTxEvent.reset], discovery_reply_sent := true }
  let sysex_msg : List Nat :=
    [0xF0, MIDI_CI_CATEGORY, 0x7F, MIDI_CI_SUB_ID, 0x71, MIDI_CI_VERSION]
      ++ muidBytes s1.device_muid
      ++ muidBytes destination_muid
      ++ [MANUFACTURER_ID_BYTE1, MANUFACTURER_ID_BYTE2, MANUFACTURER_ID_BYTE3]
      ++ [DEVICE_FAMILY_ID_LSB, DEVICE_FAMILY_ID_MSB]
      ++ [DEVICE_MODEL_ID_LSB, DEVICE_MODEL_ID_MSB]
      ++ [SW_REVISION_LEVEL1 &&& 0x7F, SW_REVISION_LEVEL2 &&& 0x7F,
          SW_REVISION_LEVEL3 &&& 0x7F, SW_REVISION_LEVEL4 &&& 0x7F]
      ++ [0x01]
      ++ [0x00, 0x02, 0x00, 0x00]
      ++ [0x00]
      ++ [0x00]
      ++ [0xF7]
  sendSysexMsg s1 sysex_msg

/-- `MIDICI_SendInvalidateMUID`. -/
def MIDICI_SendInvalidateMUID (s : UmpDiscoveryState) (old_muid : Nat) :
    Option UmpDiscoveryState :=
  let sysex_msg : List Nat :=
    [0xF0, MIDI_CI_CATEGORY, 0x7F, MIDI_CI_SUB_ID, 0x7E, MIDI_CI_VERSION]
      ++ muidBytes s.device_muid
      ++ [0x7F, 0x7F, 0x7F, 0x7F]
      ++ muidBytes old_muid
      ++ [0xF7]
  sendSysexMsg s sysex_msg

/-- `MIDICI_SendNAK`. -/
def MIDICI_SendNAK (s : UmpDiscoveryState) (destination_muid original_sub_id status_code
    status_data : Nat) : Option UmpDiscoveryState :=
  let sysex_msg : List Nat :=
    [0xF0, MIDI_CI_CATEGORY, 0x7F, MIDI_CI_SUB_ID, MIDI_CI_SUB_ID2_NAK, MIDI_CI_VERSION]
      ++ muidBytes s.device_muid
      ++ muidBytes destination_muid
      ++ [original_sub_id, status_code, status_data]
      ++ List.replicate 5 0x00
      ++ [0x00, 0x00]
      ++ [0xF7]
  sendSysexMsg s sysex_msg

/-- `MIDICI_ProcessDiscovery`; `tick` is the tick count `MIDICI_GenerateMUID` would read. -/
def MIDICI_ProcessDiscovery (tick : Nat) (s : UmpDiscoveryState) (length source_muid : Nat) :
    Option UmpDiscoveryState :=
  if length < 17 then some s
  else if source_muid = s.device_muid then
    let old_muid := s.device_muid
    MIDICI_SendInvalidateMUID { s with device_muid := MIDICI_GenerateMUID tick } old_muid
  else
    MIDICI_SendDiscoveryReply s source_muid

/-- The assignment `sysex_buffer[sysex_length++] = b`. -/
def umpSysexPush (s : UmpDiscoveryState) (b : Nat) : UmpDiscoveryState :=
  { s with
    sysex_buffer := Function.update s.sysex_buffer s.sysex_length b
    sysex_length := s.sysex_length + 1 }

/-- The loops `for (i = 0; i < num_bytes && i < 6; i++)` of `UMP_ProcessDataMessage`: byte
`data[i]` is pushed when `keep` allows it in the state reached so far. -/
def umpSysexCopy (keep : UmpDiscoveryState → Nat → Bool) (data : Nat → Nat) (num_bytes : Nat)
    (s : UmpDiscoveryState) : UmpDiscoveryState :=
  (List.range (min num_bytes 6)).foldl
    (fun acc i => if keep acc (data i) then umpSysexPush acc (data i) else acc) s

/-- The block "Process complete SysEx for MIDI-CI" of `case 0` of `UMP_ProcessDataMessage`,
on the state `s2` reached after the copy loop. -/
def UMP_ProcessDataMessage_ci_complete (tick : Nat) (s2 : UmpDiscoveryState) :
    Option UmpDiscoveryState :=
  if s2.sysex_length ≥ 4 then
    if s2.sysex_buffer 0 = MIDI_CI_CATEGORY ∧ s2.sysex_buffer 2 = MIDI_CI_SUB_ID then
      let sub_id2 := s2.sysex_buffer 3
      if sub_id2 = MIDI_CI_SUB_ID2_DISCOVERY ∧ s2.sysex_length ≥ 17 then
        let source_muid :=
          (s2.sysex_buffer 5 &&& 0x7F) ||| ((s2.sysex_buffer 6 &&& 0x7F) <<< 7)
            ||| ((s2.sysex_buffer 7 &&& 0x7F) <<< 14)
            ||| ((s2.sysex_buffer 8 &&& 0x7F) <<< 21)
        MIDICI_ProcessDiscovery tick s2 s2.sysex_length source_muid
      else if sub_id2 ≠ MIDI_CI_SUB_ID2_DISCOVERY_REPLY
          ∧ sub_id2 ≠ MIDI_CI_SUB_ID2_INVALIDATE_MUID
          ∧ sub_id2 ≠ MIDI_CI_SUB_ID2_NAK ∧ s2.sysex_length ≥ 13 then
        let source_muid :=
          (s2.sysex_buffer 5 &&& 0x7F) ||| ((s2.sysex_buffer 6 &&& 0x7F) <<< 7)
            ||| ((s2.sysex_buffer 7 &&& 0x7F) <<< 14)
            ||| ((s2.sysex_buffer 8 &&& 0x7F) <<< 21)
        MIDICI_SendNAK s2 source_muid sub_id2 MIDI_CI_NAK_STATUS_UNSUPPORTED 0x00
      else some s2
    else some s2
  else some s2

/-- The block "Process complete SysEx for MIDI-CI" of `case 3` of `UMP_ProcessDataMessage`,
on the state `s1` reached after the copy loop. -/
def UMP_ProcessDataMessage_ci_end (tick : Nat) (s1 : UmpDiscoveryState) :
    Option UmpDiscoveryState :=
  if s1.sysex_length ≥ 4 then
    if s1.sysex_buffer 0 = MIDI_CI_CATEGORY ∧ s1.sysex_buffer 2 = MIDI_CI_SUB_ID then
      if s1.sysex_buffer 3 = 0x70 ∧ s1.sysex_length ≥ 17 then
        let source_muid :=
          ((s1.sysex_buffer 5 &&& 0x7F) <<< 21) ||| ((s1.sysex_buffer 6 &&& 0x7F) <<< 14)
            ||| ((s1.sysex_buffer 7 &&& 0x7F) <<< 7)
            ||| (s1.sysex_buffer 8 &&& 0x7F)
        MIDICI_ProcessDiscovery tick s1 s1.sysex_length source_muid
      else some s1
    else some s1
  else some s1

/-- `UMP_ProcessDataMessage(ump_data, word_count)`; `tick` is the tick count that
`MIDICI_GenerateMUID` would read during the call. -/
def UMP_ProcessDataMessage (tick : Nat) (s : UmpDiscoveryState) (ump_data : List Nat)
    (word_count : Nat) : Option UmpDiscoveryState :=
  if word_count < 2 then some s
  else
    let w0 := ump_data.getD 0 0
    let w1 := ump_data.getD 1 0
    let mt := (w0 >>> 28) &&& 0xF
    if mt ≠ 0x3 then some s
    else
      let status := (w0 >>> 20) &&& 0xF
      let num_bytes := (w0 >>> 16) &&& 0xF
      let bytes : List Nat :=
        [(w0 >>> 8) &&& 0xFF, w0 &&& 0xFF, (w1 >>> 24) &&& 0xFF, (w1 >>> 16) &&& 0xFF,
         (w1 >>> 8) &&& 0xFF, w1 &&& 0xFF]
      let data := fun i => bytes.getD i 0
      if status = 0 then
        let s1 := { s with sysex_length := 0, sysex_in_progress := false }
        let s2 := umpSysexCopy (fun _ b => decide (b ≠ 0xF7)) data num_bytes s1
        UMP_ProcessDataMessage_ci_complete tick s2
      else if status = 1 then
        let s1 := { s with sysex_length := 0, sysex_in_progress := true }
        some (umpSysexCopy (fun _ _ => true) data num_bytes s1)
      else if status = 2 then
        if s.sysex_in_progress ∧ s.sysex_length < UMP_SYSEX_BUFFER_SIZE then
          some (umpSysexCopy (fun acc _ => decide (acc.sysex_length < UMP_SYSEX_BUFFER_SIZE))
            data num_bytes s)
        else some s
      else if status = 3 then
        if s.sysex_in_progress then
          let s1 := umpSysexCopy
            (fun acc b => decide (b ≠ 0xF7 ∧ acc.sysex_length < UMP_SYSEX_BUFFER_SIZE))
            data num_bytes s
          (UMP_ProcessDataMessage_ci_end tick s1).map
            (fun s2 => { s2 with sysex_in_progress := false })
        else some s
      else some s

/-- The Data Message branch of `vUsbToUmpTask` over the messages read, in order: each goes
to `UMP_ProcessDataMessage` with `word_count = GetUmpWordCount(ump_data[0])`; `ticks k` is
the tick count during the `k`-th call. -/
def umpFeedDataMessages (ticks : Nat → Nat) :
    UmpDiscoveryState → List (List Nat) → Option UmpDiscoveryState
  | s, [] => some s
  | s, m :: ms =>
    (UMP_ProcessDataMessage (ticks 0) s m (GetUmpWordCount (m.getD 0 0))).bind
      (fun s1 => umpFeedDataMessages (fun k => ticks (k + 1)) s1 ms)

/-- The Data Message of the specification, section 4.5: `word0 = type | group | status |
count | byte0 | byte1` and `word1 = byte2 .. byte5`, most significant first, the bytes that
`bytes` does not have being zero. -/
def sysex7Message (status : Nat) (bytes : List Nat) : List Nat :=
  [ (0x3 <<< 28) ||| (0 <<< 24) ||| (status <<< 20) ||| (bytes.length <<< 16)
      ||| (bytes.getD 0 0 <<< 8) ||| bytes.getD 1 0,
    (bytes.getD 2 0 <<< 24) ||| (bytes.getD 3 0 <<< 16) ||| (bytes.getD 4 0 <<< 8)
      ||| bytes.getD 5 0 ]

/-- The state of the UMP side after start-up, before `UMP_Discovery_Init`. -/
def umpInitialState : UmpDiscoveryState :=
  { sysex_buffer := fun _ => 0
    sysex_length := 0
    sysex_in_progress := false
    device_muid := 0
    muid_initialized := false
    discovery_reply_sent := false
    tx := [] }

/-- The number of Data Messages for a payload of `N` bytes: one when `N ≤ 6`, and
`⌈N/6⌉` otherwise. -/
def sysex7Count (N : Nat) : Nat := if N ≤ 6 then 1 else (N + 5) / 6

/-- The status of the `i`-th Data Message for a payload of `N` bytes: 0 (complete) when
`N ≤ 6`; otherwise 1 (start) for the first, 3 (end) for the last, 2 (continue) between. -/
def sysex7Status (N i : Nat) : Nat :=
  if N ≤ 6 then 0 else if i = 0 then 1 else if i + 1 = sysex7Count N then 3 else 2

/-! ## Name notifications (`ump_discovery.h`, `ump_discovery.c`) -/

def UMP_STREAM_MSG_ENDPOINT_NAME : Nat := 0x03
def UMP_STREAM_MSG_PRODUCT_INSTANCE_ID : Nat := 0x04

/-- The characters of `UMP_ENDPOINT_NAME`, "USB MIDI 2.0 Converter". -/
def UMP_ENDPOINT_NAME : List Nat :=
  [0x55, 0x53, 0x42, 0x20, 0x4D, 0x49, 0x44, 0x49, 0x20, 0x32, 0x2E, 0x30, 0x20,
   0x43, 0x6F, 0x6E, 0x76, 0x65, 0x72, 0x74, 0x65, 0x72]

/-- The characters of `UMP_PRODUCT_INSTANCE_ID`, "MIDI2USB-001". -/
def UMP_PRODUCT_INSTANCE_ID : List Nat :=
  [0x4D, 0x49, 0x44, 0x49, 0x32, 0x55, 0x53, 0x42, 0x2D, 0x30, 0x30, 0x31]

/-- `EncodeString7bit(str, output, max_bytes)`: the bytes it writes to `output`, which are
the first `max_bytes` characters of `str` masked with 0x7F, then zeros up to `max_bytes`;
the value it returns is the length of this list. A string is the list of its characters,
the final NUL left out, so that `strlen` is the length of the list. -/
def EncodeString7bit (str : List Nat) (max_bytes : Nat) : List Nat :=
  (str.take max_bytes).map (fun c => c &&& 0x7F)
    ++ List.replicate (max_bytes - (str.take max_bytes).length) 0

/-- The loop "Pack remaining bytes",
`for (i = 2; i < hi; i++) ump_msg[1 + (i-2)/4] |= bytes[i] << ((3 - (i-2)%4) * 8)`. -/
def packNameBytes (bytes : Nat → Nat) (hi : Nat) (ump_msg : Nat → Nat) : Nat → Nat :=
  (List.range' 2 (hi - 2)).foldl
    (fun msg i =>
      let word_idx := 1 + (i - 2) / 4
      let byte_idx := 3 - (i - 2) % 4
      Function.update msg word_idx (msg word_idx ||| (bytes i <<< (byte_idx * 8))))
    ump_msg

/-- The branch `name_len <= 14` of `UMP_SendEndpointNameNotification` and of
`UMP_SendProductInstanceIdNotification`: the four words handed to `SendUMPStreamMessage`;
`status` is `UMP_STREAM_MSG_ENDPOINT_NAME` or `UMP_STREAM_MSG_PRODUCT_INSTANCE_ID`. -/
def UMP_SendNameNotification_short (status : Nat) (name : List Nat) : List Nat :=
  let name_7bit := EncodeString7bit name 14
  let encoded_len := name_7bit.length
  let w0 := (0xF <<< 28) ||| (0x0 <<< 26) ||| (status <<< 16)
  let w0 := if encoded_len ≥ 1 then w0 ||| (name_7bit.getD 0 0 <<< 8) else w0
  let w0 := if encoded_len ≥ 2 then w0 ||| name_7bit.getD 1 0 else w0
  let ump_msg := packNameBytes (fun i => name_7bit.getD i 0) encoded_len
    (Function.update (fun _ => 0) 0 w0)
  [ump_msg 0, ump_msg 1, ump_msg 2, ump_msg 3]

/-- The loop `while (offset < name_len && offset < 98)` of the same two functions, from
`offset` with `form`: the messages handed to `SendUMPStreamMessage`, in order, or `none`
when the rounds allowed by the first argument do not end the loop. -/
def UMP_SendNameNotification_loop (status : Nat) (name : List Nat) :
    Nat → Nat → Nat → Option (List (List Nat))
  | 0, offset, _ => if offset < name.length ∧ offset < 98 then none else some []
  | fuel + 1, offset, form =>
    if offset < name.length ∧ offset < 98 then
      let chunk_len := if name.length - offset < 14 then name.length - offset else 14
      let chunk := fun i => if i < chunk_len then name.getD (offset + i) 0 &&& 0x7F else 0
      let w0 := (0xF <<< 28) ||| (form <<< 26) ||| (status <<< 16)
      let w0 := if chunk_len ≥ 1 then w0 ||| (chunk 0 <<< 8) else w0
      let w0 := if chunk_len ≥ 2 then w0 ||| chunk 1 else w0
      let ump_msg := packNameBytes chunk 14 (Function.update (fun _ => 0) 0 w0)
      let msg := [ump_msg 0, ump_msg 1, ump_msg 2, ump_msg 3]
      let offset1 := offset + 14
      if offset1 ≥ name.length then some [msg]
      else
        let form1 :=
          if form = 0x1 then (if offset1 + 14 < name.length then 0x2 else 0x3)
          else if form = 0x2 then (if offset1 + 14 ≥ name.length then 0x3 else form)
          else form
        (UMP_SendNameNotification_loop status name fuel offset1 form1).map
          (fun rest => msg :: rest)
    else some []

/-- The body shared by `UMP_SendEndpointNameNotification` and
`UMP_SendProductInstanceIdNotification`, which differ in the string and in the status
only: the messages handed to `SendUMPStreamMessage`, in order. `offset` grows by 14 in
every round and the loop stops at 98, so 7 rounds are allowed. -/
def UMP_SendNameNotification (status : Nat) (name : List Nat) : Option (List (List Nat)) :=
  if name.length ≤ 14 then some [UMP_SendNameNotification_short status name]
  else UMP_SendNameNotification_loop status name 7 0 0x1

/-- `UMP_SendEndpointNameNotification`, for `endpoint_name[]` holding `endpoint_name`. -/
def UMP_SendEndpointNameNotification (endpoint_name : List Nat) : Option (List (List Nat)) :=
  UMP_SendNameNotification UMP_STREAM_MSG_ENDPOINT_NAME endpoint_name

/-- `UMP_SendProductInstanceIdNotification`, for `product_instance_id[]` holding
`product_instance_id`. -/
def UMP_SendProductInstanceIdNotification (product_instance_id : List Nat) :
    Option (List (List Nat)) :=
  UMP_SendNameNotification UMP_STREAM_MSG_PRODUCT_INSTANCE_ID product_instance_id

/-- The Stream message of the specification, section 4.4: header
`0xF<<28 | Format<<26 | Status<<16`, bytes 0 and 1 in the low 16 bits of word 0, bytes 2 to
13 four per word, most significant first, in words 1 to 3; the bytes that `bytes` does not
have are zero. -/
def streamNameMessage (status form : Nat) (bytes : List Nat) : List Nat :=
  [ (0xF <<< 28) ||| (form <<< 26) ||| (status <<< 16)
      ||| (bytes.getD 0 0 <<< 8) ||| bytes.getD 1 0,
    (bytes.getD 2 0 <<< 24) ||| (bytes.getD 3 0 <<< 16) ||| (bytes.getD 4 0 <<< 8)
      ||| bytes.getD 5 0,
    (bytes.getD 6 0 <<< 24) ||| (bytes.getD 7 0 <<< 16) ||| (bytes.getD 8 0 <<< 8)
      ||| bytes.getD 9 0,
    (bytes.getD 10 0 <<< 24) ||| (bytes.getD 11 0 <<< 16) ||| (bytes.getD 12 0 <<< 8)
      ||| bytes.getD 13 0 ]

/-- The name bytes `14i .. min(14i+14, L)-1`, each masked with 0x7F. -/
def nameChunk (name : List Nat) (i : Nat) : List Nat :=
  ((name.drop (14 * i)).take 14).map (fun c => c &&& 0x7F)

/-- The Format of the `i`-th of `count` messages of a long name, in the words of the
specification: 1 (start) for the first, 3 (end) for the last, 2 (continue) between. -/
def nameFormat (count i : Nat) : Nat :=
  if i = 0 then 1 else if i + 1 = count then 3 else 2

/-! ## MIDI-CI messages in the words of the specification -/

/-- The four 7-bit fields of a MUID in the words of the specification, least significant
first: `x mod 128`, then the next seven bits, and so on. -/
def muidFields (x : Nat) : List Nat :=
  [x % 128, x / 128 % 128, x / 128 ^ 2 % 128, x / 128 ^ 3 % 128]

/-- The Invalidate-MUID SysEx of the specification, section 4.6: `F0 7E 7F 0D 7E 02`, the
source MUID, the broadcast MUID `7F 7F 7F 7F`, the invalidated MUID, `F7`. -/
def invalidateMuidSysex (new_muid old_muid : Nat) : List Nat :=
  [0xF0, 0x7E, 0x7F, 0x0D, 0x7E, 0x02] ++ muidFields new_muid ++ [0x7F, 0x7F, 0x7F, 0x7F]
    ++ muidFields old_muid ++ [0xF7]

/-- The Discovery Reply SysEx of the specification, section 4.6: `F0 7E 7F 0D 71 02`, our
MUID, the destination MUID, manufacturer `7D 00 00`, family `01 00`, model `01 00`,
software revision `01 00 00 00`, category `01`, maximum SysEx size `00 02 00 00`, output
path `00`, function block `00`, `F7`. -/
def discoveryReplySysex (our_muid destination_muid : Nat) : List Nat :=
  [0xF0, 0x7E, 0x7F, 0x0D, 0x71, 0x02] ++ muidFields our_muid ++ muidFields destination_muid
    ++ [0x7D, 0x00, 0x00] ++ [0x01, 0x00] ++ [0x01, 0x00] ++ [0x01, 0x00, 0x00, 0x00]
    ++ [0x01] ++ [0x00, 0x02, 0x00, 0x00] ++ [0x00] ++ [0x00] ++ [0xF7]

/-! ## Stream messages (`ump_discovery.h`, `ump_discovery.c`) -/

def UMP_STREAM_MSG_ENDPOINT_DISCOVERY : Nat := 0x00
def UMP_STREAM_MSG_ENDPOINT_INFO : Nat := 0x01
def UMP_STREAM_MSG_DEVICE_IDENTITY : Nat := 0x02
def UMP_STREAM_MSG_STREAM_CONFIG_REQUEST : Nat := 0x05
def UMP_STREAM_MSG_STREAM_CONFIG_NOTIFY : Nat := 0x06
def UMP_STREAM_MSG_FUNCTION_BLOCK_DISCOVERY : Nat := 0x10
def UMP_STREAM_MSG_FUNCTION_BLOCK_INFO : Nat := 0x11
def UMP_STREAM_MSG_FUNCTION_BLOCK_NAME : Nat := 0x12

def UMP_VERSION_MAJOR : Nat := 0x01
def UMP_VERSION_MINOR : Nat := 0x02
def FB0_STATIC : Nat := 1
def NUM_FUNCTION_BLOCKS : Nat := 1
def FB0_FIRST_GROUP : Nat := 0
def FB0_NUM_GROUPS : Nat := 1
def UMP_PROTOCOL_MIDI_2_0 : Nat := 0x02

/-- The characters of `UMP_FB0_NAME`, "Main Port". -/
def UMP_FB0_NAME : List Nat := [0x4D, 0x61, 0x69, 0x6E, 0x20, 0x50, 0x6F, 0x72, 0x74]

/-- `ump_function_block_info_t`. -/
structure ump_function_block_info_t where
  block_id : Nat
  active : Nat
  direction : Nat
  midi1_port : Nat
  ui_hint : Nat
  first_group : Nat
  num_groups : Nat
  midi_ci_version : Nat
  max_sysex_size : Nat

/-- The static table `function_blocks[NUM_FUNCTION_BLOCKS]`, which has one entry. -/
def function_blocks (_i : Nat) : ump_function_block_info_t :=
  { block_id := 0
    active := 1
    direction := 3
    midi1_port := 0
    ui_hint := 0
    first_group := FB0_FIRST_GROUP
    num_groups := FB0_NUM_GROUPS
    midi_ci_version := MIDI_CI_VERSION
    max_sysex_size := 3 }

/-- `UMP_SendEndpointInfoNotification`: the four words handed to `SendUMPStreamMessage`;
`endpoint_info` has `supports_midi_2_0` alone set. -/
def UMP_SendEndpointInfoNotification : List Nat :=
  [ (0xF <<< 28) ||| (0 <<< 26) ||| (UMP_STREAM_MSG_ENDPOINT_INFO <<< 16)
      ||| (UMP_VERSION_MAJOR <<< 8) ||| UMP_VERSION_MINOR,
    (FB0_STATIC <<< 31) ||| (NUM_FUNCTION_BLOCKS <<< 24) ||| (1 <<< 9) ||| 0 ||| 0 ||| 0,
    0, 0 ]

/-- `UMP_SendDeviceIdentityNotification`: the four words handed to
`SendUMPStreamMessage`. -/
def UMP_SendDeviceIdentityNotification : List Nat :=
  [ (0xF <<< 28) ||| (0 <<< 26) ||| (UMP_STREAM_MSG_DEVICE_IDENTITY <<< 16),
    (MANUFACTURER_ID_BYTE1 <<< 16) ||| (MANUFACTURER_ID_BYTE2 <<< 8) ||| MANUFACTURER_ID_BYTE3,
    (DEVICE_FAMILY_ID_MSB <<< 24) ||| (DEVICE_FAMILY_ID_LSB <<< 16)
      ||| (DEVICE_MODEL_ID_MSB <<< 8) ||| DEVICE_MODEL_ID_LSB,
    (SW_REVISION_LEVEL1 <<< 24) ||| (SW_REVISION_LEVEL2 <<< 16) ||| (SW_REVISION_LEVEL3 <<< 8)
      ||| SW_REVISION_LEVEL4 ]

/-- `UMP_SendStreamConfigNotification(protocol, rx_jr, tx_jr)`: the four words handed to
`SendUMPStreamMessage`. -/
def UMP_SendStreamConfigNotification (protocol : Nat) (rx_jr tx_jr : Bool) : List Nat :=
  [ (0xF <<< 28) ||| (0 <<< 26) ||| (UMP_STREAM_MSG_STREAM_CONFIG_NOTIFY <<< 16)
      ||| (protocol <<< 8) ||| (if rx_jr then 0x02 else 0) ||| (if tx_jr then 0x01 else 0),
    0, 0, 0 ]

/-- `UMP_SendFunctionBlockInfoNotification(function_block_id)`: the messages handed to
`SendUMPStreamMessage`, none for an id that is not below `NUM_FUNCTION_BLOCKS`. -/
def UMP_SendFunctionBlockInfoNotification (function_block_id : Nat) : List (List Nat) :=
  if function_block_id ≥ NUM_FUNCTION_BLOCKS then []
  else
    let fb := function_blocks function_block_id
    [[ (0xF <<< 28) ||| (0 <<< 26) ||| (UMP_STREAM_MSG_FUNCTION_BLOCK_INFO <<< 16)
         ||| (fb.active <<< 15) ||| (fb.block_id <<< 8)
         ||| (1 <<< 5) ||| (1 <<< 4) ||| (0 <<< 2) ||| (fb.direction &&& 0x3),
       ((fb.first_group &&& 0xFF) <<< 24) ||| ((fb.num_groups &&& 0xFF) <<< 16)
         ||| ((fb.midi_ci_version &&& 0xFF) <<< 8) ||| 0,
       0, 0 ]]

/-- `UMP_SendFunctionBlockNameNotification(function_block_id)`: the messages handed to
`SendUMPStreamMessage`, none for an id that is not below `NUM_FUNCTION_BLOCKS`. The name
starts in the low byte of word 0 and goes on, four bytes a word, in words 1 to 3. -/
def UMP_SendFunctionBlockNameNotification (function_block_id : Nat) : List (List Nat) :=
  if function_block_id ≥ NUM_FUNCTION_BLOCKS then []
  else
    let name_7bit := EncodeString7bit UMP_FB0_NAME 13
    let encoded_len := name_7bit.length
    let fb := function_blocks function_block_id
    let w0 := (0xF <<< 28) ||| (0 <<< 26) ||| (UMP_STREAM_MSG_FUNCTION_BLOCK_NAME <<< 16)
      ||| (fb.block_id <<< 8)
    let w0 := if encoded_len ≥ 1 then w0 ||| name_7bit.getD 0 0 else w0
    let bytes_to_pack := if encoded_len < 13 then encoded_len else 13
    let ump_msg := (List.range' 1 (bytes_to_pack - 1)).foldl
      (fun msg i =>
        let word_idx := 1 + (i - 1) / 4
        let byte_idx := 3 - (i - 1) % 4
        Function.update msg word_idx (msg word_idx ||| (name_7bit.getD i 0 <<< (byte_idx * 8))))
      (Function.update (fun _ => 0) 0 w0)
    [[ump_msg 0, ump_msg 1, ump_msg 2, ump_msg 3]]

/-- `UMP_ProcessStreamMessage(ump_data, word_count)`: the messages handed to
`SendUMPStreamMessage`, and so to `xQueueSendToBack(xUmpTxQueue, ...)`, in order. The
strings are the configured ones and `current_protocol`, which nothing writes, is
`{UMP_PROTOCOL_MIDI_2_0, false, false}`. -/
def UMP_ProcessStreamMessage (ump_data : List Nat) (word_count : Nat) :
    Option (List (List Nat)) :=
  if word_count < 1 then some []
  else
    let w0 := ump_data.getD 0 0
    let w1 := ump_data.getD 1 0
    let mt := (w0 >>> 28) &&& 0xF
    if mt ≠ 0xF then some []
    else
      let status := (w0 >>> 16) &&& 0x3FF
      if status = UMP_STREAM_MSG_ENDPOINT_DISCOVERY then
        let filter := w1 &&& 0x1F
        let m1 := if filter &&& 0x01 ≠ 0 then [UMP_SendEndpointInfoNotification] else []
        let m2 := if filter &&& 0x02 ≠ 0 then [UMP_SendDeviceIdentityNotification] else []
        let m3 := if filter &&& 0x04 ≠ 0 then UMP_SendEndpointNameNotification UMP_ENDPOINT_NAME
          else some []
        let m4 := if filter &&& 0x08 ≠ 0 then
            UMP_SendProductInstanceIdNotification UMP_PRODUCT_INSTANCE_ID
          else some []
        let m5 := if filter &&& 0x10 ≠ 0 then
            [UMP_SendStreamConfigNotification UMP_PROTOCOL_MIDI_2_0 false false]
          else []
        m3.bind (fun n3 => m4.map (fun n4 => m1 ++ m2 ++ n3 ++ n4 ++ m5))
      else if status = UMP_STREAM_MSG_STREAM_CONFIG_REQUEST then
        some [UMP_SendStreamConfigNotification UMP_PROTOCOL_MIDI_2_0 false false]
      else if status = UMP_STREAM_MSG_FUNCTION_BLOCK_DISCOVERY then
        let fb_id := (w0 >>> 8) &&& 0xFF
        let filter := w0 &&& 0xFF
        if fb_id = 0xFF then
          some ((List.range NUM_FUNCTION_BLOCKS).map (fun i =>
            let fb_index := (function_blocks i).block_id
            (if filter &&& 0x01 ≠ 0 then UMP_SendFunctionBlockInfoNotification fb_index else [])
              ++ (if filter &&& 0x02 ≠ 0 then UMP_SendFunctionBlockNameNotification fb_index
                  else []))).flatten
        else if fb_id < NUM_FUNCTION_BLOCKS then
          some ((if filter &&& 0x01 ≠ 0 then UMP_SendFunctionBlockInfoNotification fb_id else [])
            ++ (if filter &&& 0x02 ≠ 0 then UMP_SendFunctionBlockNameNotification fb_id
                else []))
        else some []
      else some []

def UMP_QUEUE_LENGTH : Nat := 16

/-- The content of `xUmpTxQueue`, created with `UMP_QUEUE_LENGTH` places, after the calls
`events` made on it while it held `q` and nothing was taken out: `xQueueReset` empties it,
`xQueueSendToBack` appends the message unless the queue is full, in which case the call
times out and the message is lost. -/
def xUmpTxQueue_after : List (List Nat) → List UmpTxEvent → List (List Nat)
  | q, [] => q
  | _, UmpTxEvent.reset :: es => xUmpTxQueue_after [] es
  | q, UmpTxEvent.send words :: es =>
    xUmpTxQueue_after (if q.length < UMP_QUEUE_LENGTH then q ++ [words] else q) es

/-! ## The mode manager (`mode_manager_hal.h`, `mode_manager.h`, `mode_manager.c`) -/

def HAL_PIN_RESET : Nat := 0
def HAL_PIN_SET : Nat := 1
def MIDI_MODE_1_0 : Nat := 0
def MIDI_MODE_2_0 : Nat := 1

/-- A call made through a `ModeManagerHAL_t`; `hal` names the structure the function
pointer was taken from. -/
inductive HalCall where
  | read_setup_pin (hal : Nat) : HalCall
  | set_m1_led (hal : Nat) (state : Nat) : HalCall
  | set_m2_led (hal : Nat) (state : Nat) : HalCall
deriving DecidableEq, Repr

/-- The globals of `mode_manager.c`, and the HAL calls made so far, oldest first. A HAL
pointer is `none` for `NULL`. -/
structure ModeManagerState where
  g_midi_mode : Nat
  current_hal : Option Nat
  calls : List HalCall

/-- The address of `production_hal`. -/
def production_hal : Nat := 0

/-- The number of calls of `read_setup_pin` among `calls`. -/
def setupPinReads (calls : List HalCall) : Nat :=
  (calls.filter (fun c => match c with
    | HalCall.read_setup_pin _ => true
    | _ => false)).length

/-- The mode manager before `ModeManager_Init`. -/
def modeInitialState : ModeManagerState :=
  { g_midi_mode := MIDI_MODE_1_0, current_hal := none, calls := [] }

/-- `ModeManager_DetermineModeFromPin`. -/
def ModeManager_DetermineModeFromPin (pin_state : Nat) : Nat :=
  if pin_state = HAL_PIN_SET then MIDI_MODE_2_0 else MIDI_MODE_1_0

/-- `ModeManager_SetLEDsWithHAL(mode, hal)`. -/
def ModeManager_SetLEDsWithHAL (mode : Nat) (hal : Option Nat) (s : ModeManagerState) :
    ModeManagerState :=
  match hal with
  | none => s
  | some h =>
    if mode = MIDI_MODE_1_0 then
      { s with calls := s.calls
          ++ [HalCall.set_m1_led h HAL_PIN_SET, HalCall.set_m2_led h HAL_PIN_RESET] }
    else
      { s with calls := s.calls
          ++ [HalCall.set_m1_led h HAL_PIN_RESET, HalCall.set_m2_led h HAL_PIN_SET] }

/-- `ModeManager_InitWithHAL(hal)`; `pin k` is what the setup pin reads at the call of
`read_setup_pin` that `k` such calls came before. -/
def ModeManager_InitWithHAL (pin : Nat → Nat) (hal : Option Nat) (s : ModeManagerState) :
    ModeManagerState :=
  match hal with
  | none => s
  | some h =>
    let setup_state := pin (setupPinReads s.calls)
    let s1 := { s with current_hal := some h, calls := s.calls ++ [HalCall.read_setup_pin h] }
    let s2 := { s1 with g_midi_mode := ModeManager_DetermineModeFromPin setup_state }
    ModeManager_SetLEDsWithHAL s2.g_midi_mode (some h) s2

/-- `ModeManager_Init`, in the firmware build (`TESTING` not defined). -/
def ModeManager_Init (pin : Nat → Nat) (s : ModeManagerState) : ModeManagerState :=
  ModeManager_InitWithHAL pin (some production_hal) s

/-- `ModeManager_GetMode`. -/
def ModeManager_GetMode (s : ModeManagerState) : Nat := s.g_midi_mode

/-- `ModeManager_SetLEDs(mode)`, in the firmware build, where a `NULL` `current_hal` falls
back on `production_hal`. -/
def ModeManager_SetLEDs (mode : Nat) (s : ModeManagerState) : ModeManagerState :=
  match s.current_hal with
  | some h => ModeManager_SetLEDsWithHAL mode (some h) s
  | none => ModeManager_SetLEDsWithHAL mode (some production_hal) s

/-- `is_midi2_mode`. -/
def is_midi2_mode (s : ModeManagerState) : Bool :=
  decide (ModeManager_GetMode s = MIDI_MODE_2_0)

/-- A call of one of the operations of the mode manager. -/
inductive ModeOp where
  | getMode : ModeOp
  | isMidi2Mode : ModeOp
  | setLEDs (mode : Nat) : ModeOp
  | setLEDsWithHAL (mode : Nat) (hal : Option Nat) : ModeOp
  | initWithHAL (hal : Option Nat) : ModeOp
deriving DecidableEq, Repr

/-- Whether the operation is a call of `ModeManager_InitWithHAL` with a hal that is not
`NULL`. -/
def modeOpIsInit : ModeOp → Bool
  | ModeOp.initWithHAL (some _) => true
  | _ => false

/-- The state after one operation. -/
def runModeOp (pin : Nat → Nat) (s : ModeManagerState) : ModeOp → ModeManagerState
  | ModeOp.getMode => s
  | ModeOp.isMidi2Mode => s
  | ModeOp.setLEDs mode => ModeManager_SetLEDs mode s
  | ModeOp.setLEDsWithHAL mode hal => ModeManager_SetLEDsWithHAL mode hal s
  | ModeOp.initWithHAL hal => ModeManager_InitWithHAL pin hal s

/-- The state after a sequence of operations, in order. -/
def runModeOps (pin : Nat → Nat) (s : ModeManagerState) (ops : List ModeOp) :
    ModeManagerState :=
  ops.foldl (runModeOp pin) s

/-! ## The MIDI 2.0 tasks (`midi2_task.c`) -/

/-- The bytes that `vMidi2UartToUmpTask` passes to `midi2_bs_to_ump_process_byte` for a
packet taken from `xUartToUsbQueue`, in order. -/
def vMidi2UartToUmpTask_bytes (midi_packet : MIDIPacket_t) : List Nat :=
  if midi_packet.length = 1 then
    let midi_byte := midi_packet.data.getD 0 0
    if midi_byte ≥ 0xF8 then [midi_byte] else []
  else
    (List.range midi_packet.length).map (fun i => midi_packet.data.getD i 0)

/-- The words that `vMidi2UmpToUartTask` passes to `midi2_ump_to_midi1_process` for the
four-word item `ump_data` taken from `xUmpRxQueue`, in order. -/
def vMidi2UmpToUartTask_words (ump_data : List Nat) : List Nat :=
  ((List.range 4).map (fun i => ump_data.getD i 0)).filter (fun w => w ≠ 0)

/-- What `vUsbToUmpTask` sends to `xUmpRxQueue` for the buffer `ump_data` it has read: the
buffer itself, four words, when the Message Type is neither 0xF nor 0x3. -/
def vUsbToUmpTask_forward (ump_data : List Nat) : Option (List Nat) :=
  let message_type := (ump_data.getD 0 0 >>> 28) &&& 0xF
  if message_type = 0xF then none
  else if message_type = 0x3 then none
  else some ((List.range 4).map (fun i => ump_data.getD i 0))

/-- The number of sends that succeed before the first that fails, among the `n` sends
that follow the first `start`. -/
def sendsBeforeFailure (ok : Nat → Bool) : Nat → Nat → Nat
  | _, 0 => 0
  | start, n + 1 => if ok start then sendsBeforeFailure ok (start + 1) n + 1 else 0

/-! ## Bytes -/

set_option maxRecDepth 100000 in
theorem land_data_byte : ∀ d, d < 0x80 → d &&& 0x80 = 0 := by decide

set_option maxRecDepth 100000 in
theorem land_status_byte : ∀ b, b < 0x100 → 0x80 ≤ b → b &&& 0x80 ≠ 0 := by decide

/-! ## Single steps of the parser -/

theorem pmb_data_idle (ok : Nat → Bool) (s : UartRxState) (d : Nat) (hd : d < 0x80)
    (hsx : s.uart_sysex_buffer.in_sysex = false) (hrun : s.midi_running_status = 0) :
    ProcessMidiByte ok s d = incUartRxCount s := by
  unfold ProcessMidiByte
  simp [land_data_byte d hd, incUartRxCount, hsx, hrun]

theorem pmb_data_sysex (ok : Nat → Bool) (s : UartRxState) (d : Nat) (hd : d < 0x80)
    (hsx : s.uart_sysex_buffer.in_sysex = true) :
    ProcessMidiByte ok s d
      = { incUartRxCount s with uart_sysex_buffer := sysexAppend s.uart_sysex_buffer d } := by
  unfold ProcessMidiByte
  simp [land_data_byte d hd, incUartRxCount, hsx]

theorem pmb_system_common (ok : Nat → Bool) (s : UartRxState) (c : Nat)
    (hc : 0xF1 ≤ c ∧ c ≤ 0xF6) :
    ProcessMidiByte ok s c
      = { incUartRxCount s with
          uart_sysex_buffer :=
            if s.uart_sysex_buffer.in_sysex then sysexReset s.uart_sysex_buffer
            else s.uart_sysex_buffer
          midi_running_status := 0
          midi_msg_buffer := Function.update s.midi_msg_buffer 0 c
          midi_msg_index := 1 } := by
  obtain ⟨h1, h2⟩ := hc
  have hb : c &&& 0x80 ≠ 0 := land_status_byte c (by omega) (by omega)
  have h3 : ¬ c = 0xF0 := by omega
  have h4 : ¬ c = 0xF7 := by omega
  have h5 : ¬ c ≥ 0xF8 := by omega
  have h6 : c ≥ 0xF0 := by omega
  unfold ProcessMidiByte
  cases hsx : s.uart_sysex_buffer.in_sysex <;>
    simp [hb, h3, h4, h5, h6, hsx, incUartRxCount, MIDI_ResetRunningStatus, MIDI_SYSEX_START,
      MIDI_SYSEX_END]

theorem feed_data_idle (ok : Nat → Bool) (ds : List Nat) :
    ∀ s : UartRxState, (∀ d ∈ ds, d < 0x80) → s.uart_sysex_buffer.in_sysex = false →
      s.midi_running_status = 0 → feedBytes ok s ds = incUartRxCount^[ds.length] s := by
  induction ds with
  | nil => intro s _ _ _; rfl
  | cons d ds ih =>
    intro s hds hsx hrun
    have hd : d < 0x80 := hds d (List.mem_cons_self _ _)
    have hstep := pmb_data_idle ok s d hd hsx hrun
    have := ih (incUartRxCount s) (fun x hx => hds x (List.mem_cons_of_mem _ hx)) hsx hrun
    simp only [feedBytes, List.foldl_cons, List.length_cons, Function.iterate_succ,
      Function.comp_apply] at this ⊢
    rw [hstep]
    exact this

theorem iterate_incUartRxCount_eq (n : Nat) :
    ∀ s : UartRxState, s.midi_stats.uart_rx_count < UINT32_MOD →
      incUartRxCount^[n] s
        = { s with midi_stats :=
              { s.midi_stats with
                uart_rx_count := (s.midi_stats.uart_rx_count + n) % UINT32_MOD } } := by
  induction n with
  | zero =>
    intro s hs
    simp [Nat.mod_eq_of_lt hs]
  | succ n ih =>
    intro s _
    have hlt : (incUartRxCount s).midi_stats.uart_rx_count < UINT32_MOD :=
      Nat.mod_lt _ (by decide)
    rw [Function.iterate_succ, Function.comp_apply, ih (incUartRxCount s) hlt]
    simp only [incUartRxCount, Nat.mod_add_mod]
    have : s.midi_stats.uart_rx_count + 1 + n = s.midi_stats.uart_rx_count + (n + 1) := by omega
    rw [this]

theorem expected_length_channel (st : Nat) (h : st < 0xF0) :
    MIDI_GetExpectedLength st
      = if st &&& 0xF0 = 0xC0 ∨ st &&& 0xF0 = 0xD0 then 2 else 3 := by
  have h1 : ¬ st ≥ 0xF8 := by omega
  have h2 : ¬ st ≥ 0xF0 := by omega
  simp [MIDI_GetExpectedLength, h1, h2, MIDI_MESSAGE_TYPE_MASK, MIDI_PROGRAM_CHANGE,
    MIDI_CHANNEL_PRESSURE]

theorem pmb_channel_status (ok : Nat → Bool) (s : UartRxState) (st : Nat)
    (hst : 0x80 ≤ st ∧ st ≤ 0xEF) :
    Framed st (ProcessMidiByte ok s st) ∧ (ProcessMidiByte ok s st).queue = s.queue := by
  obtain ⟨h1, h2⟩ := hst
  have hb : st &&& 0x80 ≠ 0 := land_status_byte st (by omega) (by omega)
  have h3 : ¬ st = 0xF0 := by omega
  have h4 : ¬ st = 0xF7 := by omega
  have h5 : ¬ st ≥ 0xF8 := by omega
  have h6 : ¬ st ≥ 0xF0 := by omega
  unfold ProcessMidiByte
  cases hsx : s.uart_sysex_buffer.in_sysex <;>
    refine ⟨⟨?_, ?_, ?_, ?_⟩, ?_⟩ <;>
    simp [hb, h3, h4, h5, h6, hsx, incUartRxCount, sysexReset, MIDI_SYSEX_START, MIDI_SYSEX_END]

theorem framed_group_two (ok : Nat → Bool) (hok : ∀ k, ok k = true) (s : UartRxState)
    (st d : Nat) (hst : 0x80 ≤ st ∧ st ≤ 0xEF)
    (h2 : st &&& 0xF0 = 0xC0 ∨ st &&& 0xF0 = 0xD0) (hd : d < 0x80) (hf : Framed st s) :
    Framed st (feedBytes ok s [d]) ∧ (feedBytes ok s [d]).queue = s.queue ++ [⟨[st, d], 2⟩] := by
  obtain ⟨hrun, hbuf, hidx, hsx⟩ := hf
  have hne : ¬ st = 0 := by omega
  simp only [feedBytes, List.foldl_cons, List.foldl_nil]
  unfold ProcessMidiByte SendCompleteMessage xQueueSend
  refine ⟨⟨?_, ?_, ?_, ?_⟩, ?_⟩ <;>
    simp [land_data_byte d hd, hsx, hrun, hidx, hbuf, hne, h2, hok, incUartRxCount,
      MIDI_MESSAGE_TYPE_MASK, MIDI_PROGRAM_CHANGE, MIDI_CHANNEL_PRESSURE, List.range_succ]

theorem framed_group_three (ok : Nat → Bool) (hok : ∀ k, ok k = true) (s : UartRxState)
    (st d1 d2 : Nat) (hst : 0x80 ≤ st ∧ st ≤ 0xEF)
    (h3 : ¬ (st &&& 0xF0 = 0xC0 ∨ st &&& 0xF0 = 0xD0)) (hd1 : d1 < 0x80) (hd2 : d2 < 0x80)
    (hf : Framed st s) :
    Framed st (feedBytes ok s [d1, d2]) ∧
      (feedBytes ok s [d1, d2]).queue = s.queue ++ [⟨[st, d1, d2], 3⟩] := by
  obtain ⟨hrun, hbuf, hidx, hsx⟩ := hf
  have hne : ¬ st = 0 := by omega
  simp only [feedBytes, List.foldl_cons, List.foldl_nil]
  unfold ProcessMidiByte SendCompleteMessage xQueueSend
  refine ⟨⟨?_, ?_, ?_, ?_⟩, ?_⟩ <;>
    simp [land_data_byte d1 hd1, land_data_byte d2 hd2, hsx, hrun, hidx, hbuf, hne, h3, hok,
      incUartRxCount, MIDI_MESSAGE_TYPE_MASK, MIDI_PROGRAM_CHANGE, MIDI_CHANNEL_PRESSURE,
      List.range_succ]

theorem feedBytes_append (ok : Nat → Bool) (s : UartRxState) (xs ys : List Nat) :
    feedBytes ok s (xs ++ ys) = feedBytes ok (feedBytes ok s xs) ys := by
  simp [feedBytes, List.foldl_append]

theorem framed_groups (ok : Nat → Bool) (hok : ∀ k, ok k = true) (st : Nat)
    (hst : 0x80 ≤ st ∧ st ≤ 0xEF) (groups : List (List Nat)) :
    ∀ s : UartRxState, Framed st s →
      (∀ g ∈ groups, g.length = MIDI_GetExpectedLength st - 1 ∧ ∀ d ∈ g, d < 0x80) →
      (feedBytes ok s groups.flatten).queue
        = s.queue ++ groups.map (fun g => ⟨st :: g, MIDI_GetExpectedLength st⟩) := by
  induction groups with
  | nil => intro s _ _; simp [feedBytes]
  | cons g gs ih =>
    intro s hf hg
    obtain ⟨hlen, hdata⟩ := hg g (List.mem_cons_self _ _)
    have hrest : ∀ g ∈ gs, g.length = MIDI_GetExpectedLength st - 1 ∧ ∀ d ∈ g, d < 0x80 :=
      fun x hx => hg x (List.mem_cons_of_mem _ hx)
    rw [List.flatten_cons, feedBytes_append, List.map_cons]
    have hexp := expected_length_channel st (by omega)
    by_cases h2 : st &&& 0xF0 = 0xC0 ∨ st &&& 0xF0 = 0xD0
    · rw [if_pos h2] at hexp
      rw [hexp] at hlen
      obtain ⟨d, rfl⟩ : ∃ d, g = [d] := List.length_eq_one.mp hlen
      have hd : d < 0x80 := hdata d (List.mem_singleton_self _)
      obtain ⟨hf1, hq1⟩ := framed_group_two ok hok s st d hst h2 hd hf
      rw [ih _ hf1 hrest, hq1, hexp]
      simp
    · rw [if_neg h2] at hexp
      rw [hexp] at hlen
      obtain ⟨d1, d2, rfl⟩ : ∃ d1 d2, g = [d1, d2] := List.length_eq_two.mp hlen
      have hd1 : d1 < 0x80 := hdata d1 (by simp)
      have hd2 : d2 < 0x80 := hdata d2 (by simp)
      obtain ⟨hf1, hq1⟩ := framed_group_three ok hok s st d1 d2 hst h2 hd1 hd2 hf
      rw [ih _ hf1 hrest, hq1, hexp]
      simp

/-! ## The SysEx accumulator -/

theorem map_range_succ (f : Nat → Nat) (m : Nat) :
    (List.range (m + 1)).map f = f 0 :: (List.range m).map (fun i => f (i + 1)) := by
  rw [List.range_succ_eq_map, List.map_cons, List.map_map]
  rfl

theorem map_range_three (f : Nat → Nat) (offset k : Nat) :
    (List.range (k + 1 + 1 + 1)).map (fun i => f (offset + i))
      = f offset :: f (offset + 1) :: f (offset + 2)
          :: (List.range k).map (fun i => f (offset + 3 + i)) := by
  have e : ∀ i, offset + (i + 1 + 1 + 1) = offset + 3 + i := by intro i; omega
  rw [map_range_succ, map_range_succ, map_range_succ]
  simp only [List.cons.injEq, Nat.zero_add, Nat.add_zero, true_and]
  apply List.map_congr_left
  intro i _
  rw [e]

theorem map_range_three_first (f : Nat → Nat) (offset : Nat) :
    (List.range 3).map (fun i => f (offset + i)) = [f offset, f (offset + 1), f (offset + 2)] :=
  rfl

theorem map_range_update (f : Nat → Nat) (n d : Nat) :
    (List.range (n + 1)).map (Function.update f n d) = (List.range n).map f ++ [d] := by
  rw [List.range_succ, List.map_append]
  congr 1
  · apply List.map_congr_left
    intro i hi
    have : i ≠ n := Nat.ne_of_lt (List.mem_range.mp hi)
    simp [Function.update, this]
  · simp

theorem sysexAppend_in_sysex (b : UartSysexBuffer) (d : Nat) :
    (sysexAppend b d).in_sysex = b.in_sysex := by
  unfold sysexAppend
  split <;> rfl

theorem foldl_sysexAppend_in_sysex (ds : List Nat) :
    ∀ b : UartSysexBuffer, (ds.foldl sysexAppend b).in_sysex = b.in_sysex := by
  induction ds with
  | nil => intro b; rfl
  | cons d ds ih => intro b; rw [List.foldl_cons, ih, sysexAppend_in_sysex]

theorem foldl_sysexAppend_shape (ds : List Nat) :
    ∀ b : UartSysexBuffer, b.length ≤ UART_SYSEX_BUFFER_SIZE →
      (ds.foldl sysexAppend b).length = min (b.length + ds.length) UART_SYSEX_BUFFER_SIZE ∧
      (ds.foldl sysexAppend b).overflow
        = (b.overflow || decide (UART_SYSEX_BUFFER_SIZE < b.length + ds.length)) := by
  induction ds with
  | nil =>
    intro b hb
    simp only [UART_SYSEX_BUFFER_SIZE] at hb
    simp [UART_SYSEX_BUFFER_SIZE]
    omega
  | cons d ds ih =>
    intro b hb
    simp only [UART_SYSEX_BUFFER_SIZE] at hb
    rw [List.foldl_cons]
    by_cases hlt : b.length < UART_SYSEX_BUFFER_SIZE
    · have h1 : sysexAppend b d
          = { b with data := Function.update b.data b.length d, length := b.length + 1 } := by
        simp [sysexAppend, hlt]
      simp only [UART_SYSEX_BUFFER_SIZE] at hlt
      obtain ⟨ihl, iho⟩ := ih (sysexAppend b d) (by rw [h1]; simp [UART_SYSEX_BUFFER_SIZE]; omega)
      rw [ihl, iho, h1]
      simp only [List.length_cons]
      constructor
      · congr 1; omega
      · congr 2
        simp only [UART_SYSEX_BUFFER_SIZE]
        apply propext
        constructor <;> intro h <;> omega
    · have h1 : sysexAppend b d = { b with overflow := true } := by
        simp [sysexAppend, hlt]
      simp only [UART_SYSEX_BUFFER_SIZE] at hlt
      obtain ⟨ihl, iho⟩ := ih (sysexAppend b d) (by rw [h1]; simpa [UART_SYSEX_BUFFER_SIZE] using hb)
      rw [ihl, iho, h1]
      simp only [List.length_cons, UART_SYSEX_BUFFER_SIZE]
      constructor
      · omega
      · have : decide (1024 < b.length + (ds.length + 1)) = true := by
          simp; omega
        simp [this]

theorem foldl_sysexAppend_content (ds : List Nat) :
    ∀ b : UartSysexBuffer, b.length + ds.length ≤ UART_SYSEX_BUFFER_SIZE →
      (List.range (b.length + ds.length)).map (ds.foldl sysexAppend b).data
        = (List.range b.length).map b.data ++ ds := by
  induction ds with
  | nil => intro b _; simp
  | cons d ds ih =>
    intro b hb
    simp only [UART_SYSEX_BUFFER_SIZE, List.length_cons] at hb
    have hlt : b.length < UART_SYSEX_BUFFER_SIZE := by simp only [UART_SYSEX_BUFFER_SIZE]; omega
    have h1 : sysexAppend b d
        = { b with data := Function.update b.data b.length d, length := b.length + 1 } := by
      simp [sysexAppend, hlt]
    have := ih (sysexAppend b d) (by rw [h1]; simp only [UART_SYSEX_BUFFER_SIZE]; omega)
    rw [h1] at this
    simp only [] at this
    rw [List.foldl_cons, h1, List.length_cons]
    have e : b.length + (ds.length + 1) = b.length + 1 + ds.length := by omega
    rw [e, this, map_range_update]
    simp

theorem feed_data_sysex (ok : Nat → Bool) (ds : List Nat) :
    ∀ s : UartRxState, (∀ d ∈ ds, d < 0x80) → s.uart_sysex_buffer.in_sysex = true →
      (feedBytes ok s ds).uart_sysex_buffer = ds.foldl sysexAppend s.uart_sysex_buffer ∧
      (feedBytes ok s ds).queue = s.queue ∧
      (feedBytes ok s ds).sends = s.sends ∧
      (feedBytes ok s ds).midi_stats.queue_full_errors = s.midi_stats.queue_full_errors := by
  induction ds with
  | nil => intro s _ _; simp [feedBytes]
  | cons d ds ih =>
    intro s hds hsx
    have hd : d < 0x80 := hds d (List.mem_cons_self _ _)
    have hstep := pmb_data_sysex ok s d hd hsx
    have hsx1 : (ProcessMidiByte ok s d).uart_sysex_buffer.in_sysex = true := by
      rw [hstep]; simp [sysexAppend_in_sysex, hsx]
    obtain ⟨h1, h2, h3, h4⟩ :=
      ih (ProcessMidiByte ok s d) (fun x hx => hds x (List.mem_cons_of_mem _ hx)) hsx1
    simp only [feedBytes, List.foldl_cons] at h1 h2 h3 h4 ⊢
    rw [h1, h2, h3, h4, hstep]
    simp [incUartRxCount]

theorem pmb_sysex_start (ok : Nat → Bool) (s : UartRxState) :
    ProcessMidiByte ok s 0xF0
      = { incUartRxCount s with
          uart_sysex_buffer :=
            { data := Function.update s.uart_sysex_buffer.data 0 0xF0
              length := 1, in_sysex := true, overflow := false }
          midi_msg_index := 0 } := by
  unfold ProcessMidiByte
  simp [MIDI_SYSEX_START, sysexAppend, UART_SYSEX_BUFFER_SIZE, incUartRxCount]

theorem sysexFlushLoop_done (ok : Nat → Bool) (fuel offset : Nat) (s : UartRxState)
    (h : ¬ offset < s.uart_sysex_buffer.length) : sysexFlushLoop ok fuel offset s = s := by
  cases fuel <;> simp [sysexFlushLoop, h]

theorem sysexFlushLoop_all_sent (ok : Nat → Bool) (hok : ∀ k, ok k = true) (fuel : Nat) :
    ∀ (offset : Nat) (s : UartRxState), s.uart_sysex_buffer.length - offset ≤ fuel →
      sysexFlushLoop ok fuel offset s
        = { s with
            queue := s.queue ++ chunk3 ((List.range (s.uart_sysex_buffer.length - offset)).map
              (fun i => s.uart_sysex_buffer.data (offset + i)))
            sends := s.sends + (chunk3 ((List.range (s.uart_sysex_buffer.length - offset)).map
              (fun i => s.uart_sysex_buffer.data (offset + i)))).length } := by
  induction fuel with
  | zero =>
    intro offset s h
    have h0 : s.uart_sysex_buffer.length - offset = 0 := by omega
    simp [sysexFlushLoop, h0, chunk3]
  | succ fuel ih =>
    intro offset s h
    by_cases hlt : offset < s.uart_sysex_buffer.length
    · obtain ⟨m, hm⟩ : ∃ m, s.uart_sysex_buffer.length - offset = m := ⟨_, rfl⟩
      rw [sysexFlushLoop]
      simp only [hlt, if_true, xQueueSend, hok, hm]
      rcases m with _ | _ | _ | k
      · omega
      · have hnext : s.uart_sysex_buffer.length - (offset + 1) = 0 := by omega
        have := ih (offset + 1)
          { s with
            queue := s.queue ++ [⟨[s.uart_sysex_buffer.data offset], 1⟩]
            sends := s.sends + 1 } (by simp only []; omega)
        simp only [hnext] at this
        simpa [chunk3, List.range_succ] using this
      · have hnext : s.uart_sysex_buffer.length - (offset + 2) = 0 := by omega
        have := ih (offset + 2)
          { s with
            queue := s.queue ++
              [⟨[s.uart_sysex_buffer.data offset, s.uart_sysex_buffer.data (offset + 1)], 2⟩]
            sends := s.sends + 1 } (by simp only []; omega)
        simp only [hnext] at this
        simpa [chunk3, List.range_succ] using this
      · have hnext : s.uart_sysex_buffer.length - (offset + 3) = k := by omega
        have := ih (offset + 3)
          { s with
            queue := s.queue ++
              [⟨[s.uart_sysex_buffer.data offset, s.uart_sysex_buffer.data (offset + 1),
                 s.uart_sysex_buffer.data (offset + 2)], 3⟩]
            sends := s.sends + 1 } (by simp only []; omega)
        simp only [hnext] at this
        have hchunk : (if k + 1 + 1 + 1 > 3 then 3 else k + 1 + 1 + 1) = 3 := by
          split <;> omega
        rw [hchunk, map_range_three_first, map_range_three, this]
        simp [chunk3, Nat.add_assoc, Nat.add_comm 1]
    · have h0 : s.uart_sysex_buffer.length - offset = 0 := by omega
      rw [sysexFlushLoop_done ok _ _ _ hlt]
      simp [h0, chunk3]

theorem sysexFlushLoop_queue (ok : Nat → Bool) (hok : ∀ k, ok k = true) (s : UartRxState) :
    (sysexFlushLoop ok s.uart_sysex_buffer.length 0 s).queue
      = s.queue ++ chunk3 ((List.range s.uart_sysex_buffer.length).map s.uart_sysex_buffer.data) := by
  rw [sysexFlushLoop_all_sent ok hok _ 0 s (Nat.sub_le _ _)]
  simp

theorem pmb_sysex_end_flags (ok : Nat → Bool) (s : UartRxState) :
    (ProcessMidiByte ok s 0xF7).uart_sysex_buffer.in_sysex = false ∧
    (ProcessMidiByte ok s 0xF7).uart_sysex_buffer.length = 0 ∧
    (ProcessMidiByte ok s 0xF7).uart_sysex_buffer.overflow = false := by
  unfold ProcessMidiByte
  simp [MIDI_SYSEX_START, MIDI_SYSEX_END, sysexReset]

theorem pmb_sysex_end_sent (ok : Nat → Bool) (hok : ∀ k, ok k = true) (s : UartRxState)
    (hsx : s.uart_sysex_buffer.in_sysex = true)
    (hlen : s.uart_sysex_buffer.length < UART_SYSEX_BUFFER_SIZE)
    (hov : s.uart_sysex_buffer.overflow = false) :
    (ProcessMidiByte ok s 0xF7).queue
      = s.queue ++ chunk3 ((List.range (s.uart_sysex_buffer.length + 1)).map
          (Function.update s.uart_sysex_buffer.data s.uart_sysex_buffer.length 0xF7)) := by
  unfold ProcessMidiByte
  simp [MIDI_SYSEX_START, MIDI_SYSEX_END, sysexAppend, hlen, hsx, hov, incUartRxCount]
  exact sysexFlushLoop_queue ok hok ⟨_, _, _, ⟨_, _, _, _⟩, _, _, _⟩

theorem pmb_sysex_end_overflow (ok : Nat → Bool) (s : UartRxState)
    (hsx : s.uart_sysex_buffer.in_sysex = true)
    (hfull : ¬ s.uart_sysex_buffer.length < UART_SYSEX_BUFFER_SIZE) :
    (ProcessMidiByte ok s 0xF7).queue = s.queue ∧
    (ProcessMidiByte ok s 0xF7).sends = s.sends ∧
    (ProcessMidiByte ok s 0xF7).midi_stats.queue_full_errors
      = (s.midi_stats.queue_full_errors + 1) % UINT32_MOD := by
  unfold ProcessMidiByte
  simp [MIDI_SYSEX_START, MIDI_SYSEX_END, sysexAppend, hfull, hsx, incUartRxCount,
    incQueueFullErrors]

/-! ## Cutting into chunks -/

theorem chunk3_length (l : List Nat) : (chunk3 l).length = (l.length + 2) / 3 := by
  induction l using chunk3.induct with
  | case1 => rfl
  | case2 a => simp [chunk3]
  | case3 a b => simp [chunk3]
  | case4 a b c rest ih =>
    simp only [chunk3, List.length_cons, ih]
    omega

theorem chunk3_flatten (l : List Nat) : ((chunk3 l).map (fun c => c.data)).flatten = l := by
  induction l using chunk3.induct with
  | case1 => rfl
  | case2 a => rfl
  | case3 a b => rfl
  | case4 a b c rest ih =>
    simp only [chunk3, List.map_cons, List.flatten_cons, ih]
    rfl

theorem chunk3_sizes (l : List Nat) :
    ∀ c ∈ chunk3 l, 1 ≤ c.length ∧ c.length ≤ 3 ∧ c.data.length = c.length := by
  induction l using chunk3.induct with
  | case1 => intro c hc; simp [chunk3] at hc
  | case2 a => intro c hc; simp [chunk3] at hc; subst hc; simp
  | case3 a b => intro c hc; simp [chunk3] at hc; subst hc; simp
  | case4 a b c rest ih =>
    intro x hx
    simp only [chunk3, List.mem_cons] at hx
    rcases hx with rfl | hx
    · simp
    · exact ih x hx

theorem chunk3_full_but_last (l : List Nat) : ∀ c ∈ (chunk3 l).dropLast, c.length = 3 := by
  induction l using chunk3.induct with
  | case1 => intro c hc; simp [chunk3] at hc
  | case2 a => intro c hc; simp [chunk3] at hc
  | case3 a b => intro c hc; simp [chunk3] at hc
  | case4 a b c rest ih =>
    intro x hx
    simp only [chunk3] at hx
    cases hrest : chunk3 rest with
    | nil => simp [hrest] at hx
    | cons y ys =>
      rw [hrest, List.dropLast_cons₂, List.mem_cons] at hx
      rcases hx with rfl | hx
      · rfl
      · exact ih x (by rw [hrest]; exact hx)

/-! ## C9, C10: the tables of `midi_common.c` -/

set_option maxRecDepth 100000 in
theorem expected_length_below : ∀ s, s < 0xF8 → MIDI_GetExpectedLength s =
    (if s = 0xF0 ∨ s = 0xF4 ∨ s = 0xF5 ∨ s = 0xF6 ∨ s = 0xF7 then 1
     else if s = 0xF1 ∨ s = 0xF3 then 2
     else if s = 0xF2 then 3
     else if 0xC0 ≤ s ∧ s ≤ 0xDF then 2
     else 3) := by decide

/-- C9: `MIDI_GetExpectedLength s` is 1 for `s ≥ 0xF8`, 1 for 0xF0, 0xF4, 0xF5, 0xF6 and 0xF7,
2 for 0xF1 and 0xF3, 3 for 0xF2, 2 for 0xC0..0xDF, and 3 for every other byte, the non-status
bytes below 0x80 included. -/
theorem C9_expected_length_table (s : Nat) :
    MIDI_GetExpectedLength s =
      (if s ≥ 0xF8 then 1
       else if s = 0xF0 ∨ s = 0xF4 ∨ s = 0xF5 ∨ s = 0xF6 ∨ s = 0xF7 then 1
       else if s = 0xF1 ∨ s = 0xF3 then 2
       else if s = 0xF2 then 3
       else if 0xC0 ≤ s ∧ s ≤ 0xDF then 2
       else 3) := by
  by_cases h : s ≥ 0xF8
  · simp [MIDI_GetExpectedLength, h]
  · rw [if_neg h]
    exact expected_length_below s (by omega)

/-- C10: `MIDI_GetCIN(status, 1)` is `USB_MIDI_CIN_1BYTE` = 0x5 for every byte, status or
not; `MIDI_GetCIN(status, 2)` is 0xC, 0xD for the types 0xC0, 0xD0 and 0x2 otherwise;
`MIDI_GetCIN(status, 3)` is 0x8, 0x9, 0xA, 0xB, 0xE for the types 0x80, 0x90, 0xA0, 0xB0, 0xE0
and 0x3 otherwise. -/
theorem C10_get_cin_table (status : Nat) :
    MIDI_GetCIN status 1 = USB_MIDI_CIN_1BYTE ∧ USB_MIDI_CIN_1BYTE = 0x5 ∧
    MIDI_GetCIN status 2 =
      (if status &&& 0xF0 = 0xC0 then 0xC else if status &&& 0xF0 = 0xD0 then 0xD else 0x2) ∧
    MIDI_GetCIN status 3 =
      (if status &&& 0xF0 = 0x80 then 0x8
       else if status &&& 0xF0 = 0x90 then 0x9
       else if status &&& 0xF0 = 0xA0 then 0xA
       else if status &&& 0xF0 = 0xB0 then 0xB
       else if status &&& 0xF0 = 0xE0 then 0xE
       else 0x3) := by
  refine ⟨rfl, rfl, rfl, rfl⟩

/-! ## C1: running status -/

/-- C1: from every parser state, a Channel Voice status byte `st` (0x80..0xEF) followed by
`k` groups of `MIDI_GetExpectedLength st - 1` data bytes enqueues exactly `k` packets, the
i-th being `st` followed by the i-th group, of length `MIDI_GetExpectedLength st`; the queue
accepts what it is sent. -/
theorem C1_running_status (ok : Nat → Bool) (s : UartRxState) (st : Nat)
    (groups : List (List Nat)) (hok : ∀ k, ok k = true) (hst : 0x80 ≤ st ∧ st ≤ 0xEF)
    (hg : ∀ g ∈ groups, g.length = MIDI_GetExpectedLength st - 1 ∧ ∀ d ∈ g, d < 0x80) :
    (feedBytes ok s (st :: groups.flatten)).queue
      = s.queue ++ groups.map (fun g => ⟨st :: g, MIDI_GetExpectedLength st⟩) := by
  obtain ⟨hf, hq⟩ := pmb_channel_status ok s st hst
  have := framed_groups ok hok st hst groups (ProcessMidiByte ok s st) hf hg
  rw [hq] at this
  simpa [feedBytes] using this

/-- Witness of C1: `[0x90, 0x3C, 0x7F, 0x3E, 0x64]` from the initial state yields
`{0x90, 0x3C, 0x7F}` then `{0x90, 0x3E, 0x64}`. -/
theorem C1_running_status_witness :
    (feedBytes allSendsOk initialState [0x90, 0x3C, 0x7F, 0x3E, 0x64]).queue
      = [⟨[0x90, 0x3C, 0x7F], 3⟩, ⟨[0x90, 0x3E, 0x64], 3⟩] :=
  C1_running_status allSendsOk initialState 0x90 [[0x3C, 0x7F], [0x3E, 0x64]]
    (fun _ => rfl) (by decide) (by decide)

/-! ## C2: a real-time byte between the bytes of a message -/

/-- C2, as the code has it: from every parser state, with the queue accepting what it is
sent, feeding a 3-byte Channel Voice status `st`, a data byte `d1` and a System Real-Time
byte `r` (0xF8..0xFF) enqueues nothing for `st` and `d1` and, when `r` arrives, exactly the
1-byte message `{r}`, unless `r` is Active Sensing (0xFE), which `MIDI_FILTER_ACTIVE_SENSING`
filters: then nothing is enqueued. -/
theorem C2_realtime_emitted_immediately (ok : Nat → Bool) (s : UartRxState) (st d1 r : Nat)
    (hok : ∀ k, ok k = true) (hst : 0x80 ≤ st ∧ st ≤ 0xEF)
    (h3 : MIDI_GetExpectedLength st = 3) (hd1 : d1 < 0x80) (hr : 0xF8 ≤ r ∧ r ≤ 0xFF) :
    (feedBytes ok s [st, d1]).queue = s.queue ∧
    (feedBytes ok s [st, d1, r]).queue
      = s.queue ++ (if r = MIDI_ACTIVE_SENSING then [] else [⟨[r], 1⟩]) := by
  obtain ⟨⟨hrun, hbuf, hidx, hsx⟩, hq⟩ := pmb_channel_status ok s st hst
  have hexp := expected_length_channel st (by omega)
  have h2 : ¬ (st &&& 0xF0 = 0xC0 ∨ st &&& 0xF0 = 0xD0) := by
    intro h
    rw [if_pos h] at hexp
    omega
  have hne : ¬ st = 0 := by omega
  have hq1 : (ProcessMidiByte ok (ProcessMidiByte ok s st) d1).queue = s.queue := by
    rw [← hq]
    generalize ProcessMidiByte ok s st = t at hrun hbuf hidx hsx
    unfold ProcessMidiByte SendCompleteMessage
    simp [land_data_byte d1 hd1, hsx, hrun, hidx, hne, h2, incUartRxCount,
      MIDI_MESSAGE_TYPE_MASK, MIDI_PROGRAM_CHANGE, MIDI_CHANNEL_PRESSURE]
  have hb : r &&& 0x80 ≠ 0 := land_status_byte r (by omega) (by omega)
  have hr0 : ¬ r = 0xF0 := by omega
  have hr7 : ¬ r = 0xF7 := by omega
  have hr8 : r ≥ 0xF8 := hr.1
  refine ⟨by simpa [feedBytes] using hq1, ?_⟩
  simp only [feedBytes, List.foldl_cons, List.foldl_nil]
  rw [← hq1]
  generalize ProcessMidiByte ok (ProcessMidiByte ok s st) d1 = t
  unfold ProcessMidiByte xQueueSend
  by_cases hfe : r = MIDI_ACTIVE_SENSING
  · cases hsx2 : t.uart_sysex_buffer.in_sysex <;>
      simp [hb, hr0, hr7, hr8, hfe, hsx2, hok, incUartRxCount, MIDI_SYSEX_START, MIDI_SYSEX_END,
        MIDI_FILTER_ACTIVE_SENSING, MIDI_ACTIVE_SENSING]
  · have hfe2 : ¬ r = 0xFE := hfe
    cases hsx2 : t.uart_sysex_buffer.in_sysex <;>
      simp [hb, hr0, hr7, hr8, hfe, hfe2, hsx2, hok, incUartRxCount, MIDI_SYSEX_START,
        MIDI_SYSEX_END, MIDI_FILTER_ACTIVE_SENSING, MIDI_FILTER_TIMING_CLOCK]

/-- Witness of the amended C2: `[0x90, 0x3C, 0xF8]` enqueues `{0xF8}` when 0xF8 arrives. -/
theorem C2_realtime_emitted_immediately_witness :
    (feedBytes allSendsOk initialState [0x90, 0x3C]).queue = initialState.queue ∧
    (feedBytes allSendsOk initialState [0x90, 0x3C, 0xF8]).queue
      = initialState.queue ++ (if 0xF8 = MIDI_ACTIVE_SENSING then [] else [⟨[0xF8], 1⟩]) :=
  C2_realtime_emitted_immediately allSendsOk initialState 0x90 0x3C 0xF8
    (fun _ => rfl) (by decide) (by decide) (by decide) (by decide)

/-- Counterexample to C2 as stated: with Active Sensing as the real-time byte,
`[0x90, 0x3C, 0xFE, 0x7F]` enqueues neither `{0xFE}` nor `{0x90, 0x3C, 0x7F}`. -/
theorem C2_counterexample :
    (feedBytes allSendsOk initialState [0x90, 0x3C, 0xFE, 0x7F]).queue = [] ∧
    (feedBytes allSendsOk initialState [0x90, 0x3C, 0xFE, 0x7F]).queue
      ≠ [⟨[0xFE], 1⟩, ⟨[0x90, 0x3C, 0x7F], 3⟩] := by
  decide

/-! ## C3: a real-time byte inside a SysEx -/

/-- C3 at the failing input `[0xF0, 0x01, 0xF8, 0x02, 0xF7]`: after `[0xF0, 0x01]` the
accumulator is open with two bytes; the Timing Clock byte closes and empties it; and at the
end of the stream only `{0xF8}` has been enqueued, no chunk of the SysEx `F0 01 02 F7`. -/
theorem C3_realtime_aborts_sysex :
    (feedBytes allSendsOk initialState [0xF0, 0x01]).uart_sysex_buffer.in_sysex = true ∧
    (feedBytes allSendsOk initialState [0xF0, 0x01]).uart_sysex_buffer.length = 2 ∧
    (feedBytes allSendsOk initialState [0xF0, 0x01, 0xF8]).uart_sysex_buffer.in_sysex = false ∧
    (feedBytes allSendsOk initialState [0xF0, 0x01, 0xF8]).uart_sysex_buffer.length = 0 ∧
    (feedBytes allSendsOk initialState [0xF0, 0x01, 0xF8, 0x02, 0xF7]).queue = [⟨[0xF8], 1⟩] := by
  decide

/-! ## C4: System Common messages -/

/-- C4 at the failing inputs: Tune Request `[0xF6]`, MTC Quarter Frame `[0xF1, 0x05]`,
Song Select `[0xF3, 0x05]` and Song Position `[0xF2, 0x01, 0x02]` each leave the queue
empty, and the running status is 0 after the status byte. -/
theorem C4_system_common_not_forwarded :
    (feedBytes allSendsOk initialState [0xF6]).queue = [] ∧
    (feedBytes allSendsOk initialState [0xF1, 0x05]).queue = [] ∧
    (feedBytes allSendsOk initialState [0xF3, 0x05]).queue = [] ∧
    (feedBytes allSendsOk initialState [0xF2, 0x01, 0x02]).queue = [] ∧
    (feedBytes allSendsOk initialState [0xF2]).midi_running_status = 0 := by
  decide

/-! ## C5: data bytes without a running status -/

/-- C5: data bytes fed in the initial state, or in the state reached from any state by a
System Common status byte `c` (0xF1..0xF6), change nothing but the receive counter
`uart_rx_count`, which advances by one per byte: the queue, the running status, the message
buffer and index, the SysEx accumulator and the other counters stay as they were. -/
theorem C5_bare_data_is_noop (ok : Nat → Bool) (s : UartRxState) (c : Nat) (ds : List Nat)
    (hc : 0xF1 ≤ c ∧ c ≤ 0xF6) (hds : ∀ d ∈ ds, d < 0x80) :
    feedBytes ok initialState ds
      = { initialState with
          midi_stats :=
            { initialState.midi_stats with uart_rx_count := ds.length % UINT32_MOD } } ∧
    feedBytes ok (ProcessMidiByte ok s c) ds
      = { ProcessMidiByte ok s c with
          midi_stats :=
            { (ProcessMidiByte ok s c).midi_stats with
              uart_rx_count := (s.midi_stats.uart_rx_count + 1 + ds.length) % UINT32_MOD } } := by
  constructor
  · rw [feed_data_idle ok ds initialState hds rfl rfl,
      iterate_incUartRxCount_eq ds.length initialState (by decide)]
    simp [initialState]
  · have hstep := pmb_system_common ok s c hc
    have hsx : (ProcessMidiByte ok s c).uart_sysex_buffer.in_sysex = false := by
      rw [hstep]
      cases h : s.uart_sysex_buffer.in_sysex <;> simp [h, sysexReset]
    have hrun : (ProcessMidiByte ok s c).midi_running_status = 0 := by rw [hstep]
    have hcnt : (ProcessMidiByte ok s c).midi_stats.uart_rx_count
        = (s.midi_stats.uart_rx_count + 1) % UINT32_MOD := by
      rw [hstep]; rfl
    have hlt : (ProcessMidiByte ok s c).midi_stats.uart_rx_count < UINT32_MOD := by
      rw [hcnt]; exact Nat.mod_lt _ (by decide)
    rw [feed_data_idle ok ds _ hds hsx hrun, iterate_incUartRxCount_eq ds.length _ hlt, hcnt,
      Nat.mod_add_mod]

/-- Witness of C5: the data bytes `[0x3C, 0x7F]`, after Tune Request (0xF6) fed to the state
that `[0x90, 0x3C, 0x7F]` leaves. -/
theorem C5_bare_data_is_noop_witness :
    feedBytes allSendsOk initialState [0x3C, 0x7F]
      = { initialState with
          midi_stats :=
            { initialState.midi_stats with
              uart_rx_count := [0x3C, 0x7F].length % UINT32_MOD } } ∧
    feedBytes allSendsOk
        (ProcessMidiByte allSendsOk (feedBytes allSendsOk initialState [0x90, 0x3C, 0x7F]) 0xF6)
        [0x3C, 0x7F]
      = { ProcessMidiByte allSendsOk
            (feedBytes allSendsOk initialState [0x90, 0x3C, 0x7F]) 0xF6 with
          midi_stats :=
            { (ProcessMidiByte allSendsOk
                (feedBytes allSendsOk initialState [0x90, 0x3C, 0x7F]) 0xF6).midi_stats with
              uart_rx_count :=
                ((feedBytes allSendsOk initialState [0x90, 0x3C, 0x7F]).midi_stats.uart_rx_count
                  + 1 + [0x3C, 0x7F].length) % UINT32_MOD } } :=
  C5_bare_data_is_noop allSendsOk (feedBytes allSendsOk initialState [0x90, 0x3C, 0x7F]) 0xF6
    [0x3C, 0x7F] (by decide) (by decide)

/-! ## C6: the arity of the enqueued messages -/

/-- C6 at the failing input `[0x90, 0x3C, 0xF8, 0x7F, 0x3E, 0x64, 0x40, 0x41]`: after the
Timing Clock the parser enqueues `{0x7F, 0x3E, 0x64}`, which starts with a data byte, and
then `{0xF8, 0x40, 0x41}`, three bytes long although `MIDI_GetExpectedLength 0xF8 = 1`. -/
theorem C6_arity_broken_after_realtime :
    (feedBytes allSendsOk initialState [0x90, 0x3C, 0xF8, 0x7F, 0x3E, 0x64, 0x40, 0x41]).queue
      = [⟨[0xF8], 1⟩, ⟨[0x7F, 0x3E, 0x64], 3⟩, ⟨[0xF8, 0x40, 0x41], 3⟩] ∧
    MIDI_GetExpectedLength 0xF8 = 1 := by
  decide

/-! ## C7, C8: SysEx from the UART -/

/-- C7: from every parser state, with every queue send succeeding, feeding 0xF0, then `n`
data bytes with `n + 2 ≤ 1024`, then 0xF7 enqueues nothing before the 0xF7, and on the 0xF7
enqueues `⌈(n+2)/3⌉` chunks, each of 1 to 3 bytes and all but the last of 3 bytes, whose
concatenation is `F0 d1..dn F7`; afterwards the accumulator is empty. -/
theorem C7_sysex_flush (ok : Nat → Bool) (s : UartRxState) (ds : List Nat)
    (hok : ∀ k, ok k = true) (hds : ∀ d ∈ ds, d < 0x80) (hlen : ds.length + 2 ≤ 1024) :
    (∀ j, (feedBytes ok s (0xF0 :: ds.take j)).queue = s.queue) ∧
    (∃ chunks : List MIDIPacket_t,
      (feedBytes ok s (0xF0 :: ds ++ [0xF7])).queue = s.queue ++ chunks ∧
      chunks.length = (ds.length + 2 + 2) / 3 ∧
      (∀ c ∈ chunks.dropLast, c.length = 3) ∧
      (∀ c ∈ chunks, 1 ≤ c.length ∧ c.length ≤ 3 ∧ c.data.length = c.length) ∧
      (chunks.map (fun c => c.data)).flatten = 0xF0 :: ds ++ [0xF7]) ∧
    (feedBytes ok s (0xF0 :: ds ++ [0xF7])).uart_sysex_buffer.in_sysex = false ∧
    (feedBytes ok s (0xF0 :: ds ++ [0xF7])).uart_sysex_buffer.length = 0 ∧
    (feedBytes ok s (0xF0 :: ds ++ [0xF7])).uart_sysex_buffer.overflow = false := by
  have hstart := pmb_sysex_start ok s
  have hsx0 : (ProcessMidiByte ok s 0xF0).uart_sysex_buffer.in_sysex = true := by rw [hstart]
  have hq0 : (ProcessMidiByte ok s 0xF0).queue = s.queue := by rw [hstart]; rfl
  have hb0 : (ProcessMidiByte ok s 0xF0).uart_sysex_buffer
      = { data := Function.update s.uart_sysex_buffer.data 0 0xF0
          length := 1, in_sysex := true, overflow := false } := by rw [hstart]
  have hsplit : ∀ l : List Nat, feedBytes ok s (0xF0 :: l)
      = feedBytes ok (ProcessMidiByte ok s 0xF0) l := fun l => rfl
  have hend : feedBytes ok s (0xF0 :: ds ++ [0xF7])
      = ProcessMidiByte ok (feedBytes ok (ProcessMidiByte ok s 0xF0) ds) 0xF7 := by
    rw [List.cons_append, hsplit, feedBytes_append]
    rfl
  refine ⟨?_, ?_, ?_⟩
  · intro j
    rw [hsplit]
    have := feed_data_sysex ok (ds.take j) (ProcessMidiByte ok s 0xF0)
      (fun d hd => hds d (List.mem_of_mem_take hd)) hsx0
    rw [this.2.1, hq0]
  · obtain ⟨hbuf, hq, -, -⟩ := feed_data_sysex ok ds (ProcessMidiByte ok s 0xF0) hds hsx0
    have hshape := foldl_sysexAppend_shape ds (ProcessMidiByte ok s 0xF0).uart_sysex_buffer
      (by rw [hb0]; simp [UART_SYSEX_BUFFER_SIZE])
    have hcontent := foldl_sysexAppend_content ds (ProcessMidiByte ok s 0xF0).uart_sysex_buffer
      (by rw [hb0]; simp only [UART_SYSEX_BUFFER_SIZE]; omega)
    rw [← hbuf] at hshape hcontent
    rw [hb0] at hshape hcontent
    simp only [UART_SYSEX_BUFFER_SIZE, Bool.false_or] at hshape
    obtain ⟨hL, hO⟩ := hshape
    have hL1 : (feedBytes ok (ProcessMidiByte ok s 0xF0) ds).uart_sysex_buffer.length
        = 1 + ds.length := by rw [hL]; omega
    have hO1 : (feedBytes ok (ProcessMidiByte ok s 0xF0) ds).uart_sysex_buffer.overflow
        = false := by rw [hO]; simp; omega
    have hI1 : (feedBytes ok (ProcessMidiByte ok s 0xF0) ds).uart_sysex_buffer.in_sysex
        = true := by rw [hbuf, foldl_sysexAppend_in_sysex, hsx0]
    have hsent := pmb_sysex_end_sent ok hok _ hI1
      (by rw [hL1]; simp only [UART_SYSEX_BUFFER_SIZE]; omega) hO1
    rw [map_range_update, hL1, hcontent, hq, hq0] at hsent
    have hall : (List.range 1).map (Function.update s.uart_sysex_buffer.data 0 0xF0) ++ ds
        ++ [0xF7] = 0xF0 :: ds ++ [0xF7] := by simp [List.range_succ]
    simp only [] at hsent
    rw [hall] at hsent
    refine ⟨chunk3 (0xF0 :: ds ++ [0xF7]), ?_, ?_, chunk3_full_but_last _, chunk3_sizes _,
      chunk3_flatten _⟩
    · rw [hend]; exact hsent
    · rw [chunk3_length]; simp
  · rw [hend]
    exact pmb_sysex_end_flags ok _

/-- Witness of C7: `F0 01 02 03 F7` is flushed as `{F0, 01, 02}` and `{03, F7}`. -/
theorem C7_sysex_flush_witness :
    (∀ j, (feedBytes allSendsOk initialState (0xF0 :: [1, 2, 3].take j)).queue
      = initialState.queue) ∧
    (∃ chunks : List MIDIPacket_t,
      (feedBytes allSendsOk initialState (0xF0 :: [1, 2, 3] ++ [0xF7])).queue
        = initialState.queue ++ chunks ∧
      chunks.length = ([1, 2, 3].length + 2 + 2) / 3 ∧
      (∀ c ∈ chunks.dropLast, c.length = 3) ∧
      (∀ c ∈ chunks, 1 ≤ c.length ∧ c.length ≤ 3 ∧ c.data.length = c.length) ∧
      (chunks.map (fun c => c.data)).flatten = 0xF0 :: [1, 2, 3] ++ [0xF7]) ∧
    (feedBytes allSendsOk initialState
      (0xF0 :: [1, 2, 3] ++ [0xF7])).uart_sysex_buffer.in_sysex = false ∧
    (feedBytes allSendsOk initialState
      (0xF0 :: [1, 2, 3] ++ [0xF7])).uart_sysex_buffer.length = 0 ∧
    (feedBytes allSendsOk initialState
      (0xF0 :: [1, 2, 3] ++ [0xF7])).uart_sysex_buffer.overflow = false :=
  C7_sysex_flush allSendsOk initialState [1, 2, 3] (fun _ => rfl) (by decide) (by decide)

/-- C8: from every parser state and whatever the queue does, a SysEx of more than 1024
bytes in all (0xF0, `n` data bytes, 0xF7 with `n + 2 > 1024`) enqueues no packet, neither
while it is received nor at its 0xF7, does not even call `xQueueSend`, counts exactly one
`queue_full_errors` (at the 0xF7), and leaves the accumulator empty. -/
theorem C8_sysex_overflow_dropped (ok : Nat → Bool) (s : UartRxState) (ds : List Nat)
    (hds : ∀ d ∈ ds, d < 0x80) (hlen : 1024 < ds.length + 2) :
    (∀ j, (feedBytes ok s (0xF0 :: ds.take j)).queue = s.queue ∧
      (feedBytes ok s (0xF0 :: ds.take j)).midi_stats.queue_full_errors
        = s.midi_stats.queue_full_errors) ∧
    (feedBytes ok s (0xF0 :: ds ++ [0xF7])).queue = s.queue ∧
    (feedBytes ok s (0xF0 :: ds ++ [0xF7])).sends = s.sends ∧
    (feedBytes ok s (0xF0 :: ds ++ [0xF7])).midi_stats.queue_full_errors
      = (s.midi_stats.queue_full_errors + 1) % UINT32_MOD ∧
    (feedBytes ok s (0xF0 :: ds ++ [0xF7])).uart_sysex_buffer.in_sysex = false ∧
    (feedBytes ok s (0xF0 :: ds ++ [0xF7])).uart_sysex_buffer.length = 0 ∧
    (feedBytes ok s (0xF0 :: ds ++ [0xF7])).uart_sysex_buffer.overflow = false := by
  have hstart := pmb_sysex_start ok s
  have hsx0 : (ProcessMidiByte ok s 0xF0).uart_sysex_buffer.in_sysex = true := by rw [hstart]
  have hq0 : (ProcessMidiByte ok s 0xF0).queue = s.queue := by rw [hstart]; rfl
  have hn0 : (ProcessMidiByte ok s 0xF0).sends = s.sends := by rw [hstart]; rfl
  have he0 : (ProcessMidiByte ok s 0xF0).midi_stats.queue_full_errors
      = s.midi_stats.queue_full_errors := by rw [hstart]; rfl
  have hb0 : (ProcessMidiByte ok s 0xF0).uart_sysex_buffer
      = { data := Function.update s.uart_sysex_buffer.data 0 0xF0
          length := 1, in_sysex := true, overflow := false } := by rw [hstart]
  have hsplit : ∀ l : List Nat, feedBytes ok s (0xF0 :: l)
      = feedBytes ok (ProcessMidiByte ok s 0xF0) l := fun l => rfl
  have hend : feedBytes ok s (0xF0 :: ds ++ [0xF7])
      = ProcessMidiByte ok (feedBytes ok (ProcessMidiByte ok s 0xF0) ds) 0xF7 := by
    rw [List.cons_append, hsplit, feedBytes_append]
    rfl
  obtain ⟨hbuf, hq, hn, he⟩ := feed_data_sysex ok ds (ProcessMidiByte ok s 0xF0) hds hsx0
  have hshape := foldl_sysexAppend_shape ds (ProcessMidiByte ok s 0xF0).uart_sysex_buffer
    (by rw [hb0]; simp [UART_SYSEX_BUFFER_SIZE])
  rw [← hbuf, hb0] at hshape
  simp only [UART_SYSEX_BUFFER_SIZE] at hshape
  have hI1 : (feedBytes ok (ProcessMidiByte ok s 0xF0) ds).uart_sysex_buffer.in_sysex
      = true := by rw [hbuf, foldl_sysexAppend_in_sysex, hsx0]
  have hfull : ¬ (feedBytes ok (ProcessMidiByte ok s 0xF0) ds).uart_sysex_buffer.length
      < UART_SYSEX_BUFFER_SIZE := by
    rw [hshape.1]; simp only [UART_SYSEX_BUFFER_SIZE]; omega
  obtain ⟨hq2, hn2, he2⟩ := pmb_sysex_end_overflow ok _ hI1 hfull
  obtain ⟨hf1, hf2, hf3⟩ := pmb_sysex_end_flags ok (feedBytes ok (ProcessMidiByte ok s 0xF0) ds)
  refine ⟨?_, ?_, ?_, ?_, ?_, ?_, ?_⟩
  · intro j
    rw [hsplit]
    obtain ⟨-, h2, -, h4⟩ := feed_data_sysex ok (ds.take j) (ProcessMidiByte ok s 0xF0)
      (fun d hd => hds d (List.mem_of_mem_take hd)) hsx0
    exact ⟨by rw [h2, hq0], by rw [h4, he0]⟩
  · rw [hend, hq2, hq, hq0]
  · rw [hend, hn2, hn, hn0]
  · rw [hend, he2, he, he0]
  · rw [hend]; exact hf1
  · rw [hend]; exact hf2
  · rw [hend]; exact hf3

/-- Witness of C8: 0xF0, 1023 data bytes and 0xF7 make 1025 bytes. -/
theorem C8_sysex_overflow_dropped_witness :
    (∀ j, (feedBytes allSendsOk initialState (0xF0 :: (List.replicate 1023 0).take j)).queue
        = initialState.queue ∧
      (feedBytes allSendsOk initialState
        (0xF0 :: (List.replicate 1023 0).take j)).midi_stats.queue_full_errors
        = initialState.midi_stats.queue_full_errors) ∧
    (feedBytes allSendsOk initialState (0xF0 :: List.replicate 1023 0 ++ [0xF7])).queue
      = initialState.queue ∧
    (feedBytes allSendsOk initialState (0xF0 :: List.replicate 1023 0 ++ [0xF7])).sends
      = initialState.sends ∧
    (feedBytes allSendsOk initialState
      (0xF0 :: List.replicate 1023 0 ++ [0xF7])).midi_stats.queue_full_errors
      = (initialState.midi_stats.queue_full_errors + 1) % UINT32_MOD ∧
    (feedBytes allSendsOk initialState
      (0xF0 :: List.replicate 1023 0 ++ [0xF7])).uart_sysex_buffer.in_sysex = false ∧
    (feedBytes allSendsOk initialState
      (0xF0 :: List.replicate 1023 0 ++ [0xF7])).uart_sysex_buffer.length = 0 ∧
    (feedBytes allSendsOk initialState
      (0xF0 :: List.replicate 1023 0 ++ [0xF7])).uart_sysex_buffer.overflow = false :=
  C8_sysex_overflow_dropped allSendsOk initialState (List.replicate 1023 0)
    (fun d hd => by rw [List.eq_of_mem_replicate hd]; decide)
    (by rw [List.length_replicate]; decide)

/-! ## C11 to C15: the USB-MIDI codec -/

/-- C11, as the code has it: `MIDI_GetCIN(status, 1)` is `USB_MIDI_CIN_1BYTE` = 0x5 for
every status, and `vUartToUsbTask` packs a real-time message `{b}` (0xF8..0xFF) into the
packet `[0x05, b, 0, 0]`, whose CIN nibble is 0x5. -/
theorem C11_one_byte_cin_is_5 (status b : Nat) (hb : 0xF8 ≤ b ∧ b ≤ 0xFF) :
    MIDI_GetCIN status 1 = 0x5 ∧
    vUartToUsbTask_usb_packet ⟨[b], 1⟩ = [0x05, b, 0, 0] ∧
    (vUartToUsbTask_usb_packet ⟨[b], 1⟩).getD 0 0 &&& 0x0F = 0x5 := by
  have h0 : ¬ b = 0xF0 := by omega
  have h7 : ¬ b = 0xF7 := by omega
  have hp : vUartToUsbTask_usb_packet ⟨[b], 1⟩ = [0x05, b, 0, 0] := by
    simp [vUartToUsbTask_usb_packet, MIDI_SYSEX_START, MIDI_SYSEX_END, h0, h7, MIDI_GetCIN,
      USB_MIDI_CIN_1BYTE, List.range_succ]
  refine ⟨rfl, hp, ?_⟩
  rw [hp]
  show 5 &&& 15 = 5
  decide

/-- Witness of the amended C11: Timing Clock 0xF8. -/
theorem C11_one_byte_cin_is_5_witness :
    MIDI_GetCIN 0xF8 1 = 0x5 ∧
    vUartToUsbTask_usb_packet ⟨[0xF8], 1⟩ = [0x05, 0xF8, 0, 0] ∧
    (vUartToUsbTask_usb_packet ⟨[0xF8], 1⟩).getD 0 0 &&& 0x0F = 0x5 :=
  C11_one_byte_cin_is_5 0xF8 0xF8 (by decide)

/-- Counterexample to C11 as stated: for Timing Clock the CIN is 0x5, not 0xF. -/
theorem C11_counterexample :
    MIDI_GetCIN 0xF8 1 ≠ 0xF ∧
    (vUartToUsbTask_usb_packet ⟨[0xF8], 1⟩).getD 0 0 &&& 0x0F ≠ 0xF := by
  decide

/-- C12: `MIDI_GetLengthFromCIN` is 2 for the CINs 0x2, 0xC, 0xD, 3 for 0x3, 0x8, 0x9, 0xA,
0xB, 0xE, 1 for `USB_MIDI_CIN_1BYTE` = 0x5, and 3 for every other input, 0x0, 0x1 and 0xFF
among them. -/
theorem C12_length_from_cin_table (cin : Nat) :
    MIDI_GetLengthFromCIN cin =
      (if cin = 0x2 ∨ cin = 0xC ∨ cin = 0xD then 2
       else if cin = 0x3 ∨ cin = 0x8 ∨ cin = 0x9 ∨ cin = 0xA ∨ cin = 0xB ∨ cin = 0xE then 3
       else if cin = 0x5 then 1
       else 3) ∧
    USB_MIDI_CIN_1BYTE = 0x5 ∧
    MIDI_GetLengthFromCIN 0x0 = 3 ∧ MIDI_GetLengthFromCIN 0x1 = 3 ∧
    MIDI_GetLengthFromCIN 0xFF = 3 := by
  refine ⟨rfl, rfl, ?_, ?_, ?_⟩ <;> decide

/-- C13 at the failing input: `MIDI_GetLengthFromCIN(0xF)` is 3, and the USB receive path
turns the packet `[0x0F, 0xF8, 0, 0]` into the queued message `{0xF8, 0x00, 0x00}` of
length 3. -/
theorem C13_cin_F_decodes_to_three_bytes :
    MIDI_GetLengthFromCIN 0xF = 3 ∧
    (usbFeedPackets allSendsOk usbInitialState [[0x0F, 0xF8, 0x00, 0x00]]).queue
      = [⟨[0xF8, 0x00, 0x00], 3⟩] := by
  decide

set_option maxRecDepth 100000 in
theorem channel_voice_cin : ∀ s, s < 0xF0 → 0x80 ≤ s →
    MIDI_GetCIN s (MIDI_GetExpectedLength s) = s >>> 4 ∧
    MIDI_GetLengthFromCIN (s >>> 4) = MIDI_GetExpectedLength s ∧
    (MIDI_GetExpectedLength s = 2 ∨ MIDI_GetExpectedLength s = 3) := by
  decide

/-- C14: for a Channel Voice status `s` (0x80..0xEF) with `n = MIDI_GetExpectedLength s`,
the packet `[MIDI_GetCIN s n, s, d1, d2-or-0]`, decoded by taking
`MIDI_GetLengthFromCIN` of its CIN payload bytes, gives back the `n` bytes of the message;
and `MIDI_GetCIN s n` is the high nibble of `s`. -/
theorem C14_codec_round_trip (s d1 d2 : Nat) (hs : 0x80 ≤ s ∧ s ≤ 0xEF) :
    (((MIDI_GetCIN s (MIDI_GetExpectedLength s)
        :: ([s, d1, d2].take (MIDI_GetExpectedLength s)
            ++ List.replicate (3 - MIDI_GetExpectedLength s) 0)).drop 1).take
      (MIDI_GetLengthFromCIN (MIDI_GetCIN s (MIDI_GetExpectedLength s)))
      = [s, d1, d2].take (MIDI_GetExpectedLength s)) ∧
    ([s, d1, d2].take (MIDI_GetExpectedLength s)).length = MIDI_GetExpectedLength s ∧
    MIDI_GetLengthFromCIN (MIDI_GetCIN s (MIDI_GetExpectedLength s))
      = MIDI_GetExpectedLength s ∧
    MIDI_GetCIN s (MIDI_GetExpectedLength s) = s >>> 4 := by
  obtain ⟨hcin, hlen, hn⟩ := channel_voice_cin s (by omega) hs.1
  rw [hcin, hlen]
  rcases hn with hn | hn <;> rw [hn] <;> simp

/-- Witness of C14: Note On `{0x90, 0x3C, 0x7F}`. -/
theorem C14_codec_round_trip_witness :
    (((MIDI_GetCIN 0x90 (MIDI_GetExpectedLength 0x90)
        :: ([0x90, 0x3C, 0x7F].take (MIDI_GetExpectedLength 0x90)
            ++ List.replicate (3 - MIDI_GetExpectedLength 0x90) 0)).drop 1).take
      (MIDI_GetLengthFromCIN (MIDI_GetCIN 0x90 (MIDI_GetExpectedLength 0x90)))
      = [0x90, 0x3C, 0x7F].take (MIDI_GetExpectedLength 0x90)) ∧
    ([0x90, 0x3C, 0x7F].take (MIDI_GetExpectedLength 0x90)).length
      = MIDI_GetExpectedLength 0x90 ∧
    MIDI_GetLengthFromCIN (MIDI_GetCIN 0x90 (MIDI_GetExpectedLength 0x90))
      = MIDI_GetExpectedLength 0x90 ∧
    MIDI_GetCIN 0x90 (MIDI_GetExpectedLength 0x90) = 0x90 >>> 4 :=
  C14_codec_round_trip 0x90 0x3C 0x7F (by decide)

/-- C15 at the failing input: for the Note On `{0x90, 0x3C, 0x7F}` `vUartToUsbTask` builds
`[0x04, 0x90, 0x3C, 0x7F]`, with the SysEx CIN 0x4 where `MIDI_GetCIN(0x90, 3)` is 0x9; a
2-byte message such as Program Change `{0xC0, 0x05}` gets its CIN 0xC. -/
theorem C15_note_on_gets_sysex_cin :
    vUartToUsbTask_usb_packet ⟨[0x90, 0x3C, 0x7F], 3⟩ = [0x04, 0x90, 0x3C, 0x7F] ∧
    MIDI_GetCIN 0x90 3 = 0x9 ∧
    vUartToUsbTask_usb_packet ⟨[0xC0, 0x05], 2⟩ = [0x0C, 0xC0, 0x05, 0x00] := by
  decide

/-! ## C16, C17: SysEx in USB-MIDI packets -/

/-- C16 at the failing inputs: the SysEx `F0 01 F7`, parsed by `ProcessMidiByte`, is one
chunk, which `vUartToUsbTask` packs as `[0x04, 0xF0, 0x01, 0xF7]`, and `F0 F7` is packed as
`[0x04, 0xF0, 0xF7, 0x00]`: the terminating packet has CIN 0x4, not 0x7 or 0x6. With two
data bytes, `F0 01 02 F7` gives `[0x04, 0xF0, 0x01, 0x02]` then `[0x05, 0xF7, 0, 0]`. -/
theorem C16_short_sysex_gets_cin_4 :
    (feedBytes allSendsOk initialState [0xF0, 0x01, 0xF7]).queue.map vUartToUsbTask_usb_packet
      = [[0x04, 0xF0, 0x01, 0xF7]] ∧
    (feedBytes allSendsOk initialState [0xF0, 0xF7]).queue.map vUartToUsbTask_usb_packet
      = [[0x04, 0xF0, 0xF7, 0x00]] ∧
    (feedBytes allSendsOk initialState [0xF0, 0x01, 0x02, 0xF7]).queue.map
        vUartToUsbTask_usb_packet
      = [[0x04, 0xF0, 0x01, 0x02], [0x05, 0xF7, 0x00, 0x00]] := by
  decide

/-- C17 at the failing inputs: the SysEx `F0 01 02 00 F7`, delivered as
`[0x04, F0, 01, 02]`, `[0x06, 00, F7, 00]`, is enqueued as `{F0, 01, 02}`, `{F7}`, without
its data byte 0x00; and `F0 01 F7`, delivered as the single packet `[0x07, F0, 01, F7]`,
enqueues nothing. -/
theorem C17_usb_sysex_not_verbatim :
    ((usbFeedPackets allSendsOk usbInitialState
        [[0x04, 0xF0, 0x01, 0x02], [0x06, 0x00, 0xF7, 0x00]]).queue.map
          (fun c => c.data)).flatten
      = [0xF0, 0x01, 0x02, 0xF7] ∧
    (usbFeedPackets allSendsOk usbInitialState [[0x07, 0xF0, 0x01, 0xF7]]).queue = [] := by
  decide

/-! ## C18: the UMP word count -/

/-- C18: for every 32-bit word `w`, `GetUmpWordCount w` is a function of the top nibble
`t = w >> 28` alone: 2 for `t` in {3, 4}, 4 for `t` in {5, 0xF}, and 1 for the other twelve
values {0, 1, 2, 6, 7, 8, 9, 0xA, 0xB, 0xC, 0xD, 0xE}. -/
theorem C18_ump_word_count (w : Nat) (hw : w < 2 ^ 32) :
    w >>> 28 < 16 ∧
    GetUmpWordCount w =
      (if w >>> 28 = 3 ∨ w >>> 28 = 4 then 2
       else if w >>> 28 = 5 ∨ w >>> 28 = 0xF then 4
       else 1) := by
  have ht : w >>> 28 < 16 := by
    rw [Nat.shiftRight_eq_div_pow]
    omega
  refine ⟨ht, ?_⟩
  have hand : (w >>> 28) &&& 0xF = w >>> 28 := by
    have := Nat.and_pow_two_sub_one_eq_mod (w >>> 28) 4
    simp only [Nat.reducePow, Nat.add_one_sub_one] at this
    rw [this]
    exact Nat.mod_eq_of_lt ht
  unfold GetUmpWordCount
  simp only [hand]
  generalize w >>> 28 = t at ht
  interval_cases t <;> rfl

/-- Witness of C18: `0x3FFFFFFF` has type 3 and two words. -/
theorem C18_ump_word_count_witness :
    0x3FFFFFFF >>> 28 < 16 ∧
    GetUmpWordCount 0x3FFFFFFF =
      (if 0x3FFFFFFF >>> 28 = 3 ∨ 0x3FFFFFFF >>> 28 = 4 then 2
       else if 0x3FFFFFFF >>> 28 = 5 ∨ 0x3FFFFFFF >>> 28 = 0xF then 4
       else 1) :=
  C18_ump_word_count 0x3FFFFFFF (by decide)

/-! ## SysEx7 fragmentation (`SendSysExAsUMP`) -/

theorem frame_get_payload (p : List Nat) (m : Nat) (h : m < p.length) :
    (0xF0 :: p ++ [0xF7]).getD (m + 1) 0 = p.getD m 0 := by
  simp [List.getD_eq_getElem?_getD, List.getElem?_append_left h]

theorem frame_get_end (p : List Nat) :
    (0xF0 :: p ++ [0xF7]).getD (p.length + 1) 0 = 0xF7 := by
  simp [List.getD_eq_getElem?_getD]

theorem payload_getD_lt (p : List Nat) (hp : ∀ b ∈ p, b < 0x80) (m : Nat) (h : m < p.length) :
    p.getD m 0 < 0x80 := by
  rw [List.getD_eq_getElem?_getD, List.getElem?_eq_getElem h]
  exact hp _ (List.getElem_mem h)

theorem chunk_getD (p : List Nat) (a n j : Nat) :
    ((p.drop a).take n).getD j 0 = if j < n then p.getD (a + j) 0 else 0 := by
  simp only [List.getD_eq_getElem?_getD, List.getElem?_take, List.getElem?_drop]
  split <;> rfl

theorem SendSysExAsUMP_copy_eq (B : List Nat) (L : Nat) (n : Nat) :
    ∀ (i : Nat) (db : Nat → Nat) (pos : Nat),
      (∀ k, k < n → pos + k < L ∧ B.getD (pos + k) 0 ≠ 0xF7) →
      SendSysExAsUMP_copy B L n i (db, pos)
        = (fun j => if i ≤ j ∧ j < i + n then B.getD (pos + (j - i)) 0 else db j, pos + n) := by
  induction n with
  | zero =>
    intro i db pos _
    simp only [SendSysExAsUMP_copy, Nat.add_zero, Prod.mk.injEq, and_true]
    funext j
    have : ¬ (i ≤ j ∧ j < i) := by omega
    simp [this]
  | succ n ih =>
    intro i db pos h
    have h0 := h 0 (by omega)
    simp only [Nat.add_zero] at h0
    have hrest : ∀ k, k < n → pos + 1 + k < L ∧ B.getD (pos + 1 + k) 0 ≠ 0xF7 := by
      intro k hk
      have := h (k + 1) (by omega)
      rwa [show pos + (k + 1) = pos + 1 + k by omega] at this
    simp only [SendSysExAsUMP_copy, h0.1, h0.2, ne_eq, not_false_eq_true, and_self, if_true]
    rw [ih (i + 1) _ (pos + 1) hrest]
    simp only [Prod.mk.injEq]
    refine ⟨?_, by omega⟩
    funext j
    by_cases hj : j = i
    · subst hj
      have c1 : ¬ (j + 1 ≤ j ∧ j < j + 1 + n) := by omega
      have c2 : j ≤ j ∧ j < j + (n + 1) := by omega
      simp [c1, c2]
    · by_cases hin : i + 1 ≤ j ∧ j < i + 1 + n
      · have c2 : i ≤ j ∧ j < i + (n + 1) := by omega
        have e : pos + 1 + (j - (i + 1)) = pos + (j - i) := by omega
        simp only [hin, c2, and_self, if_true, e]
      · have c2 : ¬ (i ≤ j ∧ j < i + (n + 1)) := by omega
        simp only [hin, c2, if_false, Function.update, hj, dite_false]

theorem SendSysExAsUMP_copy_chunk (p : List Nat) (hp : ∀ b ∈ p, b < 0x80) (a n : Nat)
    (h : a + n ≤ p.length) :
    SendSysExAsUMP_copy (0xF0 :: p ++ [0xF7]) (p.length + 2) n 0 (fun _ => 0, a + 1)
      = (fun j => ((p.drop a).take n).getD j 0, a + 1 + n) := by
  rw [SendSysExAsUMP_copy_eq]
  · simp only [Prod.mk.injEq, and_true]
    funext j
    rw [chunk_getD]
    by_cases hj : j < n
    · have c : 0 ≤ j ∧ j < 0 + n := by omega
      simp only [c, and_self, if_true, hj, Nat.sub_zero]
      rw [show a + 1 + j = (a + j) + 1 by omega, frame_get_payload p (a + j) (by omega)]
    · have c : ¬ (0 ≤ j ∧ j < 0 + n) := by omega
      simp [c, hj]
  · intro k hk
    refine ⟨by omega, ?_⟩
    rw [show a + 1 + k = (a + k) + 1 by omega, frame_get_payload p (a + k) (by omega)]
    have := payload_getD_lt p hp (a + k) (by omega)
    omega

theorem SendSysExAsUMP_loop_done (B : List Nat) (L fuel pos : Nat) (h : ¬ pos < L) :
    SendSysExAsUMP_loop B L fuel pos = some [] := by
  cases fuel <;> simp [SendSysExAsUMP_loop, h]

theorem chunk_length (p : List Nat) (a n : Nat) (h : a + n ≤ p.length) :
    ((p.drop a).take n).length = n := by
  simp only [List.length_take, List.length_drop]
  omega

theorem map_range_succ_gen {α : Type} (f : Nat → α) (m : Nat) :
    (List.range (m + 1)).map f = f 0 :: (List.range m).map (fun i => f (i + 1)) := by
  rw [List.range_succ_eq_map, List.map_cons, List.map_map]
  rfl

theorem SendSysExAsUMP_loop_continue (p : List Nat) (hp : ∀ b ∈ p, b < 0x80) (fuel : Nat) :
    ∀ a, a < p.length → p.length - a ≤ fuel →
      SendSysExAsUMP_loop (0xF0 :: p ++ [0xF7]) (p.length + 2) fuel (a + 1)
        = some ((List.range ((p.length - a + 5) / 6)).map (fun j =>
            sysex7Message (if j + 1 = (p.length - a + 5) / 6 then 3 else 2)
              ((p.drop (a + 6 * j)).take 6))) := by
  induction fuel with
  | zero => intro a ha hf; omega
  | succ fuel ih =>
    intro a ha hf
    have hpos : a + 1 < p.length + 2 := by omega
    have hrem : p.length + 2 - (a + 1) - 1 = p.length - a := by omega
    rw [SendSysExAsUMP_loop]
    simp only [hpos, if_true, Nat.add_one_ne_zero, if_false, hrem]
    by_cases hlast : p.length - a ≤ 6
    · -- the End message
      simp only [hlast, if_true]
      rw [SendSysExAsUMP_copy_chunk p hp a (p.length - a) (by omega)]
      have hend : a + 1 + (p.length - a) = p.length + 1 := by omega
      simp only [hend, frame_get_end, Nat.lt_succ_self, and_self, if_true]
      rw [SendSysExAsUMP_loop_done _ _ _ _ (by omega)]
      have hm : (p.length - a + 5) / 6 = 1 := by omega
      have htake : (p.drop a).take 6 = (p.drop a).take (p.length - a) := by
        rw [List.take_of_length_le (by simp; omega), List.take_of_length_le (by simp)]
      have hr1 : List.range 1 = [0] := rfl
      rw [hm, hr1]
      simp only [List.map_cons, List.map_nil, Option.map_some', Nat.mul_zero, Nat.add_zero,
        Nat.zero_add, if_true, htake, sysex7Message, chunk_length p a (p.length - a) (by omega)]
    · -- a Continue message
      have h6 : ¬ (p.length - a ≤ 6) := hlast
      simp only [h6, if_false]
      rw [SendSysExAsUMP_copy_chunk p hp a 6 (by omega)]
      have hnext : (0xF0 :: p ++ [0xF7]).getD (a + 1 + 6) 0 ≠ 0xF7 := by
        rw [show a + 1 + 6 = (a + 6) + 1 by omega, frame_get_payload p (a + 6) (by omega)]
        have := payload_getD_lt p hp (a + 6) (by omega)
        omega
      simp only [hnext, and_false, if_false]
      rw [show a + 1 + 6 = (a + 6) + 1 by omega, ih (a + 6) (by omega) (by omega)]
      have hm : (p.length - a + 5) / 6 = (p.length - (a + 6) + 5) / 6 + 1 := by omega
      have hm1 : ¬ (0 + 1 = (p.length - (a + 6) + 5) / 6 + 1) := by omega
      rw [hm, map_range_succ_gen]
      have htail : (List.range ((p.length - (a + 6) + 5) / 6)).map (fun i =>
            sysex7Message (if i + 1 + 1 = (p.length - (a + 6) + 5) / 6 + 1 then 3 else 2)
              ((p.drop (a + 6 * (i + 1))).take 6))
          = (List.range ((p.length - (a + 6) + 5) / 6)).map (fun j =>
            sysex7Message (if j + 1 = (p.length - (a + 6) + 5) / 6 then 3 else 2)
              ((p.drop (a + 6 + 6 * j)).take 6)) := by
        apply List.map_congr_left
        intro j _
        rw [show a + 6 * (j + 1) = a + 6 + 6 * j by omega]
        simp only [Nat.add_right_cancel_iff]
      rw [htail]
      simp only [Option.map_some', hm1, if_false, Nat.mul_zero, Nat.add_zero, sysex7Message,
        chunk_length p a 6 (by omega)]

theorem SendSysExAsUMP_frame (p : List Nat) (hp : ∀ b ∈ p, b < 0x80) :
    SendSysExAsUMP (0xF0 :: p ++ [0xF7]) (p.length + 2)
      = some ((List.range (sysex7Count p.length)).map (fun i =>
          sysex7Message (sysex7Status p.length i) ((p.drop (6 * i)).take 6))) := by
  show SendSysExAsUMP_loop _ _ ((p.length + 1) + 1) 0 = _
  have hpos : 0 < p.length + 2 := by omega
  rw [SendSysExAsUMP_loop]
  simp only [hpos, if_true, Nat.zero_add]
  by_cases hshort : p.length ≤ 6
  · have h8 : p.length + 2 ≤ 8 := by omega
    have hn : (p.length + 2 + 256 - 2) % 256 = p.length := by omega
    have hcopy := SendSysExAsUMP_copy_chunk p hp 0 p.length (by omega)
    simp only [Nat.zero_add, List.drop_zero] at hcopy
    simp only [h8, if_true, hn, hcopy]
    have hend : 1 + p.length = p.length + 1 := by omega
    simp only [hend, frame_get_end, Nat.lt_succ_self, and_self, if_true]
    rw [SendSysExAsUMP_loop_done _ _ _ _ (by omega)]
    have hr1 : List.range 1 = [0] := rfl
    have htake : p.take 6 = p.take p.length := by
      rw [List.take_of_length_le hshort, List.take_of_length_le (Nat.le_refl _)]
    have hmin : min 6 p.length = p.length := Nat.min_eq_right hshort
    simp only [sysex7Count, sysex7Status, hshort, if_true, hr1, List.map_cons, List.map_nil,
      Option.map_some', Nat.mul_zero, List.drop_zero, htake, sysex7Message,
      List.length_take, Nat.min_self, hmin]
  · have h8 : ¬ (p.length + 2 ≤ 8) := by omega
    have hcopy := SendSysExAsUMP_copy_chunk p hp 0 6 (by omega)
    simp only [Nat.zero_add, List.drop_zero] at hcopy
    simp only [h8, if_false, hcopy]
    have hnext : (0xF0 :: p ++ [0xF7]).getD (1 + 6) 0 ≠ 0xF7 := by
      rw [show 1 + 6 = 6 + 1 by omega, frame_get_payload p 6 (by omega)]
      have := payload_getD_lt p hp 6 (by omega)
      omega
    simp only [hnext, and_false, if_false]
    rw [show 1 + 6 = 6 + 1 by omega,
      SendSysExAsUMP_loop_continue p hp (p.length + 1) 6 (by omega) (by omega)]
    have hk : sysex7Count p.length = (p.length - 6 + 5) / 6 + 1 := by
      simp only [sysex7Count, hshort, if_false]
      omega
    rw [hk, map_range_succ_gen]
    have htail : (List.range ((p.length - 6 + 5) / 6)).map (fun i =>
          sysex7Message (sysex7Status p.length (i + 1)) ((p.drop (6 * (i + 1))).take 6))
        = (List.range ((p.length - 6 + 5) / 6)).map (fun j =>
          sysex7Message (if j + 1 = (p.length - 6 + 5) / 6 then 3 else 2)
            ((p.drop (6 + 6 * j)).take 6)) := by
      apply List.map_congr_left
      intro j _
      rw [show 6 * (j + 1) = 6 + 6 * j by omega]
      simp only [sysex7Status, hshort, if_false, Nat.add_one_ne_zero, hk,
        Nat.add_right_cancel_iff]
    rw [htail]
    simp only [Option.map_some', sysex7Status, hshort, if_false, if_true, Nat.mul_zero,
      List.drop_zero, sysex7Message, List.length_take]
    have hmin : min 6 p.length = 6 := by omega
    rw [hmin]

theorem chunks_flatten (k : Nat) :
    ∀ p : List Nat, p.length ≤ 6 * k →
      ((List.range k).map (fun i => (p.drop (6 * i)).take 6)).flatten = p := by
  induction k with
  | zero =>
    intro p h
    have : p = [] := List.eq_nil_of_length_eq_zero (by omega)
    simp [this]
  | succ k ih =>
    intro p h
    rw [map_range_succ_gen, List.flatten_cons]
    have htail : (List.range k).map (fun i => (p.drop (6 * (i + 1))).take 6)
        = (List.range k).map (fun i => ((p.drop 6).drop (6 * i)).take 6) := by
      apply List.map_congr_left
      intro i _
      rw [List.drop_drop, show 6 * (i + 1) = 6 + 6 * i by omega]
    rw [htail, ih (p.drop 6) (by simp; omega)]
    simp

/-! ## C19: SysEx7 fragmentation -/

/-- C19: for a SysEx buffer `F0 p1..pN F7` with every `pi < 0x80`, `SendSysExAsUMP` ends
and hands over, in order, `sysex7Count N` Data Messages (one when `N ≤ 6`, `⌈N/6⌉`
otherwise); message `i` has the status `sysex7Status N i` (0 alone; else 1, then 2s, then 3)
and is `sysex7Message` of the payload bytes `6i .. min(6i+6, N)-1`, which are 6 bytes for
every message but the last and `N - 6 * (count - 1)` for the last; the payloads concatenated
are `p1..pN`. -/
theorem C19_sysex7_fragmentation (p : List Nat) (hp : ∀ b ∈ p, b < 0x80) :
    SendSysExAsUMP (0xF0 :: p ++ [0xF7]) (p.length + 2)
      = some ((List.range (sysex7Count p.length)).map (fun i =>
          sysex7Message (sysex7Status p.length i) ((p.drop (6 * i)).take 6))) ∧
    (∀ i, i < sysex7Count p.length →
      ((p.drop (6 * i)).take 6).length
        = if i + 1 < sysex7Count p.length then 6
          else p.length - 6 * (sysex7Count p.length - 1)) ∧
    ((List.range (sysex7Count p.length)).map (fun i => (p.drop (6 * i)).take 6)).flatten
      = p := by
  refine ⟨SendSysExAsUMP_frame p hp, ?_, ?_⟩
  · intro i hi
    simp only [List.length_take, List.length_drop]
    by_cases hN : p.length ≤ 6
    · simp only [sysex7Count, hN, if_true] at hi ⊢
      have hi0 : ¬ (i + 1 < 1) := by omega
      simp only [hi0, if_false]
      omega
    · simp only [sysex7Count, hN, if_false] at hi ⊢
      split <;> omega
  · apply chunks_flatten
    unfold sysex7Count
    split <;> omega

/-- Witness of C19: the 13-byte payload `1..13` gives Start, Continue, End. -/
theorem C19_sysex7_fragmentation_witness :
    SendSysExAsUMP (0xF0 :: [1, 2, 3, 4, 5, 6, 7, 8, 9, 10, 11, 12, 13] ++ [0xF7])
        ([1, 2, 3, 4, 5, 6, 7, 8, 9, 10, 11, 12, 13].length + 2)
      = some ((List.range (sysex7Count [1, 2, 3, 4, 5, 6, 7, 8, 9, 10, 11, 12, 13].length)).map
          (fun i =>
            sysex7Message (sysex7Status [1, 2, 3, 4, 5, 6, 7, 8, 9, 10, 11, 12, 13].length i)
              (([1, 2, 3, 4, 5, 6, 7, 8, 9, 10, 11, 12, 13].drop (6 * i)).take 6))) ∧
    (∀ i, i < sysex7Count [1, 2, 3, 4, 5, 6, 7, 8, 9, 10, 11, 12, 13].length →
      (([1, 2, 3, 4, 5, 6, 7, 8, 9, 10, 11, 12, 13].drop (6 * i)).take 6).length
        = if i + 1 < sysex7Count [1, 2, 3, 4, 5, 6, 7, 8, 9, 10, 11, 12, 13].length then 6
          else [1, 2, 3, 4, 5, 6, 7, 8, 9, 10, 11, 12, 13].length
            - 6 * (sysex7Count [1, 2, 3, 4, 5, 6, 7, 8, 9, 10, 11, 12, 13].length - 1)) ∧
    ((List.range (sysex7Count [1, 2, 3, 4, 5, 6, 7, 8, 9, 10, 11, 12, 13].length)).map
        (fun i => ([1, 2, 3, 4, 5, 6, 7, 8, 9, 10, 11, 12, 13].drop (6 * i)).take 6)).flatten
      = [1, 2, 3, 4, 5, 6, 7, 8, 9, 10, 11, 12, 13] :=
  C19_sysex7_fragmentation [1, 2, 3, 4, 5, 6, 7, 8, 9, 10, 11, 12, 13] (by decide)

/-! ## Decoding a Data Message -/

theorem and_0xF (x : Nat) : x &&& 0xF = x % 16 := by
  have := Nat.and_pow_two_sub_one_eq_mod x 4
  simpa using this

theorem and_0xFF (x : Nat) : x &&& 0xFF = x % 256 := by
  have := Nat.and_pow_two_sub_one_eq_mod x 8
  simpa using this

theorem and_0x7F_lt (x : Nat) : x &&& 0x7F < 0x80 :=
  Nat.and_lt_two_pow x (by decide : 0x7F < 2 ^ 7)

theorem or_eq_add_of_mul (i a b x : Nat) (hx : x = 2 ^ i * a) (hb : b < 2 ^ i) :
    x ||| b = x + b := by
  subst hx
  exact (Nat.mul_add_lt_is_or hb a).symm

theorem word0_arith (st n b0 b1 : Nat) (hst : st < 16) (hn : n < 16) (h0 : b0 < 256)
    (h1 : b1 < 256) :
    (0x3 <<< 28) ||| (0 <<< 24) ||| (st <<< 20) ||| (n <<< 16) ||| (b0 <<< 8) ||| b1
      = 0x30000000 + st * 0x100000 + n * 0x10000 + b0 * 0x100 + b1 := by
  simp only [Nat.shiftLeft_eq, Nat.zero_mul, Nat.or_zero, Nat.reducePow, Nat.reduceMul]
  rw [or_eq_add_of_mul 28 3 (st * 1048576) 805306368 (by norm_num) (by norm_num; omega),
    or_eq_add_of_mul 20 (768 + st) (n * 65536) _ (by norm_num; omega) (by norm_num; omega),
    or_eq_add_of_mul 16 (12288 + st * 16 + n) (b0 * 256) _ (by norm_num; omega)
      (by norm_num; omega),
    or_eq_add_of_mul 8 (3145728 + st * 4096 + n * 256 + b0) b1 _ (by norm_num; omega)
      (by norm_num; omega)]

theorem word1_arith (b2 b3 b4 b5 : Nat) (h3 : b3 < 256) (h4 : b4 < 256) (h5 : b5 < 256) :
    (b2 <<< 24) ||| (b3 <<< 16) ||| (b4 <<< 8) ||| b5
      = b2 * 0x1000000 + b3 * 0x10000 + b4 * 0x100 + b5 := by
  simp only [Nat.shiftLeft_eq, Nat.reducePow]
  rw [or_eq_add_of_mul 24 b2 (b3 * 65536) _ (by norm_num; omega) (by norm_num; omega),
    or_eq_add_of_mul 16 (b2 * 256 + b3) (b4 * 256) _ (by norm_num; omega) (by norm_num; omega),
    or_eq_add_of_mul 8 (b2 * 65536 + b3 * 256 + b4) b5 _ (by norm_num; omega)
      (by norm_num; omega)]

theorem chunk_byte_lt (chunk : List Nat) (hb : ∀ b ∈ chunk, b < 0x80) (i : Nat) :
    chunk.getD i 0 < 0x80 := by
  by_cases h : i < chunk.length
  · exact payload_getD_lt chunk hb i h
  · rw [List.getD_eq_getElem?_getD, List.getElem?_eq_none (by omega)]
    decide

theorem six_getD (chunk : List Nat) (hlen : chunk.length ≤ 6) (i : Nat) :
    [chunk.getD 0 0, chunk.getD 1 0, chunk.getD 2 0, chunk.getD 3 0, chunk.getD 4 0,
      chunk.getD 5 0].getD i 0 = chunk.getD i 0 := by
  rcases i with _ | _ | _ | _ | _ | _ | i
  · rfl
  · rfl
  · rfl
  · rfl
  · rfl
  · rfl
  · have : chunk.getD (i + 1 + 1 + 1 + 1 + 1 + 1) 0 = 0 := by
      rw [List.getD_eq_getElem?_getD, List.getElem?_eq_none (by omega)]
      rfl
    rw [this]
    rfl

/-- What `UMP_ProcessDataMessage` reads in `sysex7Message st chunk`. -/
theorem sysex7Message_decode (st : Nat) (chunk : List Nat) (hst : st < 16)
    (hlen : chunk.length ≤ 6) (hb : ∀ b ∈ chunk, b < 0x80) :
    (((sysex7Message st chunk).getD 0 0 >>> 28) &&& 0xF = 3) ∧
    (((sysex7Message st chunk).getD 0 0 >>> 20) &&& 0xF = st) ∧
    (((sysex7Message st chunk).getD 0 0 >>> 16) &&& 0xF = chunk.length) ∧
    (((sysex7Message st chunk).getD 0 0 >>> 8) &&& 0xFF = chunk.getD 0 0) ∧
    ((sysex7Message st chunk).getD 0 0 &&& 0xFF = chunk.getD 1 0) ∧
    (((sysex7Message st chunk).getD 1 0 >>> 24) &&& 0xFF = chunk.getD 2 0) ∧
    (((sysex7Message st chunk).getD 1 0 >>> 16) &&& 0xFF = chunk.getD 3 0) ∧
    (((sysex7Message st chunk).getD 1 0 >>> 8) &&& 0xFF = chunk.getD 4 0) ∧
    ((sysex7Message st chunk).getD 1 0 &&& 0xFF = chunk.getD 5 0) := by
  have h0 := chunk_byte_lt chunk hb 0
  have h1 := chunk_byte_lt chunk hb 1
  have h2 := chunk_byte_lt chunk hb 2
  have h3 := chunk_byte_lt chunk hb 3
  have h4 := chunk_byte_lt chunk hb 4
  have h5 := chunk_byte_lt chunk hb 5
  have e0 : (sysex7Message st chunk).getD 0 0
      = 0x30000000 + st * 0x100000 + chunk.length * 0x10000 + chunk.getD 0 0 * 0x100
        + chunk.getD 1 0 := by
    rw [← word0_arith st chunk.length _ _ hst (by omega) (by omega) (by omega)]
    rfl
  have e1 : (sysex7Message st chunk).getD 1 0
      = chunk.getD 2 0 * 0x1000000 + chunk.getD 3 0 * 0x10000 + chunk.getD 4 0 * 0x100
        + chunk.getD 5 0 := by
    rw [← word1_arith _ _ _ _ (by omega) (by omega) (by omega)]
    rfl
  rw [e0, e1]
  simp only [Nat.shiftRight_eq_div_pow, and_0xF, and_0xFF, Nat.reducePow]
  refine ⟨?_, ?_, ?_, ?_, ?_, ?_, ?_, ?_, ?_⟩ <;> omega

theorem sysex7Message_word_count (st : Nat) (chunk : List Nat) (hst : st < 16)
    (hlen : chunk.length ≤ 6) (hb : ∀ b ∈ chunk, b < 0x80) :
    GetUmpWordCount ((sysex7Message st chunk).getD 0 0) = 2 := by
  unfold GetUmpWordCount
  simp only [(sysex7Message_decode st chunk hst hlen hb).1]
  rfl

/-! ## Reassembly (`UMP_ProcessDataMessage`) -/

theorem umpSysexCopy_all (keep : UmpDiscoveryState → Nat → Bool) (data : Nat → Nat)
    (s : UmpDiscoveryState) (n : Nat) (hn : n ≤ 6)
    (hkeep : ∀ i, i < n → ∀ acc : UmpDiscoveryState,
      acc.sysex_length = s.sysex_length + i → keep acc (data i) = true) :
    umpSysexCopy keep data n s
      = { s with
          sysex_buffer := fun j =>
            if s.sysex_length ≤ j ∧ j < s.sysex_length + n then data (j - s.sysex_length)
            else s.sysex_buffer j
          sysex_length := s.sysex_length + n } := by
  unfold umpSysexCopy
  rw [Nat.min_eq_left hn]
  clear hn
  induction n with
  | zero =>
    have hfun : (fun j => if s.sysex_length ≤ j ∧ j < s.sysex_length + 0
        then data (j - s.sysex_length) else s.sysex_buffer j) = s.sysex_buffer := by
      funext j
      have : ¬ (s.sysex_length ≤ j ∧ j < s.sysex_length + 0) := by omega
      simp [this]
    rw [hfun]
    rfl
  | succ n ih =>
    rw [List.range_succ, List.foldl_append, ih (fun i hi => hkeep i (by omega))]
    simp only [List.foldl_cons, List.foldl_nil]
    rw [hkeep n (by omega) _ rfl]
    simp only [if_true, umpSysexPush]
    congr 1
    funext j
    by_cases hj : j = s.sysex_length + n
    · subst hj
      have c : s.sysex_length ≤ s.sysex_length + n
          ∧ s.sysex_length + n < s.sysex_length + (n + 1) := by omega
      simp [c]
    · have hc : (s.sysex_length ≤ j ∧ j < s.sysex_length + (n + 1))
          ↔ (s.sysex_length ≤ j ∧ j < s.sysex_length + n) := by omega
      simp only [Function.update, hj, dite_false, hc]

theorem muidBytes_lt (muid : Nat) : ∀ b ∈ muidBytes muid, b < 0x80 := by
  intro b hb
  simp only [muidBytes, List.mem_cons, List.mem_singleton, List.not_mem_nil, or_false] at hb
  rcases hb with rfl | rfl | rfl | rfl <;> exact and_0x7F_lt _

theorem forall_mem_append_lt (l1 l2 : List Nat) (h1 : ∀ b ∈ l1, b < 0x80)
    (h2 : ∀ b ∈ l2, b < 0x80) : ∀ b ∈ l1 ++ l2, b < 0x80 := by
  intro b hb
  rcases List.mem_append.mp hb with h | h
  · exact h1 b h
  · exact h2 b h

/-- A well-framed message is sent whole and touches nothing but `tx`. -/
theorem sendSysexMsg_frame (s : UmpDiscoveryState) (p : List Nat) (hp : ∀ b ∈ p, b < 0x80) :
    ∃ s1, sendSysexMsg s (0xF0 :: p ++ [0xF7]) = some s1 ∧
      s1.sysex_buffer = s.sysex_buffer ∧ s1.sysex_length = s.sysex_length ∧
      s1.sysex_in_progress = s.sysex_in_progress ∧ s1.device_muid = s.device_muid := by
  unfold sendSysexMsg
  have hl : (0xF0 :: p ++ [0xF7]).length = p.length + 2 := by simp
  rw [hl, SendSysExAsUMP_frame p hp]
  exact ⟨_, rfl, rfl, rfl, rfl, rfl⟩

theorem MIDICI_SendDiscoveryReply_frame (s : UmpDiscoveryState) (destination_muid : Nat) :
    ∃ s1, MIDICI_SendDiscoveryReply s destination_muid = some s1 ∧
      s1.sysex_buffer = s.sysex_buffer ∧ s1.sysex_length = s.sysex_length ∧
      s1.sysex_in_progress = s.sysex_in_progress ∧ s1.device_muid = s.device_muid := by
  have hp : ∀ b ∈ [MIDI_CI_CATEGORY, 0x7F, MIDI_CI_SUB_ID, 0x71, MIDI_CI_VERSION]
      ++ muidBytes s.device_muid
      ++ muidBytes destination_muid
      ++ [MANUFACTURER_ID_BYTE1, MANUFACTURER_ID_BYTE2, MANUFACTURER_ID_BYTE3]
      ++ [DEVICE_FAMILY_ID_LSB, DEVICE_FAMILY_ID_MSB]
      ++ [DEVICE_MODEL_ID_LSB, DEVICE_MODEL_ID_MSB]
      ++ [SW_REVISION_LEVEL1 &&& 0x7F, SW_REVISION_LEVEL2 &&& 0x7F,
          SW_REVISION_LEVEL3 &&& 0x7F, SW_REVISION_LEVEL4 &&& 0x7F]
      ++ [0x01]
      ++ [0x00, 0x02, 0x00, 0x00]
      ++ [0x00]
      ++ [0x00], b < 0x80 := by
    repeat' apply forall_mem_append_lt
    all_goals first
      | exact muidBytes_lt _
      | decide
  exact sendSysexMsg_frame
    { s with tx := s.tx ++ [UmpTxEvent.reset], discovery_reply_sent := true } _ hp

theorem MIDICI_SendInvalidateMUID_frame (s : UmpDiscoveryState) (old_muid : Nat) :
    ∃ s1, MIDICI_SendInvalidateMUID s old_muid = some s1 ∧
      s1.sysex_buffer = s.sysex_buffer ∧ s1.sysex_length = s.sysex_length ∧
      s1.sysex_in_progress = s.sysex_in_progress ∧ s1.device_muid = s.device_muid := by
  have hp : ∀ b ∈ [MIDI_CI_CATEGORY, 0x7F, MIDI_CI_SUB_ID, 0x7E, MIDI_CI_VERSION]
      ++ muidBytes s.device_muid
      ++ [0x7F, 0x7F, 0x7F, 0x7F]
      ++ muidBytes old_muid, b < 0x80 := by
    repeat' apply forall_mem_append_lt
    all_goals first
      | exact muidBytes_lt _
      | decide
  exact sendSysexMsg_frame s _ hp

/-- `MIDICI_ProcessDiscovery` returns and leaves the reassembly buffer as it was. -/
theorem MIDICI_ProcessDiscovery_frame (tick : Nat) (s : UmpDiscoveryState)
    (length source_muid : Nat) :
    ∃ s1, MIDICI_ProcessDiscovery tick s length source_muid = some s1 ∧
      s1.sysex_buffer = s.sysex_buffer ∧ s1.sysex_length = s.sysex_length ∧
      s1.sysex_in_progress = s.sysex_in_progress := by
  unfold MIDICI_ProcessDiscovery
  by_cases hlen : length < 17
  · simp only [hlen, if_true]
    exact ⟨s, rfl, rfl, rfl, rfl⟩
  · simp only [hlen, if_false]
    by_cases hc : source_muid = s.device_muid
    · simp only [hc, if_true]
      obtain ⟨s1, h1, h2, h3, h4, -⟩ := MIDICI_SendInvalidateMUID_frame
        { s with device_muid := MIDICI_GenerateMUID tick } s.device_muid
      exact ⟨s1, h1, h2, h3, h4⟩
    · simp only [hc, if_false]
      obtain ⟨s1, h1, h2, h3, h4, -⟩ := MIDICI_SendDiscoveryReply_frame s source_muid
      exact ⟨s1, h1, h2, h3, h4⟩

/-- The MIDI-CI block of an End message returns and leaves the reassembly buffer alone. -/
theorem UMP_ProcessDataMessage_ci_end_frame (tick : Nat) (s : UmpDiscoveryState) :
    ∃ s1, UMP_ProcessDataMessage_ci_end tick s = some s1 ∧
      s1.sysex_buffer = s.sysex_buffer ∧ s1.sysex_length = s.sysex_length ∧
      s1.sysex_in_progress = s.sysex_in_progress := by
  unfold UMP_ProcessDataMessage_ci_end
  split
  · split
    · split
      · exact MIDICI_ProcessDiscovery_frame tick s _ _
      · exact ⟨s, rfl, rfl, rfl, rfl⟩
    · exact ⟨s, rfl, rfl, rfl, rfl⟩
  · exact ⟨s, rfl, rfl, rfl, rfl⟩

theorem six_getD_fun (chunk : List Nat) (hlen : chunk.length ≤ 6) :
    (fun i => [chunk.getD 0 0, chunk.getD 1 0, chunk.getD 2 0, chunk.getD 3 0,
      chunk.getD 4 0, chunk.getD 5 0].getD i 0) = fun i => chunk.getD i 0 :=
  funext (six_getD chunk hlen)

/-- A Start message empties the buffer and stores its bytes. -/
theorem UMP_ProcessDataMessage_start (tick : Nat) (s : UmpDiscoveryState) (chunk : List Nat)
    (hlen : chunk.length ≤ 6) (hb : ∀ b ∈ chunk, b < 0x80) :
    UMP_ProcessDataMessage tick s (sysex7Message 1 chunk) 2
      = some { s with
          sysex_buffer := fun j => if j < chunk.length then chunk.getD j 0 else s.sysex_buffer j
          sysex_length := chunk.length
          sysex_in_progress := true } := by
  obtain ⟨d1, d2, d3, d4, d5, d6, d7, d8, d9⟩ :=
    sysex7Message_decode 1 chunk (by decide) hlen hb
  unfold UMP_ProcessDataMessage
  simp only [d1, d2, d3, d4, d5, d6, d7, d8, d9, six_getD_fun chunk hlen]
  simp only [Nat.lt_irrefl, if_false, ne_eq, not_true_eq_false, Nat.succ_ne_zero, if_true]
  rw [umpSysexCopy_all _ _ _ chunk.length hlen (fun _ _ _ _ => rfl)]
  simp only [Nat.zero_add, Nat.zero_le, true_and, Nat.sub_zero]

/-- A Continue message appends its bytes while the buffer has room. -/
theorem UMP_ProcessDataMessage_continue (tick : Nat) (s : UmpDiscoveryState)
    (chunk : List Nat) (hlen : chunk.length ≤ 6) (hb : ∀ b ∈ chunk, b < 0x80)
    (hprog : s.sysex_in_progress = true) (hne : 0 < chunk.length)
    (hroom : s.sysex_length + chunk.length ≤ UMP_SYSEX_BUFFER_SIZE) :
    UMP_ProcessDataMessage tick s (sysex7Message 2 chunk) 2
      = some { s with
          sysex_buffer := fun j =>
            if s.sysex_length ≤ j ∧ j < s.sysex_length + chunk.length
            then chunk.getD (j - s.sysex_length) 0 else s.sysex_buffer j
          sysex_length := s.sysex_length + chunk.length } := by
  obtain ⟨d1, d2, d3, d4, d5, d6, d7, d8, d9⟩ :=
    sysex7Message_decode 2 chunk (by decide) hlen hb
  have hlt : s.sysex_length < UMP_SYSEX_BUFFER_SIZE := by omega
  have hcopy : umpSysexCopy
      (fun acc _ => decide (acc.sysex_length < UMP_SYSEX_BUFFER_SIZE))
      (fun i => chunk.getD i 0) chunk.length s
      = { s with
          sysex_buffer := fun j =>
            if s.sysex_length ≤ j ∧ j < s.sysex_length + chunk.length
            then chunk.getD (j - s.sysex_length) 0 else s.sysex_buffer j
          sysex_length := s.sysex_length + chunk.length } := by
    rw [umpSysexCopy_all _ _ _ chunk.length hlen]
    intro i hi acc hacc
    simp only [decide_eq_true_eq]
    omega
  have n20 : ¬ ((2 : Nat) = 0) := by decide
  have n21 : ¬ ((2 : Nat) = 1) := by decide
  unfold UMP_ProcessDataMessage
  simp only [d1, d2, d3, d4, d5, d6, d7, d8, d9, six_getD_fun chunk hlen, hcopy]
  simp only [Nat.lt_irrefl, if_false, ne_eq, not_true_eq_false, if_true,
    hprog, hlt, and_self, n20, n21]

/-- An End message appends its bytes, closes the accumulation, and whatever MIDI-CI
processing follows returns and leaves the buffer alone. -/
theorem UMP_ProcessDataMessage_end (tick : Nat) (s : UmpDiscoveryState) (chunk : List Nat)
    (hlen : chunk.length ≤ 6) (hb : ∀ b ∈ chunk, b < 0x80)
    (hprog : s.sysex_in_progress = true)
    (hroom : s.sysex_length + chunk.length ≤ UMP_SYSEX_BUFFER_SIZE) :
    ∃ s1, UMP_ProcessDataMessage tick s (sysex7Message 3 chunk) 2 = some s1 ∧
      s1.sysex_buffer = (fun j =>
        if s.sysex_length ≤ j ∧ j < s.sysex_length + chunk.length
        then chunk.getD (j - s.sysex_length) 0 else s.sysex_buffer j) ∧
      s1.sysex_length = s.sysex_length + chunk.length ∧
      s1.sysex_in_progress = false := by
  obtain ⟨d1, d2, d3, d4, d5, d6, d7, d8, d9⟩ :=
    sysex7Message_decode 3 chunk (by decide) hlen hb
  have hcopy : umpSysexCopy
      (fun acc b => decide (b ≠ 0xF7 ∧ acc.sysex_length < UMP_SYSEX_BUFFER_SIZE))
      (fun i => chunk.getD i 0) chunk.length s
      = { s with
          sysex_buffer := fun j =>
            if s.sysex_length ≤ j ∧ j < s.sysex_length + chunk.length
            then chunk.getD (j - s.sysex_length) 0 else s.sysex_buffer j
          sysex_length := s.sysex_length + chunk.length } := by
    rw [umpSysexCopy_all _ _ _ chunk.length hlen]
    intro i hi acc hacc
    have := chunk_byte_lt chunk hb i
    simp only [decide_eq_true_eq]
    omega
  have n30 : ¬ ((3 : Nat) = 0) := by decide
  have n31 : ¬ ((3 : Nat) = 1) := by decide
  have n32 : ¬ ((3 : Nat) = 2) := by decide
  unfold UMP_ProcessDataMessage
  simp only [d1, d2, d3, d4, d5, d6, d7, d8, d9, six_getD_fun chunk hlen, hcopy]
  simp only [Nat.lt_irrefl, if_false, ne_eq, not_true_eq_false, if_true,
    hprog, n30, n31, n32]
  obtain ⟨s1, h1, h2, h3, -⟩ := UMP_ProcessDataMessage_ci_end_frame tick
    { s with
      sysex_buffer := fun j =>
        if s.sysex_length ≤ j ∧ j < s.sysex_length + chunk.length
        then chunk.getD (j - s.sysex_length) 0 else s.sysex_buffer j
      sysex_length := s.sysex_length + chunk.length
      sysex_in_progress := true }
  rw [h1]
  exact ⟨_, rfl, h2, h3, rfl⟩

theorem chunk_mem_lt (p : List Nat) (hp : ∀ b ∈ p, b < 0x80) (a n : Nat) :
    ∀ b ∈ (p.drop a).take n, b < 0x80 :=
  fun b hb => hp b (List.mem_of_mem_drop (List.mem_of_mem_take hb))

theorem umpFeed_continue (p : List Nat) (hp : ∀ b ∈ p, b < 0x80)
    (h256 : p.length ≤ UMP_SYSEX_BUFFER_SIZE) (fuel : Nat) :
    ∀ (a : Nat) (s : UmpDiscoveryState) (ticks : Nat → Nat),
      a < p.length → p.length - a ≤ fuel →
      s.sysex_in_progress = true → s.sysex_length = a →
      (∀ j, j < a → s.sysex_buffer j = p.getD j 0) →
      ∃ s1, umpFeedDataMessages ticks s
          ((List.range ((p.length - a + 5) / 6)).map (fun j =>
            sysex7Message (if j + 1 = (p.length - a + 5) / 6 then 3 else 2)
              ((p.drop (a + 6 * j)).take 6))) = some s1 ∧
        s1.sysex_length = p.length ∧
        (∀ j, j < p.length → s1.sysex_buffer j = p.getD j 0) ∧
        s1.sysex_in_progress = false := by
  induction fuel with
  | zero => intro a s ticks ha hf; omega
  | succ fuel ih =>
    intro a s ticks ha hf hprog hL hbuf
    have hcb := chunk_mem_lt p hp a 6
    have hcl6 : ((p.drop a).take 6).length ≤ 6 := by
      simp only [List.length_take]; omega
    by_cases hlast : p.length - a ≤ 6
    · have hm : (p.length - a + 5) / 6 = 1 := by omega
      have hr1 : List.range 1 = [0] := rfl
      have hcl : ((p.drop a).take 6).length = p.length - a := by
        simp only [List.length_take, List.length_drop]; omega
      obtain ⟨s1, h1, h2, h3, h4⟩ := UMP_ProcessDataMessage_end (ticks 0) s
        ((p.drop a).take 6) hcl6 hcb hprog (by rw [hL, hcl]; omega)
      rw [hm, hr1]
      simp only [List.map_cons, List.map_nil, Nat.mul_zero, Nat.add_zero, Nat.zero_add,
        if_true, umpFeedDataMessages,
        sysex7Message_word_count 3 _ (by decide) hcl6 hcb, h1, Option.some_bind]
      refine ⟨s1, rfl, by rw [h3, hL, hcl]; omega, ?_, h4⟩
      intro j hj
      rw [h2]
      simp only [hL, hcl]
      by_cases hja : j < a
      · have c : ¬ (a ≤ j ∧ j < a + (p.length - a)) := by omega
        simp only [c, if_false]
        exact hbuf j hja
      · have c : a ≤ j ∧ j < a + (p.length - a) := by omega
        simp only [c, and_self, if_true]
        rw [chunk_getD]
        have c6 : j - a < 6 := by omega
        simp only [c6, if_true]
        rw [show a + (j - a) = j by omega]
    · have hm : (p.length - a + 5) / 6 = (p.length - (a + 6) + 5) / 6 + 1 := by omega
      have hm1 : ¬ (0 + 1 = (p.length - (a + 6) + 5) / 6 + 1) := by omega
      have hcl : ((p.drop a).take 6).length = 6 := chunk_length p a 6 (by omega)
      have hstep := UMP_ProcessDataMessage_continue (ticks 0) s ((p.drop a).take 6) hcl6 hcb
        hprog (by rw [hcl]; decide) (by rw [hL, hcl]; omega)
      have htail : (List.range ((p.length - (a + 6) + 5) / 6)).map (fun i =>
            sysex7Message (if i + 1 + 1 = (p.length - (a + 6) + 5) / 6 + 1 then 3 else 2)
              ((p.drop (a + 6 * (i + 1))).take 6))
          = (List.range ((p.length - (a + 6) + 5) / 6)).map (fun j =>
            sysex7Message (if j + 1 = (p.length - (a + 6) + 5) / 6 then 3 else 2)
              ((p.drop (a + 6 + 6 * j)).take 6)) := by
        apply List.map_congr_left
        intro j _
        rw [show a + 6 * (j + 1) = a + 6 + 6 * j by omega]
        simp only [Nat.add_right_cancel_iff]
      rw [hm, map_range_succ_gen, htail]
      simp only [hm1, if_false, Nat.mul_zero, Nat.add_zero, umpFeedDataMessages,
        sysex7Message_word_count 2 _ (by decide) hcl6 hcb, hstep, Option.some_bind]
      refine ih (a + 6) _ (fun k => ticks (k + 1)) (by omega) (by omega) ?_ ?_ ?_
      · exact hprog
      · simp only [hL, hcl]
      · intro j hj
        simp only [hL, hcl]
        by_cases hja : j < a
        · have c : ¬ (a ≤ j ∧ j < a + 6) := by omega
          simp only [c, if_false]
          exact hbuf j hja
        · have c : a ≤ j ∧ j < a + 6 := by omega
          simp only [c, and_self, if_true]
          rw [chunk_getD]
          have c6 : j - a < 6 := by omega
          simp only [c6, if_true]
          rw [show a + (j - a) = j by omega]

theorem fragments_long (p : List Nat) (h6 : 6 < p.length) :
    (List.range (sysex7Count p.length)).map (fun i =>
        sysex7Message (sysex7Status p.length i) ((p.drop (6 * i)).take 6))
      = sysex7Message 1 (p.take 6)
        :: (List.range ((p.length - 6 + 5) / 6)).map (fun j =>
            sysex7Message (if j + 1 = (p.length - 6 + 5) / 6 then 3 else 2)
              ((p.drop (6 + 6 * j)).take 6)) := by
  have hshort : ¬ p.length ≤ 6 := by omega
  have hk : sysex7Count p.length = (p.length - 6 + 5) / 6 + 1 := by
    simp only [sysex7Count, hshort, if_false]
    omega
  have hhead : sysex7Message (sysex7Status p.length 0) ((p.drop (6 * 0)).take 6)
      = sysex7Message 1 (p.take 6) := by
    simp only [sysex7Status, hshort, if_false, if_true, Nat.mul_zero, List.drop_zero]
  have htail : (List.range ((p.length - 6 + 5) / 6)).map (fun i =>
        sysex7Message (sysex7Status p.length (i + 1)) ((p.drop (6 * (i + 1))).take 6))
      = (List.range ((p.length - 6 + 5) / 6)).map (fun j =>
        sysex7Message (if j + 1 = (p.length - 6 + 5) / 6 then 3 else 2)
          ((p.drop (6 + 6 * j)).take 6)) := by
    apply List.map_congr_left
    intro j _
    rw [show 6 * (j + 1) = 6 + 6 * j by omega]
    simp only [sysex7Status, hshort, if_false, Nat.add_one_ne_zero, hk,
      Nat.add_right_cancel_iff]
  rw [hk, map_range_succ_gen, hhead, htail]

theorem map_getD_range (p : List Nat) : (List.range p.length).map (fun j => p.getD j 0) = p := by
  apply List.ext_getElem
  · simp
  · intro i h1 h2
    simp [List.getD_eq_getElem?_getD, List.getElem?_eq_getElem h2]

theorem sysex7Status_lt (N i : Nat) : sysex7Status N i < 16 := by
  unfold sysex7Status
  split
  · decide
  · split
    · decide
    · split <;> decide

/-! ## C20: SysEx7 round trip -/

/-- C20: for a payload `p1..pN` with `6 < N ≤ 256` and every `pi < 0x80`, `SendSysExAsUMP`
on `F0 p1..pN F7` ends with messages `msgs`; fed in order to `UMP_ProcessDataMessage` from
any state, with any tick counts, they are all processed and leave `sysex_length = N`, the
buffer holding `p1..pN` and no accumulation in progress; the statuses of `msgs` are 1
(Start), then 2 (Continue) for every middle message, then 3 (End). -/
theorem C20_sysex7_round_trip (p : List Nat) (hp : ∀ b ∈ p, b < 0x80) (h6 : 6 < p.length)
    (h256 : p.length ≤ 256) (s : UmpDiscoveryState) (ticks : Nat → Nat) :
    ∃ msgs s1,
      SendSysExAsUMP (0xF0 :: p ++ [0xF7]) (p.length + 2) = some msgs ∧
      umpFeedDataMessages ticks s msgs = some s1 ∧
      s1.sysex_length = p.length ∧
      (List.range p.length).map s1.sysex_buffer = p ∧
      s1.sysex_in_progress = false ∧
      2 ≤ msgs.length ∧
      msgs.map (fun m => (m.getD 0 0 >>> 20) &&& 0xF)
        = (List.range msgs.length).map
            (fun i => if i = 0 then 1 else if i + 1 = msgs.length then 3 else 2) := by
  have hshort : ¬ p.length ≤ 6 := by omega
  have ht6 : (p.take 6).length = 6 := by simp only [List.length_take]; omega
  have htb : ∀ b ∈ p.take 6, b < 0x80 := fun b hb => hp b (List.mem_of_mem_take hb)
  -- reassembly of the continuation, from the state the Start message leaves
  obtain ⟨s1, hfeed, hlen, hbuf, hprog⟩ := umpFeed_continue p hp h256 p.length 6
    { s with
      sysex_buffer := fun j => if j < (p.take 6).length then (p.take 6).getD j 0
        else s.sysex_buffer j
      sysex_length := (p.take 6).length
      sysex_in_progress := true }
    (fun k => ticks (k + 1)) h6 (by omega) rfl ht6
    (by
      intro j hj
      have hj6 : j < (p.take 6).length := by rw [ht6]; exact hj
      simp only [hj6, if_true, List.getD_eq_getElem?_getD, List.getElem?_take, hj])
  refine ⟨_, s1, SendSysExAsUMP_frame p hp, ?_, hlen, ?_, hprog, ?_, ?_⟩
  · rw [fragments_long p h6]
    simp only [umpFeedDataMessages,
      sysex7Message_word_count 1 _ (by decide) (by omega) htb,
      UMP_ProcessDataMessage_start (ticks 0) s (p.take 6) (by omega) htb, Option.some_bind]
    exact hfeed
  · calc (List.range p.length).map s1.sysex_buffer
        = (List.range p.length).map (fun j => p.getD j 0) :=
          List.map_congr_left (fun j hj => hbuf j (List.mem_range.mp hj))
      _ = p := map_getD_range p
  · simp only [List.length_map, List.length_range, sysex7Count, hshort, if_false]
    omega
  · simp only [List.length_map, List.length_range, List.map_map]
    apply List.map_congr_left
    intro i _
    simp only [Function.comp_apply]
    rw [(sysex7Message_decode (sysex7Status p.length i) ((p.drop (6 * i)).take 6)
      (sysex7Status_lt _ _) (by simp only [List.length_take]; omega)
      (chunk_mem_lt p hp _ _)).2.1]
    simp only [sysex7Status, hshort, if_false]

/-- Witness of C20: the 13-byte payload `1..13`, from the start-up state. -/
theorem C20_sysex7_round_trip_witness :
    ∃ msgs s1,
      SendSysExAsUMP (0xF0 :: [1, 2, 3, 4, 5, 6, 7, 8, 9, 10, 11, 12, 13] ++ [0xF7])
        ([1, 2, 3, 4, 5, 6, 7, 8, 9, 10, 11, 12, 13].length + 2) = some msgs ∧
      umpFeedDataMessages (fun _ => 0) umpInitialState msgs = some s1 ∧
      s1.sysex_length = [1, 2, 3, 4, 5, 6, 7, 8, 9, 10, 11, 12, 13].length ∧
      (List.range [1, 2, 3, 4, 5, 6, 7, 8, 9, 10, 11, 12, 13].length).map s1.sysex_buffer
        = [1, 2, 3, 4, 5, 6, 7, 8, 9, 10, 11, 12, 13] ∧
      s1.sysex_in_progress = false ∧
      2 ≤ msgs.length ∧
      msgs.map (fun m => (m.getD 0 0 >>> 20) &&& 0xF)
        = (List.range msgs.length).map
            (fun i => if i = 0 then 1 else if i + 1 = msgs.length then 3 else 2) :=
  C20_sysex7_round_trip [1, 2, 3, 4, 5, 6, 7, 8, 9, 10, 11, 12, 13] (by decide) (by decide)
    (by decide) umpInitialState (fun _ => 0)

/-! ## C21 to C23: MUID generation -/

/-- C21: for every tick count, `MIDICI_GenerateMUID` returns a value that is neither
0x00000000 nor 0x0FFFFFFF. -/
theorem C21_muid_not_reserved (tick : Nat) :
    MIDICI_GenerateMUID tick ≠ 0x00000000 ∧ MIDICI_GenerateMUID tick ≠ 0x0FFFFFFF := by
  unfold MIDICI_GenerateMUID
  by_cases h : tick &&& 0x0FFFFFFF = 0 ∨ tick &&& 0x0FFFFFFF = 0x0FFFFFFF
  · simp only [h, if_true]
    decide
  · simp only [h, if_false]
    exact not_or.mp h

/-- C22 at the failing inputs: at tick 0, and at every tick whose low 28 bits are all
zero or all one, `MIDICI_GenerateMUID` returns `MUID_FALLBACK_VALUE` = 0x12345678, which is
greater than 0x0FFFFFFF; at the other ticks the value is within 28 bits. The senders write
four 7-bit fields, which for 0x12345678 are those of 0x02345678. -/
theorem C22_fallback_exceeds_28_bits (tick : Nat) :
    MIDICI_GenerateMUID 0 = 0x12345678 ∧
    ¬ (MIDICI_GenerateMUID 0 ≤ 0x0FFFFFFF) ∧
    MIDICI_GenerateMUID 0x0FFFFFFF = 0x12345678 ∧
    MIDICI_GenerateMUID 0x10000000 = 0x12345678 ∧
    (MIDICI_GenerateMUID tick ≤ 0x0FFFFFFF
      ↔ (tick &&& 0x0FFFFFFF ≠ 0 ∧ tick &&& 0x0FFFFFFF ≠ 0x0FFFFFFF)) ∧
    muidBytes 0x12345678 = muidBytes 0x02345678 := by
  refine ⟨by decide, by decide, by decide, by decide, ?_, by decide⟩
  unfold MIDICI_GenerateMUID
  by_cases h : tick &&& 0x0FFFFFFF = 0 ∨ tick &&& 0x0FFFFFFF = 0x0FFFFFFF
  · simp only [h, if_true]
    constructor
    · intro hle
      exact absurd hle (by decide)
    · intro hne
      rcases h with h | h
      · exact absurd h hne.1
      · exact absurd h hne.2
  · simp only [h, if_false]
    have hlt : tick &&& 0x0FFFFFFF < 2 ^ 28 := Nat.and_lt_two_pow tick (by decide)
    constructor
    · intro _
      exact not_or.mp h
    · intro _
      omega

/-- C23 at the failing input: with the device MUID 5 and the tick count 5, or 0x10000005,
`MIDICI_ProcessDiscovery` with length 17 and source MUID 5 leaves the device MUID at 5. For
every state and tick count, the conflict branch sets the device MUID to what
`MIDICI_GenerateMUID` returns, with no comparison with the old value. -/
theorem C23_conflict_may_keep_muid (tick : Nat) (s : UmpDiscoveryState) (k : Nat) :
    (MIDICI_ProcessDiscovery 5 { umpInitialState with device_muid := 5 } 17 5).map
        (fun s1 => s1.device_muid) = some 5 ∧
    (MIDICI_ProcessDiscovery 0x10000005 { umpInitialState with device_muid := 5 } 17 5).map
        (fun s1 => s1.device_muid) = some 5 ∧
    (MIDICI_ProcessDiscovery tick s (17 + k) s.device_muid).map (fun s1 => s1.device_muid)
      = some (MIDICI_GenerateMUID tick) := by
  have hgen : ∀ (t : Nat) (s0 : UmpDiscoveryState) (j : Nat),
      (MIDICI_ProcessDiscovery t s0 (17 + j) s0.device_muid).map (fun s1 => s1.device_muid)
        = some (MIDICI_GenerateMUID t) := by
    intro t s0 j
    have hlen : ¬ (17 + j < 17) := by omega
    obtain ⟨s1, h1, -, -, -, h5⟩ := MIDICI_SendInvalidateMUID_frame
      { s0 with device_muid := MIDICI_GenerateMUID t } s0.device_muid
    unfold MIDICI_ProcessDiscovery
    simp only [hlen, if_false, if_true, h1, Option.map_some', h5]
  refine ⟨?_, ?_, hgen tick s k⟩
  · have := hgen 5 { umpInitialState with device_muid := 5 } 0
    simpa using this
  · have := hgen 0x10000005 { umpInitialState with device_muid := 5 } 0
    simpa using this

/-! ## C24, C25: what `MIDICI_ProcessDiscovery` sends -/

theorem and_0x7F (x : Nat) : x &&& 0x7F = x % 128 := by
  have := Nat.and_pow_two_sub_one_eq_mod x 7
  simpa using this

theorem muidBytes_eq_fields (x : Nat) : muidBytes x = muidFields x := by
  simp only [muidBytes, muidFields, and_0x7F, Nat.shiftRight_eq_div_pow, Nat.reducePow]

theorem muidFields_lt (x : Nat) : ∀ b ∈ muidFields x, b < 0x80 := by
  rw [← muidBytes_eq_fields]
  exact muidBytes_lt x

/-- The Invalidate-MUID message is well framed: the fragmenter returns on it. -/
theorem SendSysExAsUMP_invalidate (g m : Nat) :
    ∃ msgs, SendSysExAsUMP (invalidateMuidSysex g m) 19 = some msgs ∧ msgs.length = 3 := by
  have hp : ∀ b ∈ [0x7E, 0x7F, 0x0D, 0x7E, 0x02] ++ muidFields g ++ [0x7F, 0x7F, 0x7F, 0x7F]
      ++ muidFields m, b < 0x80 := by
    repeat' apply forall_mem_append_lt
    all_goals first
      | exact muidFields_lt _
      | decide
  have h := SendSysExAsUMP_frame _ hp
  refine ⟨_, h, ?_⟩
  simp [muidFields, sysex7Count]

/-- The Discovery Reply message is well framed: the fragmenter returns on it. -/
theorem SendSysExAsUMP_reply (m d : Nat) :
    ∃ msgs, SendSysExAsUMP (discoveryReplySysex m d) 33 = some msgs ∧ msgs.length = 6 := by
  have hp : ∀ b ∈ [0x7E, 0x7F, 0x0D, 0x71, 0x02] ++ muidFields m ++ muidFields d
      ++ [0x7D, 0x00, 0x00] ++ [0x01, 0x00] ++ [0x01, 0x00] ++ [0x01, 0x00, 0x00, 0x00]
      ++ [0x01] ++ [0x00, 0x02, 0x00, 0x00] ++ [0x00] ++ [0x00], b < 0x80 := by
    repeat' apply forall_mem_append_lt
    all_goals first
      | exact muidFields_lt _
      | decide
  have h := SendSysExAsUMP_frame _ hp
  refine ⟨_, h, ?_⟩
  simp [muidFields, sysex7Count]

theorem MIDICI_SendInvalidateMUID_eq (s : UmpDiscoveryState) (old_muid : Nat) :
    MIDICI_SendInvalidateMUID s old_muid
      = (SendSysExAsUMP (invalidateMuidSysex s.device_muid old_muid) 19).map
          (fun msgs => { s with tx := s.tx ++ msgs.map UmpTxEvent.send }) := by
  unfold MIDICI_SendInvalidateMUID sendSysexMsg invalidateMuidSysex
  simp only [muidBytes_eq_fields]
  rfl

theorem MIDICI_SendDiscoveryReply_eq (s : UmpDiscoveryState) (destination_muid : Nat) :
    MIDICI_SendDiscoveryReply s destination_muid
      = (SendSysExAsUMP (discoveryReplySysex s.device_muid destination_muid) 33).map
          (fun msgs => { s with
            tx := s.tx ++ [UmpTxEvent.reset] ++ msgs.map UmpTxEvent.send
            discovery_reply_sent := true }) := by
  unfold MIDICI_SendDiscoveryReply sendSysexMsg discoveryReplySysex
  simp only [muidBytes_eq_fields]
  rfl

/-- C24: when `MIDICI_ProcessDiscovery` is called with `length ≥ 17` and a source MUID
equal to the device MUID `m`, the fragmenter `SendSysExAsUMP` is called once, on the 19
bytes `F0 7E 7F 0D 7E 02`, the fields of the new MUID `g = MIDICI_GenerateMUID()`,
`7F 7F 7F 7F`, the fields of `m`, `F7`; it returns three Data Messages `msgs`, and the call
leaves the state with the device MUID `g` and `msgs` appended to the transmit queue, nothing
else changed: no queue reset, `discovery_reply_sent` untouched, no Discovery Reply. -/
theorem C24_invalidate_on_conflict (tick : Nat) (s : UmpDiscoveryState)
    (length source_muid : Nat) (hlen : 17 ≤ length) (hsrc : source_muid = s.device_muid) :
    invalidateMuidSysex (MIDICI_GenerateMUID tick) s.device_muid
      = [0xF0, 0x7E, 0x7F, 0x0D, 0x7E, 0x02,
         MIDICI_GenerateMUID tick % 128, MIDICI_GenerateMUID tick / 128 % 128,
         MIDICI_GenerateMUID tick / 128 ^ 2 % 128, MIDICI_GenerateMUID tick / 128 ^ 3 % 128,
         0x7F, 0x7F, 0x7F, 0x7F,
         s.device_muid % 128, s.device_muid / 128 % 128, s.device_muid / 128 ^ 2 % 128,
         s.device_muid / 128 ^ 3 % 128, 0xF7] ∧
    ∃ msgs,
      SendSysExAsUMP (invalidateMuidSysex (MIDICI_GenerateMUID tick) s.device_muid) 19
        = some msgs ∧
      msgs.length = 3 ∧
      MIDICI_ProcessDiscovery tick s length source_muid
        = some { s with
            device_muid := MIDICI_GenerateMUID tick
            tx := s.tx ++ msgs.map UmpTxEvent.send } := by
  refine ⟨rfl, ?_⟩
  obtain ⟨msgs, hmsgs, hl⟩ := SendSysExAsUMP_invalidate (MIDICI_GenerateMUID tick) s.device_muid
  refine ⟨msgs, hmsgs, hl, ?_⟩
  have hlen17 : ¬ (length < 17) := by omega
  unfold MIDICI_ProcessDiscovery
  simp only [hlen17, if_false, hsrc, if_true, MIDICI_SendInvalidateMUID_eq, hmsgs,
    Option.map_some']

/-- Witness of C24: device MUID 0x0ABCDEF, conflict at tick 0x1234567. -/
theorem C24_invalidate_on_conflict_witness :
    invalidateMuidSysex (MIDICI_GenerateMUID 0x1234567)
        ({ umpInitialState with device_muid := 0x0ABCDEF } : UmpDiscoveryState).device_muid
      = [0xF0, 0x7E, 0x7F, 0x0D, 0x7E, 0x02,
         MIDICI_GenerateMUID 0x1234567 % 128, MIDICI_GenerateMUID 0x1234567 / 128 % 128,
         MIDICI_GenerateMUID 0x1234567 / 128 ^ 2 % 128,
         MIDICI_GenerateMUID 0x1234567 / 128 ^ 3 % 128,
         0x7F, 0x7F, 0x7F, 0x7F,
         ({ umpInitialState with device_muid := 0x0ABCDEF } : UmpDiscoveryState).device_muid
           % 128,
         ({ umpInitialState with device_muid := 0x0ABCDEF } : UmpDiscoveryState).device_muid
           / 128 % 128,
         ({ umpInitialState with device_muid := 0x0ABCDEF } : UmpDiscoveryState).device_muid
           / 128 ^ 2 % 128,
         ({ umpInitialState with device_muid := 0x0ABCDEF } : UmpDiscoveryState).device_muid
           / 128 ^ 3 % 128, 0xF7] ∧
    ∃ msgs,
      SendSysExAsUMP (invalidateMuidSysex (MIDICI_GenerateMUID 0x1234567)
        ({ umpInitialState with device_muid := 0x0ABCDEF } : UmpDiscoveryState).device_muid) 19
        = some msgs ∧
      msgs.length = 3 ∧
      MIDICI_ProcessDiscovery 0x1234567 { umpInitialState with device_muid := 0x0ABCDEF }
          17 0x0ABCDEF
        = some { ({ umpInitialState with device_muid := 0x0ABCDEF } : UmpDiscoveryState) with
            device_muid := MIDICI_GenerateMUID 0x1234567
            tx := ({ umpInitialState with device_muid := 0x0ABCDEF } : UmpDiscoveryState).tx
              ++ msgs.map UmpTxEvent.send } :=
  C24_invalidate_on_conflict 0x1234567 { umpInitialState with device_muid := 0x0ABCDEF }
    17 0x0ABCDEF (by decide) rfl

/-- C25: when `MIDICI_ProcessDiscovery` is called with `length ≥ 17` and a source MUID `d`
different from the device MUID `m`, the fragmenter `SendSysExAsUMP` is called once, on the
33 bytes `F0 7E 7F 0D 71 02`, the fields of `m`, the fields of `d`, `7D 00 00`, `01 00`,
`01 00`, `01 00 00 00`, `01`, `00 02 00 00`, `00`, `00`, `F7`; it returns six Data Messages
`msgs`, and the call leaves the state with the device MUID `m`, the transmit queue reset
and then given `msgs`, and `discovery_reply_sent` set. -/
theorem C25_discovery_reply (tick : Nat) (s : UmpDiscoveryState)
    (length source_muid : Nat) (hlen : 17 ≤ length) (hsrc : source_muid ≠ s.device_muid) :
    discoveryReplySysex s.device_muid source_muid
      = [0xF0, 0x7E, 0x7F, 0x0D, 0x71, 0x02,
         s.device_muid % 128, s.device_muid / 128 % 128, s.device_muid / 128 ^ 2 % 128,
         s.device_muid / 128 ^ 3 % 128,
         source_muid % 128, source_muid / 128 % 128, source_muid / 128 ^ 2 % 128,
         source_muid / 128 ^ 3 % 128,
         0x7D, 0x00, 0x00, 0x01, 0x00, 0x01, 0x00, 0x01, 0x00, 0x00, 0x00, 0x01,
         0x00, 0x02, 0x00, 0x00, 0x00, 0x00, 0xF7] ∧
    (discoveryReplySysex s.device_muid source_muid).length = 33 ∧
    ∃ msgs s1,
      SendSysExAsUMP (discoveryReplySysex s.device_muid source_muid) 33 = some msgs ∧
      msgs.length = 6 ∧
      MIDICI_ProcessDiscovery tick s length source_muid = some s1 ∧
      s1 = { s with
            tx := s.tx ++ [UmpTxEvent.reset] ++ msgs.map UmpTxEvent.send
            discovery_reply_sent := true } ∧
      s1.device_muid = s.device_muid := by
  refine ⟨rfl, rfl, ?_⟩
  obtain ⟨msgs, hmsgs, hl⟩ := SendSysExAsUMP_reply s.device_muid source_muid
  refine ⟨msgs, _, hmsgs, hl, ?_, rfl, rfl⟩
  have hlen17 : ¬ (length < 17) := by omega
  unfold MIDICI_ProcessDiscovery
  simp only [hlen17, if_false, hsrc, MIDICI_SendDiscoveryReply_eq, hmsgs, Option.map_some']

/-- Witness of C25: device MUID 0x0ABCDEF, Discovery from the MUID 0x0123456. -/
theorem C25_discovery_reply_witness :
    ∃ msgs s1,
      SendSysExAsUMP (discoveryReplySysex 0x0ABCDEF 0x0123456) 33 = some msgs ∧
      msgs.length = 6 ∧
      MIDICI_ProcessDiscovery 0 { umpInitialState with device_muid := 0x0ABCDEF } 17 0x0123456
        = some s1 ∧
      s1 = { ({ umpInitialState with device_muid := 0x0ABCDEF } : UmpDiscoveryState) with
            tx := ({ umpInitialState with device_muid := 0x0ABCDEF } : UmpDiscoveryState).tx
              ++ [UmpTxEvent.reset] ++ msgs.map UmpTxEvent.send
            discovery_reply_sent := true } ∧
      s1.device_muid = 0x0ABCDEF :=
  (C25_discovery_reply 0 { umpInitialState with device_muid := 0x0ABCDEF } 17 0x0123456
    (by decide) (by decide)).2.2

/-! ## C26, C27: MIDI-CI messages received as Data Messages -/

/-- C26 at the failing input: the 17-byte Discovery payload
`7E 7F 0D 70 02 | 01 02 03 04 | 7F 7F 7F 7F 00 00 00 00`, source MUID fields `01 02 03 04`,
fragmented as Start, Continue, End and fed to `UMP_ProcessDataMessage` on a device holding
the MUID 0x0ABCDEF, makes the device reset the queue and send the Discovery Reply whose
destination field is `04 03 02 01`: the End branch computes the source MUID as
`s0<<21 | s1<<14 | s2<<7 | s3` = 0x208184, where the fields `01 02 03 04` denote
0x80C101. -/
theorem C26_source_muid_read_reversed :
    SendSysExAsUMP [0xF0, 0x7E, 0x7F, 0x0D, 0x70, 0x02, 0x01, 0x02, 0x03, 0x04,
        0x7F, 0x7F, 0x7F, 0x7F, 0x00, 0x00, 0x00, 0x00, 0xF7] 19
      = some [[0x30167E7F, 0x0D700201], [0x30260203, 0x047F7F7F], [0x30357F00, 0x00000000]] ∧
    (umpFeedDataMessages (fun _ => 0) { umpInitialState with device_muid := 0x0ABCDEF }
        [[0x30167E7F, 0x0D700201], [0x30260203, 0x047F7F7F], [0x30357F00, 0x00000000]]).map
        (fun s => s.tx)
      = (SendSysExAsUMP
          [0xF0, 0x7E, 0x7F, 0x0D, 0x71, 0x02, 0x6F, 0x1B, 0x2F, 0x05, 0x04, 0x03, 0x02, 0x01,
           0x7D, 0x00, 0x00, 0x01, 0x00, 0x01, 0x00, 0x01, 0x00, 0x00, 0x00, 0x01,
           0x00, 0x02, 0x00, 0x00, 0x00, 0x00, 0xF7] 33).map
          (fun msgs => UmpTxEvent.reset :: msgs.map UmpTxEvent.send) ∧
    muidFields 0x0ABCDEF = [0x6F, 0x1B, 0x2F, 0x05] ∧
    muidFields 0x208184 = [0x04, 0x03, 0x02, 0x01] ∧
    muidFields 0x80C101 = [0x01, 0x02, 0x03, 0x04] := by
  decide

/-- C27 at the failing input: the 13-byte MIDI-CI payload
`7E 7F 0D 20 02 | 01 02 03 04 | 6F 1B 2F 05` with the unsupported sub-ID2 0x20, fragmented
as Start, Continue, End and fed to `UMP_ProcessDataMessage`, is reassembled whole and
nothing is sent: the End branch has no NAK. A Complete message holds at most 6 bytes, so
the NAK of the Complete branch, which asks for 13, is not sent either. -/
theorem C27_no_nak_is_sent :
    SendSysExAsUMP [0xF0, 0x7E, 0x7F, 0x0D, 0x20, 0x02, 0x01, 0x02, 0x03, 0x04,
        0x6F, 0x1B, 0x2F, 0x05, 0xF7] 15
      = some [[0x30167E7F, 0x0D200201], [0x30260203, 0x046F1B2F], [0x30310500, 0x00000000]] ∧
    (umpFeedDataMessages (fun _ => 0) { umpInitialState with device_muid := 0x0ABCDEF }
        [[0x30167E7F, 0x0D200201], [0x30260203, 0x046F1B2F], [0x30310500, 0x00000000]]).map
        (fun s => (s.tx, s.sysex_length, (List.range 13).map s.sysex_buffer))
      = some ([], 13, [0x7E, 0x7F, 0x0D, 0x20, 0x02, 0x01, 0x02, 0x03, 0x04,
          0x6F, 0x1B, 0x2F, 0x05]) ∧
    (umpFeedDataMessages (fun _ => 0) { umpInitialState with device_muid := 0x0ABCDEF }
        [[0x30067E7F, 0x0D200201]]).map (fun s => (s.tx, s.sysex_length))
      = some ([], 6) := by
  decide

/-! ## C28: a reassembly that runs over the buffer -/

/-- The guarded copy loops keep what is stored, the transmit queue and the MUID, and stop
at the end of the buffer. -/
theorem umpSysexCopy_sat (keep : UmpDiscoveryState → Nat → Bool) (data : Nat → Nat)
    (n : Nat) (s : UmpDiscoveryState) (hle : s.sysex_length ≤ 256)
    (hkeep : ∀ i, i < min n 6 → ∀ acc : UmpDiscoveryState,
      keep acc (data i) = decide (acc.sysex_length < 256)) :
    (umpSysexCopy keep data n s).sysex_length = min 256 (s.sysex_length + min n 6) ∧
    (∀ j, j < s.sysex_length → (umpSysexCopy keep data n s).sysex_buffer j = s.sysex_buffer j) ∧
    (umpSysexCopy keep data n s).sysex_in_progress = s.sysex_in_progress ∧
    (umpSysexCopy keep data n s).tx = s.tx ∧
    (umpSysexCopy keep data n s).device_muid = s.device_muid := by
  unfold umpSysexCopy
  generalize min n 6 = m at hkeep ⊢
  induction m with
  | zero =>
    refine ⟨?_, fun _ _ => rfl, rfl, rfl, rfl⟩
    simp only [List.range_zero, List.foldl_nil, Nat.add_zero]
    omega
  | succ m ih =>
    obtain ⟨h1, h2, h3, h4, h5⟩ := ih (fun i hi => hkeep i (by omega))
    rw [List.range_succ, List.foldl_append]
    generalize (List.range m).foldl
      (fun acc i => if keep acc (data i) then umpSysexPush acc (data i) else acc) s = acc
      at h1 h2 h3 h4 h5 ⊢
    simp only [List.foldl_cons, List.foldl_nil]
    rw [hkeep m (by omega) acc]
    by_cases hroom : acc.sysex_length < 256
    · simp only [hroom, decide_True, if_true, umpSysexPush]
      refine ⟨by omega, ?_, h3, h4, h5⟩
      intro j hj
      have hne : j ≠ acc.sysex_length := by omega
      simp only [Function.update, hne, dite_false]
      exact h2 j hj
    · simp only [hroom, decide_False, Bool.false_eq_true, if_false]
      exact ⟨by omega, h2, h3, h4, h5⟩

/-- A Continue message in any open accumulation: what is stored stays, and the length
grows up to the size of the buffer. -/
theorem UMP_ProcessDataMessage_continue_sat (tick : Nat) (s : UmpDiscoveryState)
    (chunk : List Nat) (hlen : chunk.length ≤ 6) (hb : ∀ b ∈ chunk, b < 0x80)
    (hprog : s.sysex_in_progress = true) (hle : s.sysex_length ≤ 256) :
    ∃ r, UMP_ProcessDataMessage tick s (sysex7Message 2 chunk) 2 = some r ∧
      r.sysex_length = min 256 (s.sysex_length + chunk.length) ∧
      (∀ j, j < s.sysex_length → r.sysex_buffer j = s.sysex_buffer j) ∧
      r.sysex_in_progress = true ∧ r.tx = s.tx ∧ r.device_muid = s.device_muid := by
  obtain ⟨d1, d2, d3, d4, d5, d6, d7, d8, d9⟩ :=
    sysex7Message_decode 2 chunk (by decide) hlen hb
  have n20 : ¬ ((2 : Nat) = 0) := by decide
  have n21 : ¬ ((2 : Nat) = 1) := by decide
  have hmin : min chunk.length 6 = chunk.length := Nat.min_eq_left hlen
  unfold UMP_ProcessDataMessage
  simp only [d1, d2, d3, d4, d5, d6, d7, d8, d9, six_getD_fun chunk hlen]
  simp only [Nat.lt_irrefl, if_false, ne_eq, not_true_eq_false, if_true, hprog, n20, n21,
    true_and, UMP_SYSEX_BUFFER_SIZE]
  by_cases hroom : s.sysex_length < 256
  · simp only [hroom, if_true]
    obtain ⟨h1, h2, h3, h4, h5⟩ := umpSysexCopy_sat
      (fun acc _ => decide (acc.sysex_length < 256)) (fun i => chunk.getD i 0)
      chunk.length s hle (fun _ _ _ => rfl)
    rw [hmin] at h1
    exact ⟨_, rfl, h1, h2, by rw [h3, hprog], h4, h5⟩
  · simp only [hroom, if_false]
    exact ⟨s, rfl, by omega, fun _ _ => rfl, hprog, rfl, rfl⟩

/-- With a length of at least 17 `MIDICI_ProcessDiscovery` sends an Invalidate-MUID, the
MUID being replaced, or resets the queue and sends a Discovery Reply, the MUID staying. -/
theorem MIDICI_ProcessDiscovery_emits (tick : Nat) (s : UmpDiscoveryState)
    (length source_muid : Nat) (hlen : 17 ≤ length) :
    ∃ s1, MIDICI_ProcessDiscovery tick s length source_muid = some s1 ∧
      s1.sysex_length = s.sysex_length ∧ s1.sysex_in_progress = s.sysex_in_progress ∧
      ((∃ msgs, SendSysExAsUMP
            (invalidateMuidSysex (MIDICI_GenerateMUID tick) s.device_muid) 19 = some msgs ∧
          msgs.length = 3 ∧ s1.tx = s.tx ++ msgs.map UmpTxEvent.send ∧
          s1.device_muid = MIDICI_GenerateMUID tick) ∨
       (∃ d msgs, SendSysExAsUMP (discoveryReplySysex s.device_muid d) 33 = some msgs ∧
          msgs.length = 6 ∧
          s1.tx = s.tx ++ [UmpTxEvent.reset] ++ msgs.map UmpTxEvent.send ∧
          s1.device_muid = s.device_muid)) := by
  have hlen17 : ¬ (length < 17) := by omega
  unfold MIDICI_ProcessDiscovery
  simp only [hlen17, if_false]
  by_cases hc : source_muid = s.device_muid
  · obtain ⟨msgs, hmsgs, hl⟩ :=
      SendSysExAsUMP_invalidate (MIDICI_GenerateMUID tick) s.device_muid
    have hstep : MIDICI_SendInvalidateMUID
        { s with device_muid := MIDICI_GenerateMUID tick } s.device_muid
        = some { s with
            device_muid := MIDICI_GenerateMUID tick
            tx := s.tx ++ msgs.map UmpTxEvent.send } := by
      rw [MIDICI_SendInvalidateMUID_eq, hmsgs]
      rfl
    simp only [hc, if_true, hstep]
    exact ⟨{ s with
        device_muid := MIDICI_GenerateMUID tick
        tx := s.tx ++ msgs.map UmpTxEvent.send }, rfl, rfl, rfl,
      Or.inl ⟨msgs, hmsgs, hl, rfl, rfl⟩⟩
  · obtain ⟨msgs, hmsgs, hl⟩ := SendSysExAsUMP_reply s.device_muid source_muid
    have hstep : MIDICI_SendDiscoveryReply s source_muid
        = some { s with
            tx := s.tx ++ [UmpTxEvent.reset] ++ msgs.map UmpTxEvent.send
            discovery_reply_sent := true } := by
      rw [MIDICI_SendDiscoveryReply_eq, hmsgs]
      rfl
    simp only [hc, if_false, hstep]
    exact ⟨{ s with
        tx := s.tx ++ [UmpTxEvent.reset] ++ msgs.map UmpTxEvent.send
        discovery_reply_sent := true }, rfl, rfl, rfl,
      Or.inr ⟨source_muid, msgs, hmsgs, hl, rfl, rfl⟩⟩

/-- An End message closing an accumulation that begins with the Discovery signature and
holds, cut at the size of the buffer, at least 17 bytes: Discovery processing runs. -/
theorem UMP_ProcessDataMessage_end_discovery (tick : Nat) (s : UmpDiscoveryState)
    (chunk : List Nat) (hlen : chunk.length ≤ 6) (hb : ∀ b ∈ chunk, b < 0x80)
    (hprog : s.sysex_in_progress = true) (hle : s.sysex_length ≤ 256)
    (h4 : 4 ≤ s.sysex_length)
    (hsig : s.sysex_buffer 0 = 0x7E ∧ s.sysex_buffer 2 = 0x0D ∧ s.sysex_buffer 3 = 0x70)
    (h17 : 17 ≤ s.sysex_length + chunk.length) :
    ∃ s1, UMP_ProcessDataMessage tick s (sysex7Message 3 chunk) 2 = some s1 ∧
      s1.sysex_length = min 256 (s.sysex_length + chunk.length) ∧
      s1.sysex_in_progress = false ∧
      ((∃ msgs, SendSysExAsUMP
            (invalidateMuidSysex (MIDICI_GenerateMUID tick) s.device_muid) 19 = some msgs ∧
          msgs.length = 3 ∧ s1.tx = s.tx ++ msgs.map UmpTxEvent.send ∧
          s1.device_muid = MIDICI_GenerateMUID tick) ∨
       (∃ d msgs, SendSysExAsUMP (discoveryReplySysex s.device_muid d) 33 = some msgs ∧
          msgs.length = 6 ∧
          s1.tx = s.tx ++ [UmpTxEvent.reset] ++ msgs.map UmpTxEvent.send ∧
          s1.device_muid = s.device_muid)) := by
  obtain ⟨d1, d2, d3, d4, d5, d6, d7, d8, d9⟩ :=
    sysex7Message_decode 3 chunk (by decide) hlen hb
  have n30 : ¬ ((3 : Nat) = 0) := by decide
  have n31 : ¬ ((3 : Nat) = 1) := by decide
  have n32 : ¬ ((3 : Nat) = 2) := by decide
  have hmin : min chunk.length 6 = chunk.length := Nat.min_eq_left hlen
  obtain ⟨h1, h2, h3, h4', h5⟩ := umpSysexCopy_sat
    (fun acc b => decide (b ≠ 0xF7 ∧ acc.sysex_length < 256)) (fun i => chunk.getD i 0)
    chunk.length s hle
    (by
      intro i _ acc
      have hne : chunk.getD i 0 ≠ 0xF7 := by
        have := chunk_byte_lt chunk hb i
        omega
      simp only [ne_eq, hne, not_false_eq_true, true_and])
  rw [hmin] at h1
  unfold UMP_ProcessDataMessage
  simp only [d1, d2, d3, d4, d5, d6, d7, d8, d9, six_getD_fun chunk hlen]
  simp only [Nat.lt_irrefl, if_false, ne_eq, not_true_eq_false, if_true, hprog, n30, n31, n32,
    UMP_SYSEX_BUFFER_SIZE]
  generalize umpSysexCopy (fun acc b => decide (¬ b = 0xF7 ∧ acc.sysex_length < 256))
    (fun i => chunk.getD i 0) chunk.length s = sB at h1 h2 h3 h4' h5 ⊢
  have hB4 : sB.sysex_length ≥ 4 := by omega
  have hB17 : sB.sysex_length ≥ 17 := by omega
  have hB0 : sB.sysex_buffer 0 = MIDI_CI_CATEGORY := by rw [h2 0 (by omega)]; exact hsig.1
  have hB2 : sB.sysex_buffer 2 = MIDI_CI_SUB_ID := by rw [h2 2 (by omega)]; exact hsig.2.1
  have hB3 : sB.sysex_buffer 3 = 0x70 := by rw [h2 3 (by omega)]; exact hsig.2.2
  unfold UMP_ProcessDataMessage_ci_end
  simp only [hB4, hB17, hB0, hB2, hB3, and_self, if_true]
  obtain ⟨s1, e1, e2, -, e4⟩ := MIDICI_ProcessDiscovery_emits tick sB sB.sysex_length
    (((sB.sysex_buffer 5 &&& 0x7F) <<< 21) ||| ((sB.sysex_buffer 6 &&& 0x7F) <<< 14)
      ||| ((sB.sysex_buffer 7 &&& 0x7F) <<< 7) ||| (sB.sysex_buffer 8 &&& 0x7F)) hB17
  rw [e1]
  refine ⟨_, rfl, by simp only [e2, h1], rfl, ?_⟩
  rw [h4', h5] at e4
  exact e4

theorem min_sat_assoc (a b x y : Nat) :
    min 256 (min 256 (a + b) + x + y) = min 256 (a + (b + x) + y) := by
  omega

/-- Continue messages and an End message, on an open accumulation that begins with the
Discovery signature, carrying at least 17 bytes with what is stored: at the End message
Discovery processing runs on what the buffer holds, which is the first 256 bytes when more
were sent. -/
theorem umpFeed_continue_sat (ce : List Nat) (hce : ce.length ≤ 6)
    (hbe : ∀ b ∈ ce, b < 0x80) (tx0 : List UmpTxEvent) (m0 : Nat) (cs : List (List Nat)) :
    ∀ (s : UmpDiscoveryState) (ticks : Nat → Nat),
      (∀ c ∈ cs, c.length ≤ 6 ∧ ∀ b ∈ c, b < 0x80) →
      s.sysex_in_progress = true → s.sysex_length ≤ 256 → 4 ≤ s.sysex_length →
      (s.sysex_buffer 0 = 0x7E ∧ s.sysex_buffer 2 = 0x0D ∧ s.sysex_buffer 3 = 0x70) →
      17 ≤ s.sysex_length + (cs.map List.length).sum + ce.length →
      s.tx = tx0 → s.device_muid = m0 →
      ∃ s1, umpFeedDataMessages ticks s (cs.map (sysex7Message 2) ++ [sysex7Message 3 ce])
          = some s1 ∧
        s1.sysex_length = min 256 (s.sysex_length + (cs.map List.length).sum + ce.length) ∧
        s1.sysex_in_progress = false ∧
        ((∃ msgs, SendSysExAsUMP
              (invalidateMuidSysex (MIDICI_GenerateMUID (ticks cs.length)) m0) 19
                = some msgs ∧
            msgs.length = 3 ∧ s1.tx = tx0 ++ msgs.map UmpTxEvent.send ∧
            s1.device_muid = MIDICI_GenerateMUID (ticks cs.length)) ∨
         (∃ d msgs, SendSysExAsUMP (discoveryReplySysex m0 d) 33 = some msgs ∧
            msgs.length = 6 ∧
            s1.tx = tx0 ++ [UmpTxEvent.reset] ++ msgs.map UmpTxEvent.send ∧
            s1.device_muid = m0)) := by
  induction cs with
  | nil =>
    intro s ticks _ hprog hle h4 hsig h17 htx hm
    simp only [List.map_nil, List.sum_nil, Nat.add_zero, List.nil_append, List.length_nil]
      at h17 ⊢
    obtain ⟨s1, e1, e2, e3, e4⟩ := UMP_ProcessDataMessage_end_discovery (ticks 0) s ce hce hbe
      hprog hle h4 hsig h17
    simp only [umpFeedDataMessages, sysex7Message_word_count 3 ce (by decide) hce hbe, e1,
      Option.some_bind]
    rw [htx, hm] at e4
    exact ⟨s1, rfl, e2, e3, e4⟩
  | cons c cs ih =>
    intro s ticks hcs hprog hle h4 hsig h17 htx hm
    have hc := hcs c (List.mem_cons_self _ _)
    obtain ⟨r, e1, e2, e3, e4, e5, e6⟩ := UMP_ProcessDataMessage_continue_sat (ticks 0) s c
      hc.1 hc.2 hprog hle
    simp only [List.map_cons, List.sum_cons, List.length_cons, List.cons_append] at h17 ⊢
    obtain ⟨s1, f1, f2, f3, f4⟩ := ih r (fun k => ticks (k + 1))
      (fun c' hc' => hcs c' (List.mem_cons_of_mem _ hc')) e4 (by omega) (by omega)
      ⟨by rw [e3 0 (by omega)]; exact hsig.1, by rw [e3 2 (by omega)]; exact hsig.2.1,
        by rw [e3 3 (by omega)]; exact hsig.2.2⟩
      (by omega) (by rw [e5, htx]) (by rw [e6, hm])
    have hfeed : umpFeedDataMessages ticks s
        (sysex7Message 2 c :: (cs.map (sysex7Message 2) ++ [sysex7Message 3 ce]))
        = some s1 := by
      simp only [umpFeedDataMessages, sysex7Message_word_count 2 c (by decide) hc.1 hc.2, e1,
        Option.some_bind]
      exact f1
    have hlen1 : s1.sysex_length
        = min 256 (s.sysex_length + (c.length + (cs.map List.length).sum) + ce.length) := by
      rw [f2, e2]
      exact min_sat_assoc _ _ _ _
    refine ⟨s1, hfeed, hlen1, f3, ?_⟩
    rcases f4 with ⟨msgs, g1, g2, g3, g4⟩ | ⟨d, msgs, g1, g2, g3, g4⟩
    · exact Or.inl ⟨msgs, g1, g2, g3, g4⟩
    · exact Or.inr ⟨d, msgs, g1, g2, g3, g4⟩

/-- The same from a Start message whose bytes begin with the Discovery signature. -/
theorem umpFeed_discovery_sat (c0 : List Nat) (cs : List (List Nat)) (ce : List Nat)
    (s : UmpDiscoveryState) (ticks : Nat → Nat)
    (h0 : 4 ≤ c0.length ∧ c0.length ≤ 6) (hb0 : ∀ b ∈ c0, b < 0x80)
    (hsig : c0.getD 0 0 = 0x7E ∧ c0.getD 2 0 = 0x0D ∧ c0.getD 3 0 = 0x70)
    (hcs : ∀ c ∈ cs, c.length ≤ 6 ∧ ∀ b ∈ c, b < 0x80)
    (hce : ce.length ≤ 6) (hbe : ∀ b ∈ ce, b < 0x80)
    (h17 : 17 ≤ c0.length + (cs.map List.length).sum + ce.length) :
    ∃ s1, umpFeedDataMessages ticks s
        (sysex7Message 1 c0 :: (cs.map (sysex7Message 2) ++ [sysex7Message 3 ce]))
        = some s1 ∧
      s1.sysex_length = min 256 (c0.length + (cs.map List.length).sum + ce.length) ∧
      s1.sysex_in_progress = false ∧
      ((∃ msgs, SendSysExAsUMP
            (invalidateMuidSysex (MIDICI_GenerateMUID (ticks (cs.length + 1))) s.device_muid)
              19 = some msgs ∧
          msgs.length = 3 ∧ s1.tx = s.tx ++ msgs.map UmpTxEvent.send ∧
          s1.device_muid = MIDICI_GenerateMUID (ticks (cs.length + 1))) ∨
       (∃ d msgs, SendSysExAsUMP (discoveryReplySysex s.device_muid d) 33 = some msgs ∧
          msgs.length = 6 ∧
          s1.tx = s.tx ++ [UmpTxEvent.reset] ++ msgs.map UmpTxEvent.send ∧
          s1.device_muid = s.device_muid)) := by
  have h04 : ∀ j, j < 4 → j < c0.length := fun j hj => by omega
  obtain ⟨s1, f1, f2, f3, f4⟩ := umpFeed_continue_sat ce hce hbe s.tx s.device_muid cs
    { s with
      sysex_buffer := fun j => if j < c0.length then c0.getD j 0 else s.sysex_buffer j
      sysex_length := c0.length
      sysex_in_progress := true }
    (fun k => ticks (k + 1)) hcs rfl (by show c0.length ≤ 256; omega) h0.1
    ⟨by show (if 0 < c0.length then c0.getD 0 0 else s.sysex_buffer 0) = 0x7E
        rw [if_pos (h04 0 (by omega))]; exact hsig.1,
     by show (if 2 < c0.length then c0.getD 2 0 else s.sysex_buffer 2) = 0x0D
        rw [if_pos (h04 2 (by omega))]; exact hsig.2.1,
     by show (if 3 < c0.length then c0.getD 3 0 else s.sysex_buffer 3) = 0x70
        rw [if_pos (h04 3 (by omega))]; exact hsig.2.2⟩
    h17 rfl rfl
  have hfeed : umpFeedDataMessages ticks s
      (sysex7Message 1 c0 :: (cs.map (sysex7Message 2) ++ [sysex7Message 3 ce]))
      = some s1 := by
    simp only [umpFeedDataMessages, sysex7Message_word_count 1 c0 (by decide) h0.2 hb0,
      UMP_ProcessDataMessage_start (ticks 0) s c0 h0.2 hb0, Option.some_bind]
    exact f1
  exact ⟨s1, hfeed, f2, f3, f4⟩

/-- The reassembly buffer of `UMP_ProcessDataMessage` has no overflow state. When a Start
message whose bytes begin `7E, dd, 0D, 70`, Continue messages and an End message carry
more than 256 payload bytes in all (every byte below 0x80), the buffer keeps the first 256
and Discovery processing runs at the End message: either an Invalidate-MUID is sent and
the device MUID is replaced, or the transmit queue is reset and a Discovery Reply is
sent. -/
theorem umpFeed_overflow_processed (c0 : List Nat) (cs : List (List Nat)) (ce : List Nat)
    (s : UmpDiscoveryState) (ticks : Nat → Nat)
    (h0 : 4 ≤ c0.length ∧ c0.length ≤ 6) (hb0 : ∀ b ∈ c0, b < 0x80)
    (hsig : c0.getD 0 0 = 0x7E ∧ c0.getD 2 0 = 0x0D ∧ c0.getD 3 0 = 0x70)
    (hcs : ∀ c ∈ cs, c.length ≤ 6 ∧ ∀ b ∈ c, b < 0x80)
    (hce : ce.length ≤ 6) (hbe : ∀ b ∈ ce, b < 0x80)
    (hover : 256 < c0.length + (cs.map List.length).sum + ce.length) :
    ∃ s1, umpFeedDataMessages ticks s
        (sysex7Message 1 c0 :: (cs.map (sysex7Message 2) ++ [sysex7Message 3 ce]))
        = some s1 ∧
      s1.sysex_length = 256 ∧
      s1.sysex_in_progress = false ∧
      ((∃ msgs, SendSysExAsUMP
            (invalidateMuidSysex (MIDICI_GenerateMUID (ticks (cs.length + 1))) s.device_muid)
              19 = some msgs ∧
          msgs.length = 3 ∧ s1.tx = s.tx ++ msgs.map UmpTxEvent.send ∧
          s1.device_muid = MIDICI_GenerateMUID (ticks (cs.length + 1))) ∨
       (∃ d msgs, SendSysExAsUMP (discoveryReplySysex s.device_muid d) 33 = some msgs ∧
          msgs.length = 6 ∧
          s1.tx = s.tx ++ [UmpTxEvent.reset] ++ msgs.map UmpTxEvent.send ∧
          s1.device_muid = s.device_muid)) := by
  have hmin : min 256 (c0.length + (cs.map List.length).sum + ce.length) = 256 := by omega
  obtain ⟨s1, f1, f2, f3, f4⟩ := umpFeed_discovery_sat c0 cs ce s ticks h0 hb0 hsig hcs hce hbe
    (by omega)
  exact ⟨s1, f1, f2.trans hmin, f3, f4⟩

/-- An instance: a Start message with `7E 7F 0D 70 02 01`, 42 Continue messages of 6
bytes and an empty End message, 258 bytes in all. -/
theorem umpFeed_overflow_processed_example :
    ∃ s1, umpFeedDataMessages (fun _ => 0) { umpInitialState with device_muid := 0x0ABCDEF }
        (sysex7Message 1 [0x7E, 0x7F, 0x0D, 0x70, 0x02, 0x01]
          :: ((List.replicate 42 [0x01, 0x01, 0x01, 0x00, 0x00, 0x00]).map (sysex7Message 2)
              ++ [sysex7Message 3 []]))
        = some s1 ∧
      s1.sysex_length = 256 ∧
      s1.sysex_in_progress = false ∧
      ((∃ msgs, SendSysExAsUMP
            (invalidateMuidSysex (MIDICI_GenerateMUID 0) 0x0ABCDEF) 19 = some msgs ∧
          msgs.length = 3 ∧ s1.tx = [] ++ msgs.map UmpTxEvent.send ∧
          s1.device_muid = MIDICI_GenerateMUID 0) ∨
       (∃ d msgs, SendSysExAsUMP (discoveryReplySysex 0x0ABCDEF d) 33 = some msgs ∧
          msgs.length = 6 ∧
          s1.tx = [] ++ [UmpTxEvent.reset] ++ msgs.map UmpTxEvent.send ∧
          s1.device_muid = 0x0ABCDEF)) :=
  umpFeed_overflow_processed [0x7E, 0x7F, 0x0D, 0x70, 0x02, 0x01]
    (List.replicate 42 [0x01, 0x01, 0x01, 0x00, 0x00, 0x00]) []
    { umpInitialState with device_muid := 0x0ABCDEF } (fun _ => 0)
    (by decide) (by decide) (by decide) (by decide) (by decide) (by decide) (by decide)

set_option maxRecDepth 100000 in
/-- C28 at the failing input: a Start message with `7E 7F 0D 70 02 01`, 42 Continue
messages with `01 01 01 00 00 00` and an empty End message carry 258 bytes, two more than
the reassembly buffer holds. At the End message `sysex_length` is 256 and Discovery
processing runs on the bytes kept. A device holding the MUID 0x0ABCDEF resets the transmit
queue and sends the Discovery Reply to the MUID of the fields `01 01 01 01`; a device
holding that MUID, 0x0204081, sends an Invalidate-MUID and replaces its MUID, here with
the tick 5. -/
theorem C28_overflow_runs_discovery :
    256 < 6 + 42 * 6 + 0 ∧
    (umpFeedDataMessages (fun _ => 0) { umpInitialState with device_muid := 0x0ABCDEF }
        ([0x30167E7F, 0x0D700201]
          :: (List.replicate 42 [0x30260101, 0x01000000] ++ [[0x30300000, 0x00000000]]))).map
        (fun s => (s.tx, s.sysex_length, s.device_muid))
      = (SendSysExAsUMP
          [0xF0, 0x7E, 0x7F, 0x0D, 0x71, 0x02, 0x6F, 0x1B, 0x2F, 0x05, 0x01, 0x01, 0x01, 0x01,
           0x7D, 0x00, 0x00, 0x01, 0x00, 0x01, 0x00, 0x01, 0x00, 0x00, 0x00, 0x01,
           0x00, 0x02, 0x00, 0x00, 0x00, 0x00, 0xF7] 33).map
          (fun msgs => (UmpTxEvent.reset :: msgs.map UmpTxEvent.send, 256, 0x0ABCDEF)) ∧
    (SendSysExAsUMP
        [0xF0, 0x7E, 0x7F, 0x0D, 0x71, 0x02, 0x6F, 0x1B, 0x2F, 0x05, 0x01, 0x01, 0x01, 0x01,
         0x7D, 0x00, 0x00, 0x01, 0x00, 0x01, 0x00, 0x01, 0x00, 0x00, 0x00, 0x01,
         0x00, 0x02, 0x00, 0x00, 0x00, 0x00, 0xF7] 33).map List.length = some 6 ∧
    (umpFeedDataMessages (fun _ => 5) { umpInitialState with device_muid := 0x0204081 }
        ([0x30167E7F, 0x0D700201]
          :: (List.replicate 42 [0x30260101, 0x01000000] ++ [[0x30300000, 0x00000000]]))).map
        (fun s => (s.tx, s.sysex_length, s.device_muid))
      = (SendSysExAsUMP
          [0xF0, 0x7E, 0x7F, 0x0D, 0x7E, 0x02, 0x05, 0x00, 0x00, 0x00, 0x7F, 0x7F, 0x7F, 0x7F,
           0x01, 0x01, 0x01, 0x01, 0xF7] 19).map
          (fun msgs => (msgs.map UmpTxEvent.send, 256, 5)) ∧
    (SendSysExAsUMP
        [0xF0, 0x7E, 0x7F, 0x0D, 0x7E, 0x02, 0x05, 0x00, 0x00, 0x00, 0x7F, 0x7F, 0x7F, 0x7F,
         0x01, 0x01, 0x01, 0x01, 0xF7] 19).map List.length = some 3 := by
  decide

/-! ## Name notifications -/

theorem EncodeString7bit_length (str : List Nat) (n : Nat) :
    (EncodeString7bit str n).length = n := by
  simp only [EncodeString7bit, List.length_append, List.length_map, List.length_take,
    List.length_replicate]
  omega

theorem map_mask_getD (l : List Nat) (i : Nat) :
    (l.map (fun c => c &&& 0x7F)).getD i 0 = l.getD i 0 &&& 0x7F := by
  simp only [List.getD_eq_getElem?_getD, List.getElem?_map]
  cases l[i]? <;> rfl

theorem EncodeString7bit_getD (str : List Nat) (h : str.length ≤ 14) (i : Nat) :
    (EncodeString7bit str 14).getD i 0 = (str.map (fun c => c &&& 0x7F)).getD i 0 := by
  unfold EncodeString7bit
  rw [List.take_of_length_le h]
  by_cases hi : i < str.length
  · rw [List.getD_append _ _ _ _ (by simpa using hi)]
  · rw [List.getD_append_right _ _ _ _ (by simpa using hi)]
    have h0 : (str.map (fun c => c &&& 0x7F)).getD i 0 = 0 := by
      rw [List.getD_eq_getElem?_getD, List.getElem?_eq_none (by simpa using hi)]
      rfl
    rw [h0]
    simp only [List.getD_eq_getElem?_getD, List.getElem?_replicate, List.length_map]
    split <;> rfl

/-- What the loop "Pack remaining bytes" leaves, run over the bytes 2 to 13. -/
theorem packNameBytes_14 (b : Nat → Nat) (w0 : Nat) :
    [packNameBytes b 14 (Function.update (fun _ => 0) 0 w0) 0,
     packNameBytes b 14 (Function.update (fun _ => 0) 0 w0) 1,
     packNameBytes b 14 (Function.update (fun _ => 0) 0 w0) 2,
     packNameBytes b 14 (Function.update (fun _ => 0) 0 w0) 3]
      = [w0,
         (b 2 <<< 24) ||| (b 3 <<< 16) ||| (b 4 <<< 8) ||| b 5,
         (b 6 <<< 24) ||| (b 7 <<< 16) ||| (b 8 <<< 8) ||| b 9,
         (b 10 <<< 24) ||| (b 11 <<< 16) ||| (b 12 <<< 8) ||| b 13] := by
  have hr : List.range' 2 (14 - 2) = [2, 3, 4, 5, 6, 7, 8, 9, 10, 11, 12, 13] := by decide
  unfold packNameBytes
  rw [hr]
  simp [List.foldl, Function.update]

/-- The branch for a name of at most 14 characters builds the Format 0 message. -/
theorem UMP_SendNameNotification_short_eq (status : Nat) (name : List Nat)
    (h : name.length ≤ 14) :
    UMP_SendNameNotification_short status name
      = streamNameMessage status 0 (name.map (fun c => c &&& 0x7F)) := by
  unfold UMP_SendNameNotification_short
  simp only [EncodeString7bit_length]
  rw [packNameBytes_14]
  simp only [EncodeString7bit_getD name h, streamNameMessage, ge_iff_le, Nat.one_le_ofNat,
    if_true, Nat.reduceLeDiff]

theorem nameChunk_getD (name : List Nat) (k i : Nat) :
    (nameChunk name k).getD i 0
      = if i < (if name.length - 14 * k < 14 then name.length - 14 * k else 14)
        then name.getD (14 * k + i) 0 &&& 0x7F else 0 := by
  unfold nameChunk
  rw [map_mask_getD, chunk_getD]
  by_cases h14 : i < 14
  · simp only [h14, if_true]
    by_cases hin : 14 * k + i < name.length
    · have c : i < (if name.length - 14 * k < 14 then name.length - 14 * k else 14) := by
        split <;> omega
      simp only [c, if_true]
    · have c : ¬ i < (if name.length - 14 * k < 14 then name.length - 14 * k else 14) := by
        split <;> omega
      simp only [c, if_false]
      rw [List.getD_eq_getElem?_getD, List.getElem?_eq_none (by omega)]
      rfl
  · have c : ¬ i < (if name.length - 14 * k < 14 then name.length - 14 * k else 14) := by
      split <;> omega
    simp only [h14, c, if_false]
    rfl

theorem UMP_SendNameNotification_loop_done (status : Nat) (name : List Nat)
    (fuel offset form : Nat) (h : ¬ (offset < name.length ∧ offset < 98)) :
    UMP_SendNameNotification_loop status name fuel offset form = some [] := by
  cases fuel <;> simp only [UMP_SendNameNotification_loop, h, if_false]

/-- The Format that the loop holds when it reaches the chunk `k`. -/
theorem name_form_next (L k form : Nat) (hform : form = if k = 0 then 1
    else if 14 * k + 14 ≥ L then 3 else 2) (hmore : ¬ (14 * k + 14 ≥ L)) :
    (if form = 0x1 then (if 14 * k + 14 + 14 < L then 0x2 else 0x3)
      else if form = 0x2 then (if 14 * k + 14 + 14 ≥ L then 0x3 else form)
      else form)
      = if k + 1 = 0 then 1 else if 14 * (k + 1) + 14 ≥ L then 3 else 2 := by
  subst hform
  by_cases hk : k = 0
  · subst hk
    simp only [if_true, Nat.add_one_ne_zero, if_false]
    split <;> split <;> omega
  · simp only [hk, hmore, if_false, Nat.add_one_ne_zero]
    have n21 : ¬ ((2 : Nat) = 1) := by decide
    simp only [n21, if_false, if_true]
    split <;> split <;> omega

/-- The loop of the long branch, from the chunk `k` on: one message for every chunk up to
the seventh, the first with Format 1, a later one with Format 3 when it reaches the end of
the name and with Format 2 otherwise. -/
theorem UMP_SendNameNotification_loop_eq (status : Nat) (name : List Nat) (fuel : Nat) :
    ∀ k form, 14 * k < name.length → k < 7 → 7 - k ≤ fuel →
      form = (if k = 0 then 1 else if 14 * k + 14 ≥ name.length then 3 else 2) →
      UMP_SendNameNotification_loop status name fuel (14 * k) form
        = some ((List.range (min ((name.length + 13) / 14) 7 - k)).map (fun j =>
            streamNameMessage status
              (if k + j = 0 then 1 else if 14 * (k + j) + 14 ≥ name.length then 3 else 2)
              (nameChunk name (k + j)))) := by
  induction fuel with
  | zero => intro k form _ hk hf; omega
  | succ fuel ih =>
    intro k form hlt hk hf hform
    have hcond : 14 * k < name.length ∧ 14 * k < 98 := ⟨hlt, by omega⟩
    have hmsg : ∀ w0 : Nat,
        [packNameBytes (fun i => if i < (if name.length - 14 * k < 14
              then name.length - 14 * k else 14)
            then name.getD (14 * k + i) 0 &&& 0x7F else 0) 14
            (Function.update (fun _ => 0) 0 w0) 0,
         packNameBytes (fun i => if i < (if name.length - 14 * k < 14
              then name.length - 14 * k else 14)
            then name.getD (14 * k + i) 0 &&& 0x7F else 0) 14
            (Function.update (fun _ => 0) 0 w0) 1,
         packNameBytes (fun i => if i < (if name.length - 14 * k < 14
              then name.length - 14 * k else 14)
            then name.getD (14 * k + i) 0 &&& 0x7F else 0) 14
            (Function.update (fun _ => 0) 0 w0) 2,
         packNameBytes (fun i => if i < (if name.length - 14 * k < 14
              then name.length - 14 * k else 14)
            then name.getD (14 * k + i) 0 &&& 0x7F else 0) 14
            (Function.update (fun _ => 0) 0 w0) 3]
        = [w0,
           ((nameChunk name k).getD 2 0 <<< 24) ||| ((nameChunk name k).getD 3 0 <<< 16)
             ||| ((nameChunk name k).getD 4 0 <<< 8) ||| (nameChunk name k).getD 5 0,
           ((nameChunk name k).getD 6 0 <<< 24) ||| ((nameChunk name k).getD 7 0 <<< 16)
             ||| ((nameChunk name k).getD 8 0 <<< 8) ||| (nameChunk name k).getD 9 0,
           ((nameChunk name k).getD 10 0 <<< 24) ||| ((nameChunk name k).getD 11 0 <<< 16)
             ||| ((nameChunk name k).getD 12 0 <<< 8) ||| (nameChunk name k).getD 13 0] := by
      intro w0
      rw [packNameBytes_14]
      simp only [nameChunk_getD]
    have hlen1 : (if name.length - 14 * k < 14 then name.length - 14 * k else 14) ≥ 1 := by
      split <;> omega
    have hw0 : (if (if name.length - 14 * k < 14 then name.length - 14 * k else 14) ≥ 2
          then ((0xF <<< 28) ||| (form <<< 26) ||| (status <<< 16)
                ||| ((if 0 < (if name.length - 14 * k < 14 then name.length - 14 * k else 14)
                  then name.getD (14 * k + 0) 0 &&& 0x7F else 0) <<< 8))
              ||| (if 1 < (if name.length - 14 * k < 14 then name.length - 14 * k else 14)
                  then name.getD (14 * k + 1) 0 &&& 0x7F else 0)
          else ((0xF <<< 28) ||| (form <<< 26) ||| (status <<< 16)
                ||| ((if 0 < (if name.length - 14 * k < 14 then name.length - 14 * k else 14)
                  then name.getD (14 * k + 0) 0 &&& 0x7F else 0) <<< 8)))
        = (0xF <<< 28) ||| (form <<< 26) ||| (status <<< 16)
            ||| ((nameChunk name k).getD 0 0 <<< 8) ||| (nameChunk name k).getD 1 0 := by
      simp only [nameChunk_getD]
      by_cases h2 : (if name.length - 14 * k < 14 then name.length - 14 * k else 14) ≥ 2
      · simp only [h2, if_true]
      · have h1 : ¬ 1 < (if name.length - 14 * k < 14 then name.length - 14 * k else 14) := by
          omega
        simp only [h2, h1, if_false, Nat.or_zero]
    rw [UMP_SendNameNotification_loop]
    simp only [hcond, and_self, if_true, hlen1, hmsg, hw0]
    by_cases hend : 14 * k + 14 ≥ name.length
    · have hcount : min ((name.length + 13) / 14) 7 - k = 1 := by omega
      have hr1 : List.range 1 = [0] := rfl
      simp only [hend, if_true, hcount, hr1, List.map_cons, List.map_nil, Nat.add_zero,
        streamNameMessage, hform]
    · simp only [hend, if_false]
      rw [name_form_next name.length k form hform hend]
      by_cases hk6 : k + 1 < 7
      · rw [show 14 * k + 14 = 14 * (k + 1) by omega,
          ih (k + 1) _ (by omega) hk6 (by omega) rfl]
        have hcount : min ((name.length + 13) / 14) 7 - k
            = (min ((name.length + 13) / 14) 7 - (k + 1)) + 1 := by omega
        rw [hcount, map_range_succ_gen]
        have htail : (List.range (min ((name.length + 13) / 14) 7 - (k + 1))).map (fun i =>
              streamNameMessage status
                (if k + (i + 1) = 0 then 1
                  else if 14 * (k + (i + 1)) + 14 ≥ name.length then 3 else 2)
                (nameChunk name (k + (i + 1))))
            = (List.range (min ((name.length + 13) / 14) 7 - (k + 1))).map (fun j =>
              streamNameMessage status
                (if k + 1 + j = 0 then 1
                  else if 14 * (k + 1 + j) + 14 ≥ name.length then 3 else 2)
                (nameChunk name (k + 1 + j))) := by
          apply List.map_congr_left
          intro j _
          rw [show k + (j + 1) = k + 1 + j by omega]
        rw [htail]
        simp only [Option.map_some', Nat.add_zero, streamNameMessage, hform]
      · rw [UMP_SendNameNotification_loop_done status name fuel _ _ (by omega)]
        have hcount : min ((name.length + 13) / 14) 7 - k = 1 := by omega
        have hr1 : List.range 1 = [0] := rfl
        simp only [Option.map_some', hcount, hr1, List.map_cons, List.map_nil, Nat.add_zero,
          streamNameMessage, hform]

/-- The messages of a name of more than 14 characters. -/
theorem UMP_SendNameNotification_long (status : Nat) (name : List Nat)
    (h : 14 < name.length) :
    UMP_SendNameNotification status name
      = some ((List.range (min ((name.length + 13) / 14) 7)).map (fun i =>
          streamNameMessage status
            (if i = 0 then 1 else if 14 * i + 14 ≥ name.length then 3 else 2)
            (nameChunk name i))) := by
  have hn : ¬ name.length ≤ 14 := by omega
  unfold UMP_SendNameNotification
  simp only [hn, if_false]
  have := UMP_SendNameNotification_loop_eq status name 7 0 1 (by omega) (by omega) (by omega)
    rfl
  simp only [Nat.mul_zero, Nat.sub_zero, Nat.zero_add] at this
  exact this

/-! ## C29, C30: chunking of the Endpoint Name and the Product Instance ID -/

theorem name_format_eq (L i : Nat) (hi : i < (L + 13) / 14) :
    (if i = 0 then 1 else if 14 * i + 14 ≥ L then 3 else 2) = nameFormat ((L + 13) / 14) i := by
  unfold nameFormat
  by_cases h0 : i = 0
  · simp only [h0, if_true]
  · simp only [h0, if_false]
    split <;> split <;> omega

theorem nameChunk_length (name : List Nat) (i : Nat) (hi : i < (name.length + 13) / 14) :
    (nameChunk name i).length
      = if i + 1 < (name.length + 13) / 14 then 14
        else name.length - 14 * ((name.length + 13) / 14 - 1) := by
  simp only [nameChunk, List.length_map, List.length_take, List.length_drop]
  split <;> omega

/-- C29: `UMP_SendEndpointNameNotification` (Status 0x03) and
`UMP_SendProductInstanceIdNotification` (Status 0x04), for a string `name` of length `L`,
hand over one message with Format 0 holding the bytes of `name` masked with 0x7F when
`L ≤ 14`; when `15 ≤ L ≤ 98` they hand over `⌈L/14⌉` messages, message `i` with Format 1
for the first, 3 for the last, 2 between, holding the name bytes `14i .. min(14i+14, L)-1`
masked with 0x7F, which are 14 bytes for every message but the last. A message is
`streamNameMessage`: the missing bytes zero, bytes 0 and 1 in the low half of word 0 under
the header `0xF<<28 | Format<<26 | Status<<16`, bytes 2 to 13 four per word, most
significant first, in words 1 to 3. -/
theorem C29_name_chunking (status : Nat) (name : List Nat) :
    (name.length ≤ 14 →
      UMP_SendNameNotification status name
        = some [streamNameMessage status 0 (name.map (fun c => c &&& 0x7F))]) ∧
    (15 ≤ name.length → name.length ≤ 98 →
      UMP_SendNameNotification status name
        = some ((List.range ((name.length + 13) / 14)).map (fun i =>
            streamNameMessage status (nameFormat ((name.length + 13) / 14) i)
              (nameChunk name i))) ∧
      ∀ i, i < (name.length + 13) / 14 →
        (nameChunk name i).length
          = if i + 1 < (name.length + 13) / 14 then 14
            else name.length - 14 * ((name.length + 13) / 14 - 1)) ∧
    UMP_SendEndpointNameNotification name = UMP_SendNameNotification 0x03 name ∧
    UMP_SendProductInstanceIdNotification name = UMP_SendNameNotification 0x04 name := by
  refine ⟨?_, ?_, rfl, rfl⟩
  · intro h
    unfold UMP_SendNameNotification
    simp only [h, if_true, UMP_SendNameNotification_short_eq status name h]
  · intro h15 h98
    have hmin : min ((name.length + 13) / 14) 7 = (name.length + 13) / 14 := by omega
    have hmap : (List.range ((name.length + 13) / 14)).map (fun i =>
          streamNameMessage status
            (if i = 0 then 1 else if 14 * i + 14 ≥ name.length then 3 else 2)
            (nameChunk name i))
        = (List.range ((name.length + 13) / 14)).map (fun i =>
          streamNameMessage status (nameFormat ((name.length + 13) / 14) i)
            (nameChunk name i)) := by
      apply List.map_congr_left
      intro i hi
      have hi' := List.mem_range.mp hi
      rw [name_format_eq name.length i hi']
    exact ⟨by rw [UMP_SendNameNotification_long status name (by omega), hmin, hmap],
      fun i hi => nameChunk_length name i hi⟩

/-- Witness of C29: a 20-character name gives Format 1 with 14 bytes, then Format 3 with 6
bytes; a 10-character name gives one Format 0 message; the configured names
"USB MIDI 2.0 Converter" and "MIDI2USB-001" give Format 1 with 14 bytes and Format 3 with 8
bytes, and one Format 0 message. -/
theorem C29_name_chunking_witness :
    UMP_SendEndpointNameNotification
        [0x41, 0x42, 0x43, 0x44, 0x45, 0x46, 0x47, 0x48, 0x49, 0x4A, 0x4B, 0x4C, 0x4D, 0x4E,
         0x4F, 0x50, 0x51, 0x52, 0x53, 0x54]
      = some [streamNameMessage 0x03 1
                [0x41, 0x42, 0x43, 0x44, 0x45, 0x46, 0x47, 0x48, 0x49, 0x4A, 0x4B, 0x4C, 0x4D,
                 0x4E],
              streamNameMessage 0x03 3 [0x4F, 0x50, 0x51, 0x52, 0x53, 0x54]] ∧
    UMP_SendEndpointNameNotification
        [0x41, 0x42, 0x43, 0x44, 0x45, 0x46, 0x47, 0x48, 0x49, 0x4A]
      = some [streamNameMessage 0x03 0
                [0x41, 0x42, 0x43, 0x44, 0x45, 0x46, 0x47, 0x48, 0x49, 0x4A]] ∧
    UMP_SendEndpointNameNotification UMP_ENDPOINT_NAME
      = some [streamNameMessage 0x03 1
                [0x55, 0x53, 0x42, 0x20, 0x4D, 0x49, 0x44, 0x49, 0x20, 0x32, 0x2E, 0x30, 0x20,
                 0x43],
              streamNameMessage 0x03 3 [0x6F, 0x6E, 0x76, 0x65, 0x72, 0x74, 0x65, 0x72]] ∧
    UMP_SendProductInstanceIdNotification UMP_PRODUCT_INSTANCE_ID
      = some [streamNameMessage 0x04 0 UMP_PRODUCT_INSTANCE_ID] :=
  ⟨((C29_name_chunking 0x03
        [0x41, 0x42, 0x43, 0x44, 0x45, 0x46, 0x47, 0x48, 0x49, 0x4A, 0x4B, 0x4C, 0x4D, 0x4E,
         0x4F, 0x50, 0x51, 0x52, 0x53, 0x54]).2.1 (by decide) (by decide)).1.trans
      (by decide),
   ((C29_name_chunking 0x03
        [0x41, 0x42, 0x43, 0x44, 0x45, 0x46, 0x47, 0x48, 0x49, 0x4A]).1 (by decide)).trans
      (by decide),
   ((C29_name_chunking 0x03 UMP_ENDPOINT_NAME).2.1 (by decide) (by decide)).1.trans
      (by decide),
   ((C29_name_chunking 0x04 UMP_PRODUCT_INSTANCE_ID).1 (by decide)).trans (by decide)⟩

/-- A remark on the loop for a string longer than the 98 bytes it sends, which the
constants of the firmware are not: for every name the routine returns, with at most 7
messages; for 99 characters `A` in place of the constant, 7 messages are handed over, each
with 14 bytes, whose Formats are 1, 2, 2, 2, 2, 2, 2. A name of 98 characters ends with
Format 3. -/
theorem UMP_SendNameNotification_beyond_98 (status : Nat) (name : List Nat) :
    (∃ msgs, UMP_SendNameNotification status name = some msgs ∧ msgs.length ≤ 7) ∧
    UMP_SendEndpointNameNotification (List.replicate 99 0x41)
      = some ((List.range 7).map (fun i =>
          streamNameMessage 0x03 (if i = 0 then 1 else 2) (List.replicate 14 0x41))) ∧
    UMP_SendProductInstanceIdNotification (List.replicate 99 0x41)
      = some ((List.range 7).map (fun i =>
          streamNameMessage 0x04 (if i = 0 then 1 else 2) (List.replicate 14 0x41))) ∧
    (UMP_SendEndpointNameNotification (List.replicate 99 0x41)).map
        (fun msgs => msgs.map (fun m => (m.getD 0 0 >>> 26) &&& 0x3))
      = some [1, 2, 2, 2, 2, 2, 2] ∧
    (UMP_SendEndpointNameNotification (List.replicate 98 0x41)).map
        (fun msgs => msgs.map (fun m => (m.getD 0 0 >>> 26) &&& 0x3))
      = some [1, 2, 2, 2, 2, 2, 3] := by
  refine ⟨?_, by decide, by decide, by decide, by decide⟩
  by_cases h : name.length ≤ 14
  · refine ⟨[UMP_SendNameNotification_short status name], ?_, ?_⟩
    · unfold UMP_SendNameNotification
      simp only [h, if_true]
    · simp only [List.length_singleton]
      omega
  · refine ⟨_, UMP_SendNameNotification_long status name (by omega), ?_⟩
    simp only [List.length_map, List.length_range]
    omega

set_option maxRecDepth 100000 in
theorem filter_bits : ∀ f, f < 32 →
    ((f &&& 0x01 ≠ 0) ↔ f % 2 = 1) ∧ ((f &&& 0x02 ≠ 0) ↔ f / 2 % 2 = 1) ∧
    ((f &&& 0x04 ≠ 0) ↔ f / 4 % 2 = 1) ∧ ((f &&& 0x08 ≠ 0) ↔ f / 8 % 2 = 1) ∧
    ((f &&& 0x10 ≠ 0) ↔ f / 16 % 2 = 1) := by
  decide

theorem and_0x1F (x : Nat) : x &&& 0x1F = x % 32 := by
  have := Nat.and_pow_two_sub_one_eq_mod x 5
  simpa using this

/-- The words of the Endpoint Info notification: Status 0x001 with UMP version 1.2, then
the static-function-blocks bit, one function block and the MIDI 2.0 protocol bit. -/
theorem UMP_SendEndpointInfoNotification_words :
    UMP_SendEndpointInfoNotification = [0xF0010102, 0x81000200, 0x00000000, 0x00000000] := by
  decide

/-- The words of the Device Identity notification: Status 0x002, manufacturer `7D 00 00`,
family `00 01`, model `00 01`, software revision `01 00 00 00`. -/
theorem UMP_SendDeviceIdentityNotification_words :
    UMP_SendDeviceIdentityNotification
      = [0xF0020000, 0x007D0000, 0x00010001, 0x01000000] := by
  decide

/-- The words of the Stream Configuration notification for `current_protocol`: Status
0x006, protocol MIDI 2.0, no jitter reduction. -/
theorem UMP_SendStreamConfigNotification_words :
    UMP_SendStreamConfigNotification UMP_PROTOCOL_MIDI_2_0 false false
      = [0xF0060200, 0x00000000, 0x00000000, 0x00000000] := by
  decide

/-- The messages of the Endpoint Name "USB MIDI 2.0 Converter": Status 0x003, Format 1 with
"USB MIDI 2.0 C", then Format 3 with "onverter". -/
theorem UMP_SendEndpointNameNotification_words :
    UMP_SendEndpointNameNotification UMP_ENDPOINT_NAME
      = some [[0xF4035553, 0x42204D49, 0x44492032, 0x2E302043],
              [0xFC036F6E, 0x76657274, 0x65720000, 0x00000000]] := by
  decide

/-- The message of the Product Instance ID "MIDI2USB-001": Status 0x004, Format 0. -/
theorem UMP_SendProductInstanceIdNotification_words :
    UMP_SendProductInstanceIdNotification UMP_PRODUCT_INSTANCE_ID
      = some [[0xF0044D49, 0x44493255, 0x53422D30, 0x30310000]] := by
  decide

/-- C31: for every Stream message (Message Type 0xF) with Status 0x000, whatever its
other bits, and every `word_count ≥ 1`, `UMP_ProcessStreamMessage` hands to
`xQueueSendToBack`, in this order and nothing else: the Endpoint Info notification
`F0010102 81000200 0 0` if bit 0 of word 1 is set, the Device Identity notification
`F0020000 007D0000 00010001 01000000` if bit 1, the two messages of the Endpoint Name
`F4035553 42204D49 44492032 2E302043` and `FC036F6E 76657274 65720000 0` if bit 2, the
message of the Product Instance ID `F0044D49 44493255 53422D30 30310000` if bit 3, the
Stream Configuration notification `F0060200 0 0 0` if bit 4. Only the five low bits
`w1 mod 32` of word 1 count. These words are what the five notification routines hand
over. -/
theorem C31_endpoint_discovery_order (ump_data : List Nat) (word_count : Nat)
    (hwc : 1 ≤ word_count) (hmt : (ump_data.getD 0 0 >>> 28) &&& 0xF = 0xF)
    (hst : (ump_data.getD 0 0 >>> 16) &&& 0x3FF = 0x000) :
    UMP_ProcessStreamMessage ump_data word_count
      = some ((if ump_data.getD 1 0 % 32 % 2 = 1 then
                [[0xF0010102, 0x81000200, 0x00000000, 0x00000000]]
              else [])
          ++ (if ump_data.getD 1 0 % 32 / 2 % 2 = 1 then
                [[0xF0020000, 0x007D0000, 0x00010001, 0x01000000]]
              else [])
          ++ (if ump_data.getD 1 0 % 32 / 4 % 2 = 1 then
                [[0xF4035553, 0x42204D49, 0x44492032, 0x2E302043],
                 [0xFC036F6E, 0x76657274, 0x65720000, 0x00000000]]
              else [])
          ++ (if ump_data.getD 1 0 % 32 / 8 % 2 = 1 then
                [[0xF0044D49, 0x44493255, 0x53422D30, 0x30310000]]
              else [])
          ++ (if ump_data.getD 1 0 % 32 / 16 % 2 = 1 then
                [[0xF0060200, 0x00000000, 0x00000000, 0x00000000]]
              else [])) ∧
    UMP_SendEndpointInfoNotification = [0xF0010102, 0x81000200, 0x00000000, 0x00000000] ∧
    UMP_SendDeviceIdentityNotification
      = [0xF0020000, 0x007D0000, 0x00010001, 0x01000000] ∧
    UMP_SendEndpointNameNotification UMP_ENDPOINT_NAME
      = some [[0xF4035553, 0x42204D49, 0x44492032, 0x2E302043],
              [0xFC036F6E, 0x76657274, 0x65720000, 0x00000000]] ∧
    UMP_SendProductInstanceIdNotification UMP_PRODUCT_INSTANCE_ID
      = some [[0xF0044D49, 0x44493255, 0x53422D30, 0x30310000]] ∧
    UMP_SendStreamConfigNotification UMP_PROTOCOL_MIDI_2_0 false false
      = [0xF0060200, 0x00000000, 0x00000000, 0x00000000] := by
  refine ⟨?_, UMP_SendEndpointInfoNotification_words, UMP_SendDeviceIdentityNotification_words,
    UMP_SendEndpointNameNotification_words, UMP_SendProductInstanceIdNotification_words,
    UMP_SendStreamConfigNotification_words⟩
  have hwc0 : ¬ word_count < 1 := by omega
  have hlt : ump_data.getD 1 0 % 32 < 32 := Nat.mod_lt _ (by decide)
  obtain ⟨b0, b1, b2, b3, b4⟩ := filter_bits _ hlt
  unfold UMP_ProcessStreamMessage
  simp only [hwc0, if_false, hmt, ne_eq, not_true_eq_false, hst,
    UMP_STREAM_MSG_ENDPOINT_DISCOVERY, if_true, and_0x1F, b0, b1, b2, b3, b4,
    UMP_SendEndpointInfoNotification_words, UMP_SendDeviceIdentityNotification_words,
    UMP_SendEndpointNameNotification_words, UMP_SendProductInstanceIdNotification_words,
    UMP_SendStreamConfigNotification_words]
  by_cases c2 : ump_data.getD 1 0 % 32 / 4 % 2 = 1 <;>
    by_cases c3 : ump_data.getD 1 0 % 32 / 8 % 2 = 1 <;>
    simp only [c2, c3, if_true, if_false, Option.some_bind, Option.map_some',
      List.append_nil, List.nil_append, List.append_assoc]

/-- Witness of C31: the request `F0000101 0000001F` asks for all five notifications, and
`F0000101 FFFFFFE5` for the Endpoint Info, the Endpoint Name and nothing else. -/
theorem C31_endpoint_discovery_order_witness :
    UMP_ProcessStreamMessage [0xF0000101, 0x0000001F, 0, 0] 4
      = some [[0xF0010102, 0x81000200, 0x00000000, 0x00000000],
              [0xF0020000, 0x007D0000, 0x00010001, 0x01000000],
              [0xF4035553, 0x42204D49, 0x44492032, 0x2E302043],
              [0xFC036F6E, 0x76657274, 0x65720000, 0x00000000],
              [0xF0044D49, 0x44493255, 0x53422D30, 0x30310000],
              [0xF0060200, 0x00000000, 0x00000000, 0x00000000]] ∧
    UMP_ProcessStreamMessage [0xF0000101, 0xFFFFFFE5, 0, 0] 4
      = some [[0xF0010102, 0x81000200, 0x00000000, 0x00000000],
              [0xF4035553, 0x42204D49, 0x44492032, 0x2E302043],
              [0xFC036F6E, 0x76657274, 0x65720000, 0x00000000]] :=
  ⟨(C31_endpoint_discovery_order [0xF0000101, 0x0000001F, 0, 0] 4
      (by decide) (by decide) (by decide)).1.trans (by decide),
   (C31_endpoint_discovery_order [0xF0000101, 0xFFFFFFE5, 0, 0] 4
      (by decide) (by decide) (by decide)).1.trans (by decide)⟩

/-! ## C32, C33: the mode manager -/

theorem setupPinReads_init (l : List HalCall) (h a b : Nat) :
    setupPinReads (l ++ [HalCall.read_setup_pin h, HalCall.set_m1_led h a,
      HalCall.set_m2_led h b]) = setupPinReads l + 1 := by
  simp [setupPinReads, List.filter_append, List.filter_cons]

theorem setupPinReads_leds (l : List HalCall) (h a b : Nat) :
    setupPinReads (l ++ [HalCall.set_m1_led h a, HalCall.set_m2_led h b]) = setupPinReads l := by
  simp [setupPinReads, List.filter_append, List.filter_cons]

/-- C32: `ModeManager_InitWithHAL(hal)` with a HAL `h` whose setup pin reads `p` makes
three HAL calls, `read_setup_pin` once, then `set_m1_led` and `set_m2_led`, and leaves
`ModeManager_GetMode()` at `MIDI_MODE_2_0` with M1 reset and M2 set if `p` is
`HAL_PIN_SET`, at `MIDI_MODE_1_0` with M1 set and M2 reset otherwise, `HAL_PIN_RESET`
included; `is_midi2_mode` agrees. With a `NULL` hal the state is left as it was. -/
theorem C32_mode_initialisation (pin : Nat → Nat) (s : ModeManagerState) (h : Nat) :
    ModeManager_InitWithHAL pin (some h) s
      = { g_midi_mode :=
            if pin (setupPinReads s.calls) = HAL_PIN_SET then MIDI_MODE_2_0 else MIDI_MODE_1_0
          current_hal := some h
          calls := s.calls ++
            (if pin (setupPinReads s.calls) = HAL_PIN_SET then
              [HalCall.read_setup_pin h, HalCall.set_m1_led h HAL_PIN_RESET,
                HalCall.set_m2_led h HAL_PIN_SET]
            else
              [HalCall.read_setup_pin h, HalCall.set_m1_led h HAL_PIN_SET,
                HalCall.set_m2_led h HAL_PIN_RESET]) } ∧
    setupPinReads (ModeManager_InitWithHAL pin (some h) s).calls = setupPinReads s.calls + 1 ∧
    ModeManager_GetMode (ModeManager_InitWithHAL pin (some h) s)
      = (if pin (setupPinReads s.calls) = HAL_PIN_SET then MIDI_MODE_2_0 else MIDI_MODE_1_0) ∧
    is_midi2_mode (ModeManager_InitWithHAL pin (some h) s)
      = decide (pin (setupPinReads s.calls) = HAL_PIN_SET) ∧
    ModeManager_InitWithHAL pin none s = s ∧
    HAL_PIN_RESET ≠ HAL_PIN_SET ∧ MIDI_MODE_1_0 ≠ MIDI_MODE_2_0 := by
  have hstate : ModeManager_InitWithHAL pin (some h) s
      = { g_midi_mode :=
            if pin (setupPinReads s.calls) = HAL_PIN_SET then MIDI_MODE_2_0 else MIDI_MODE_1_0
          current_hal := some h
          calls := s.calls ++
            (if pin (setupPinReads s.calls) = HAL_PIN_SET then
              [HalCall.read_setup_pin h, HalCall.set_m1_led h HAL_PIN_RESET,
                HalCall.set_m2_led h HAL_PIN_SET]
            else
              [HalCall.read_setup_pin h, HalCall.set_m1_led h HAL_PIN_SET,
                HalCall.set_m2_led h HAL_PIN_RESET]) } := by
    unfold ModeManager_InitWithHAL ModeManager_SetLEDsWithHAL ModeManager_DetermineModeFromPin
    by_cases hp : pin (setupPinReads s.calls) = HAL_PIN_SET
    · have h21 : ¬ MIDI_MODE_2_0 = MIDI_MODE_1_0 := by decide
      simp only [hp, if_true, h21, if_false, List.append_assoc, List.singleton_append]
    · simp only [hp, if_false, if_true, List.append_assoc, List.singleton_append]
  refine ⟨hstate, ?_, ?_, ?_, rfl, by decide, by decide⟩
  · rw [hstate]
    by_cases hp : pin (setupPinReads s.calls) = HAL_PIN_SET
    · simp only [hp, if_true, setupPinReads_init]
    · simp only [hp, if_false, setupPinReads_init]
  · rw [hstate]
    rfl
  · rw [hstate]
    unfold is_midi2_mode ModeManager_GetMode
    by_cases hp : pin (setupPinReads s.calls) = HAL_PIN_SET
    · simp only [hp, if_true, decide_True]
    · have h12 : ¬ MIDI_MODE_1_0 = MIDI_MODE_2_0 := by decide
      simp only [hp, if_false, h12, decide_False]

theorem ModeManager_InitWithHAL_reads (pin : Nat → Nat) (s : ModeManagerState) (h : Nat) :
    (ModeManager_InitWithHAL pin (some h) s).g_midi_mode
      = ModeManager_DetermineModeFromPin (pin (setupPinReads s.calls)) ∧
    setupPinReads (ModeManager_InitWithHAL pin (some h) s).calls = setupPinReads s.calls + 1 := by
  unfold ModeManager_InitWithHAL ModeManager_SetLEDsWithHAL
  by_cases hm : ModeManager_DetermineModeFromPin (pin (setupPinReads s.calls)) = MIDI_MODE_1_0
  · simp only [hm, if_true, List.append_assoc, List.singleton_append, setupPinReads_init,
      and_self]
  · simp only [hm, if_false, List.append_assoc, List.singleton_append, setupPinReads_init,
      and_self]

/-- What an operation other than an initialisation leaves alone. -/
theorem runModeOp_keeps (pin : Nat → Nat) (s : ModeManagerState) (op : ModeOp)
    (hop : modeOpIsInit op = false) :
    (runModeOp pin s op).g_midi_mode = s.g_midi_mode ∧
    setupPinReads (runModeOp pin s op).calls = setupPinReads s.calls := by
  cases op with
  | getMode => exact ⟨rfl, rfl⟩
  | isMidi2Mode => exact ⟨rfl, rfl⟩
  | setLEDs mode =>
    unfold runModeOp ModeManager_SetLEDs ModeManager_SetLEDsWithHAL
    cases s.current_hal <;> by_cases hm : mode = MIDI_MODE_1_0 <;>
      simp only [hm, if_true, if_false, setupPinReads_leds, and_self]
  | setLEDsWithHAL mode hal =>
    unfold runModeOp ModeManager_SetLEDsWithHAL
    cases hal <;> by_cases hm : mode = MIDI_MODE_1_0 <;>
      simp only [hm, if_true, if_false, setupPinReads_leds, and_self]
  | initWithHAL hal =>
    cases hal with
    | none => exact ⟨rfl, rfl⟩
    | some h => exact absurd hop (by simp [modeOpIsInit])

theorem runModeOps_keeps (pin : Nat → Nat) (ops : List ModeOp) :
    ∀ s : ModeManagerState, (∀ op ∈ ops, modeOpIsInit op = false) →
      (runModeOps pin s ops).g_midi_mode = s.g_midi_mode ∧
      setupPinReads (runModeOps pin s ops).calls = setupPinReads s.calls := by
  induction ops with
  | nil => intro s _; exact ⟨rfl, rfl⟩
  | cons op ops ih =>
    intro s hops
    obtain ⟨h1, h2⟩ := runModeOp_keeps pin s op (hops op (List.mem_cons_self _ _))
    obtain ⟨h3, h4⟩ := ih (runModeOp pin s op) (fun o ho => hops o (List.mem_cons_of_mem _ ho))
    exact ⟨h3.trans h1, h4.trans h2⟩

/-- C33, amended: a sequence of calls of `ModeManager_GetMode`, `is_midi2_mode`,
`ModeManager_SetLEDs`, `ModeManager_SetLEDsWithHAL` and `ModeManager_InitWithHAL(NULL)`
never reads the setup pin and never changes the cached mode; every call of
`ModeManager_InitWithHAL` with a hal that is not `NULL`, the first or a later one, reads
the pin once more and sets the cached mode from what it reads then. -/
theorem C33_mode_set_by_every_init (pin : Nat → Nat) (s : ModeManagerState)
    (ops : List ModeOp) (hops : ∀ op ∈ ops, modeOpIsInit op = false) (h : Nat) :
    (runModeOps pin s ops).g_midi_mode = s.g_midi_mode ∧
    setupPinReads (runModeOps pin s ops).calls = setupPinReads s.calls ∧
    (ModeManager_InitWithHAL pin (some h) s).g_midi_mode
      = ModeManager_DetermineModeFromPin (pin (setupPinReads s.calls)) ∧
    setupPinReads (ModeManager_InitWithHAL pin (some h) s).calls = setupPinReads s.calls + 1 := by
  obtain ⟨h1, h2⟩ := runModeOps_keeps pin ops s hops
  refine ⟨h1, h2, ?_, ?_⟩
  · exact (ModeManager_InitWithHAL_reads pin s h).1
  · exact (ModeManager_InitWithHAL_reads pin s h).2

/-- Witness of C33: after an initialisation with the pin set, the operations other than
an initialisation, with the pin reading reset from then on. -/
theorem C33_mode_set_by_every_init_witness :
    (runModeOps (fun k => if k = 0 then HAL_PIN_SET else HAL_PIN_RESET)
        (ModeManager_InitWithHAL (fun k => if k = 0 then HAL_PIN_SET else HAL_PIN_RESET)
          (some 7) modeInitialState)
        [ModeOp.getMode, ModeOp.setLEDs MIDI_MODE_1_0, ModeOp.isMidi2Mode,
          ModeOp.setLEDsWithHAL MIDI_MODE_1_0 (some 7), ModeOp.initWithHAL none]).g_midi_mode
      = MIDI_MODE_2_0 ∧
    setupPinReads (runModeOps (fun k => if k = 0 then HAL_PIN_SET else HAL_PIN_RESET)
        (ModeManager_InitWithHAL (fun k => if k = 0 then HAL_PIN_SET else HAL_PIN_RESET)
          (some 7) modeInitialState)
        [ModeOp.getMode, ModeOp.setLEDs MIDI_MODE_1_0, ModeOp.isMidi2Mode,
          ModeOp.setLEDsWithHAL MIDI_MODE_1_0 (some 7), ModeOp.initWithHAL none]).calls
      = 1 :=
  ⟨(C33_mode_set_by_every_init (fun k => if k = 0 then HAL_PIN_SET else HAL_PIN_RESET)
      (ModeManager_InitWithHAL (fun k => if k = 0 then HAL_PIN_SET else HAL_PIN_RESET)
        (some 7) modeInitialState)
      [ModeOp.getMode, ModeOp.setLEDs MIDI_MODE_1_0, ModeOp.isMidi2Mode,
        ModeOp.setLEDsWithHAL MIDI_MODE_1_0 (some 7), ModeOp.initWithHAL none]
      (by decide) 7).1.trans (by decide),
   (C33_mode_set_by_every_init (fun k => if k = 0 then HAL_PIN_SET else HAL_PIN_RESET)
      (ModeManager_InitWithHAL (fun k => if k = 0 then HAL_PIN_SET else HAL_PIN_RESET)
        (some 7) modeInitialState)
      [ModeOp.getMode, ModeOp.setLEDs MIDI_MODE_1_0, ModeOp.isMidi2Mode,
        ModeOp.setLEDsWithHAL MIDI_MODE_1_0 (some 7), ModeOp.initWithHAL none]
      (by decide) 7).2.1.trans (by decide)⟩

/-- Counterexample to C33: the pin reads set at the first `ModeManager_InitWithHAL` and
reset afterwards; a second `ModeManager_InitWithHAL` with the same HAL reads the pin a
second time and changes the cached mode from `MIDI_MODE_2_0` to `MIDI_MODE_1_0`. -/
theorem C33_counterexample :
    (ModeManager_InitWithHAL (fun k => if k = 0 then HAL_PIN_SET else HAL_PIN_RESET)
        (some 7) modeInitialState).g_midi_mode = MIDI_MODE_2_0 ∧
    (runModeOps (fun k => if k = 0 then HAL_PIN_SET else HAL_PIN_RESET)
        (ModeManager_InitWithHAL (fun k => if k = 0 then HAL_PIN_SET else HAL_PIN_RESET)
          (some 7) modeInitialState)
        [ModeOp.initWithHAL (some 7)]).g_midi_mode = MIDI_MODE_1_0 ∧
    setupPinReads (runModeOps (fun k => if k = 0 then HAL_PIN_SET else HAL_PIN_RESET)
        (ModeManager_InitWithHAL (fun k => if k = 0 then HAL_PIN_SET else HAL_PIN_RESET)
          (some 7) modeInitialState)
        [ModeOp.initWithHAL (some 7)]).calls = 2 := by
  decide

/-! ## C37: the parser and the outcome of the sends -/

/-- The flush loop touches the queue, the count of sends and `queue_full_errors` only. -/
theorem sysexFlushLoop_frame (ok : Nat → Bool) (fuel : Nat) :
    ∀ (offset : Nat) (s : UartRxState), ∃ q n e,
      sysexFlushLoop ok fuel offset s
        = { s with
            queue := q
            sends := n
            midi_stats := { s.midi_stats with queue_full_errors := e } } := by
  induction fuel with
  | zero => intro offset s; exact ⟨s.queue, s.sends, s.midi_stats.queue_full_errors, rfl⟩
  | succ fuel ih =>
    intro offset s
    rw [sysexFlushLoop]
    by_cases hlt : offset < s.uart_sysex_buffer.length
    · simp only [hlt, if_true, xQueueSend]
      cases hok : ok s.sends
      · simp only [Bool.false_eq_true, if_false, incQueueFullErrors]
        exact ⟨_, _, _, rfl⟩
      · simp only [if_true]
        obtain ⟨q, n, e, h⟩ := ih
          (offset + if s.uart_sysex_buffer.length - offset > 3 then 3
            else s.uart_sysex_buffer.length - offset)
          { s with
            queue := s.queue ++ [⟨(List.range (if s.uart_sysex_buffer.length - offset > 3 then 3
                else s.uart_sysex_buffer.length - offset)).map
                  (fun i => s.uart_sysex_buffer.data (offset + i)),
                if s.uart_sysex_buffer.length - offset > 3 then 3
                else s.uart_sysex_buffer.length - offset⟩]
            sends := s.sends + 1 }
        rw [h]
        exact ⟨q, n, e, rfl⟩
    · simp only [hlt, if_false]
      exact ⟨s.queue, s.sends, s.midi_stats.queue_full_errors, rfl⟩

/-- `SendCompleteMessage` under two environments. -/
theorem SendCompleteMessage_frame (ok : Nat → Bool) (s : UartRxState) :
    ∃ q n e,
      SendCompleteMessage ok s
        = { SendCompleteMessage allSendsOk s with
            queue := q
            sends := n
            midi_stats :=
              { (SendCompleteMessage allSendsOk s).midi_stats with queue_full_errors := e } } ∧
      (SendCompleteMessage ok s).midi_stats.uart_rx_count = s.midi_stats.uart_rx_count := by
  unfold SendCompleteMessage
  simp only [xQueueSend, allSendsOk, if_true]
  generalize (if s.midi_running_status &&& MIDI_MESSAGE_TYPE_MASK = MIDI_PROGRAM_CHANGE
      ∨ s.midi_running_status &&& MIDI_MESSAGE_TYPE_MASK = MIDI_CHANNEL_PRESSURE
    then 2 else 3) = el
  by_cases hge : s.midi_msg_index ≥ el
  · simp only [hge, if_true]
    cases hok : ok s.sends
    · simp only [Bool.false_eq_true, if_false, incQueueFullErrors]
      exact ⟨_, _, _, rfl, by first | rfl | trivial⟩
    · simp only [if_true]
      exact ⟨_, _, _, rfl, by first | rfl | trivial⟩
  · simp only [hge, if_false]
    exact ⟨s.queue, s.sends, s.midi_stats.queue_full_errors, rfl, by first | rfl | trivial⟩

/-- `ProcessMidiByte` under any environment is `ProcessMidiByte` under the environment in
which every send succeeds, up to the queue, the count of sends and `queue_full_errors`. -/
theorem ProcessMidiByte_frame (ok : Nat → Bool) (s : UartRxState) (rx_byte : Nat) :
    ∃ q n e,
      ProcessMidiByte ok s rx_byte
        = { ProcessMidiByte allSendsOk s rx_byte with
            queue := q
            sends := n
            midi_stats :=
              { (ProcessMidiByte allSendsOk s rx_byte).midi_stats with
                queue_full_errors := e } } ∧
      (ProcessMidiByte ok s rx_byte).midi_stats.uart_rx_count
        = (s.midi_stats.uart_rx_count + 1) % UINT32_MOD := by
  unfold ProcessMidiByte
  by_cases hst : rx_byte &&& 0x80 ≠ 0
  · simp only [if_pos hst]
    by_cases h0 : rx_byte = MIDI_SYSEX_START
    · simp only [if_pos h0]
      exact ⟨_, _, _, rfl, rfl⟩
    · simp only [if_neg h0]
      by_cases h7 : rx_byte = MIDI_SYSEX_END
      · simp only [if_pos h7]
        by_cases hin : (incUartRxCount s).uart_sysex_buffer.in_sysex = true
        · simp only [if_pos hin]
          by_cases hov : (!(sysexAppend (incUartRxCount s).uart_sysex_buffer
              rx_byte).overflow) = true
          · simp only [if_pos hov]
            obtain ⟨q1, n1, e1, h1⟩ := sysexFlushLoop_frame ok
              (sysexAppend (incUartRxCount s).uart_sysex_buffer rx_byte).length 0
              { incUartRxCount s with
                uart_sysex_buffer := sysexAppend (incUartRxCount s).uart_sysex_buffer rx_byte }
            obtain ⟨q2, n2, e2, h2⟩ := sysexFlushLoop_frame allSendsOk
              (sysexAppend (incUartRxCount s).uart_sysex_buffer rx_byte).length 0
              { incUartRxCount s with
                uart_sysex_buffer := sysexAppend (incUartRxCount s).uart_sysex_buffer rx_byte }
            rw [h1, h2]
            exact ⟨_, _, _, rfl, rfl⟩
          · simp only [if_neg hov]
            exact ⟨_, _, _, rfl, rfl⟩
        · simp only [if_neg hin]
          exact ⟨_, _, _, rfl, rfl⟩
      · simp only [if_neg h7]
        have hs1 : (if (incUartRxCount s).uart_sysex_buffer.in_sysex = true then
            { incUartRxCount s with
              uart_sysex_buffer := sysexReset (incUartRxCount s).uart_sysex_buffer }
          else incUartRxCount s).midi_stats.uart_rx_count
            = (s.midi_stats.uart_rx_count + 1) % UINT32_MOD := by
          split <;> rfl
        generalize (if (incUartRxCount s).uart_sysex_buffer.in_sysex = true then
            { incUartRxCount s with
              uart_sysex_buffer := sysexReset (incUartRxCount s).uart_sysex_buffer }
          else incUartRxCount s) = s1 at hs1 ⊢
        by_cases hrt : rx_byte ≥ 0xF8
        · simp only [if_pos hrt]
          by_cases ha : MIDI_FILTER_ACTIVE_SENSING ≠ 0 ∧ rx_byte = MIDI_ACTIVE_SENSING
          · simp only [if_pos ha]
            exact ⟨_, _, _, rfl, hs1⟩
          · simp only [if_neg ha]
            by_cases hc : MIDI_FILTER_TIMING_CLOCK ≠ 0 ∧ rx_byte = MIDI_TIMING_CLOCK
            · simp only [if_pos hc]
              exact ⟨_, _, _, rfl, hs1⟩
            · simp only [if_neg hc, xQueueSend, allSendsOk, if_true]
              cases hok : ok s1.sends
              · simp only [Bool.false_eq_true, if_false, incQueueFullErrors]
                exact ⟨_, _, _, rfl, hs1⟩
              · simp only [if_true]
                exact ⟨_, _, _, rfl, hs1⟩
        · simp only [if_neg hrt]
          by_cases hsc : rx_byte ≥ 0xF0
          · simp only [if_pos hsc]
            exact ⟨_, _, _, rfl, hs1⟩
          · simp only [if_neg hsc]
            exact ⟨_, _, _, rfl, hs1⟩
  · simp only [if_neg hst]
    by_cases hin : (incUartRxCount s).uart_sysex_buffer.in_sysex = true
    · simp only [if_pos hin]
      exact ⟨_, _, _, rfl, rfl⟩
    · simp only [if_neg hin]
      by_cases hrun : (incUartRxCount s).midi_running_status ≠ 0
          ∧ (incUartRxCount s).midi_msg_index < 3
      · simp only [if_pos hrun]
        obtain ⟨q, n, e, hq, hc⟩ := SendCompleteMessage_frame ok
          { incUartRxCount s with
            midi_msg_buffer := Function.update (incUartRxCount s).midi_msg_buffer
              (incUartRxCount s).midi_msg_index rx_byte
            midi_msg_index := (incUartRxCount s).midi_msg_index + 1 }
        exact ⟨q, n, e, hq, hc⟩
      · simp only [if_neg hrun]
        exact ⟨_, _, _, rfl, rfl⟩

/-- C37: for every parser state and input byte, `ProcessMidiByte` run with two patterns
`ok1`, `ok2` of outcomes of `xQueueSend` leaves the same running status, message buffer,
message index and SysEx accumulator, and the same statistics but for `queue_full_errors`;
`uart_rx_count` is the old count plus 1, as a 32-bit counter. -/
theorem C37_parser_ignores_send_outcomes (ok1 ok2 : Nat → Bool) (s : UartRxState)
    (rx_byte : Nat) :
    (ProcessMidiByte ok1 s rx_byte).midi_running_status
      = (ProcessMidiByte ok2 s rx_byte).midi_running_status ∧
    (ProcessMidiByte ok1 s rx_byte).midi_msg_buffer
      = (ProcessMidiByte ok2 s rx_byte).midi_msg_buffer ∧
    (ProcessMidiByte ok1 s rx_byte).midi_msg_index
      = (ProcessMidiByte ok2 s rx_byte).midi_msg_index ∧
    (ProcessMidiByte ok1 s rx_byte).uart_sysex_buffer
      = (ProcessMidiByte ok2 s rx_byte).uart_sysex_buffer ∧
    (ProcessMidiByte ok1 s rx_byte).midi_stats.uart_rx_count
      = (s.midi_stats.uart_rx_count + 1) % UINT32_MOD ∧
    (ProcessMidiByte ok2 s rx_byte).midi_stats.uart_rx_count
      = (s.midi_stats.uart_rx_count + 1) % UINT32_MOD ∧
    { (ProcessMidiByte ok1 s rx_byte).midi_stats with queue_full_errors := 0 }
      = { (ProcessMidiByte ok2 s rx_byte).midi_stats with queue_full_errors := 0 } := by
  obtain ⟨q1, n1, e1, h1, c1⟩ := ProcessMidiByte_frame ok1 s rx_byte
  obtain ⟨q2, n2, e2, h2, c2⟩ := ProcessMidiByte_frame ok2 s rx_byte
  refine ⟨?_, ?_, ?_, ?_, c1, c2, ?_⟩ <;> rw [h1, h2]

/-! ## C34: the accumulators stay within their arrays -/

/-- The guarded append keeps the length within the array and writes inside it. -/
theorem sysexAppend_bounds (b : UartSysexBuffer) (x : Nat)
    (h : b.length ≤ UART_SYSEX_BUFFER_SIZE) :
    (sysexAppend b x).length ≤ UART_SYSEX_BUFFER_SIZE ∧
    ∀ j, (sysexAppend b x).data (UART_SYSEX_BUFFER_SIZE + j) = b.data (UART_SYSEX_BUFFER_SIZE + j) := by
  unfold sysexAppend
  by_cases hlt : b.length < UART_SYSEX_BUFFER_SIZE
  · simp only [if_pos hlt]
    refine ⟨hlt, fun j => ?_⟩
    have hne : UART_SYSEX_BUFFER_SIZE + j ≠ b.length := by omega
    simp only [Function.update, hne, dite_false]
  · rw [if_neg hlt]
    exact ⟨h, fun _ => rfl⟩

theorem sysexFlushLoop_buffer (ok : Nat → Bool) (fuel offset : Nat) (s : UartRxState) :
    (sysexFlushLoop ok fuel offset s).uart_sysex_buffer = s.uart_sysex_buffer := by
  obtain ⟨q, n, e, h⟩ := sysexFlushLoop_frame ok fuel offset s
  rw [h]

theorem SendCompleteMessage_buffer (ok : Nat → Bool) (s : UartRxState) :
    (SendCompleteMessage ok s).uart_sysex_buffer = s.uart_sysex_buffer := by
  unfold SendCompleteMessage
  simp only [xQueueSend]
  generalize (if s.midi_running_status &&& MIDI_MESSAGE_TYPE_MASK = MIDI_PROGRAM_CHANGE
      ∨ s.midi_running_status &&& MIDI_MESSAGE_TYPE_MASK = MIDI_CHANNEL_PRESSURE
    then 2 else 3) = el
  by_cases hge : s.midi_msg_index ≥ el
  · simp only [if_pos hge]
    cases hok : ok s.sends
    · simp only [Bool.false_eq_true, if_false, incQueueFullErrors]
    · simp only [if_true]
  · simp only [if_neg hge]

/-- `ProcessMidiByte` keeps the accumulator within its array. -/
theorem ProcessMidiByte_bounds (ok : Nat → Bool) (s : UartRxState) (rx_byte : Nat)
    (h : s.uart_sysex_buffer.length ≤ UART_SYSEX_BUFFER_SIZE) :
    (ProcessMidiByte ok s rx_byte).uart_sysex_buffer.length ≤ UART_SYSEX_BUFFER_SIZE ∧
    ∀ j, (ProcessMidiByte ok s rx_byte).uart_sysex_buffer.data (UART_SYSEX_BUFFER_SIZE + j)
      = s.uart_sysex_buffer.data (UART_SYSEX_BUFFER_SIZE + j) := by
  have hinc : (incUartRxCount s).uart_sysex_buffer = s.uart_sysex_buffer := rfl
  rw [← hinc] at h ⊢
  unfold ProcessMidiByte
  simp only []
  generalize incUartRxCount s = t at h ⊢
  by_cases hst : rx_byte &&& 0x80 ≠ 0
  · simp only [if_pos hst]
    by_cases h0 : rx_byte = MIDI_SYSEX_START
    · simp only [if_pos h0]
      exact sysexAppend_bounds
        { t.uart_sysex_buffer with in_sysex := true, length := 0, overflow := false } _
        (Nat.zero_le _)
    · simp only [if_neg h0]
      by_cases h7 : rx_byte = MIDI_SYSEX_END
      · simp only [if_pos h7]
        by_cases hin : t.uart_sysex_buffer.in_sysex = true
        · simp only [if_pos hin]
          obtain ⟨a1, a2⟩ := sysexAppend_bounds t.uart_sysex_buffer rx_byte h
          by_cases hov : (!(sysexAppend t.uart_sysex_buffer rx_byte).overflow) = true
          · simp only [if_pos hov, sysexFlushLoop_buffer]
            exact ⟨Nat.zero_le _, a2⟩
          · simp only [if_neg hov]
            exact ⟨Nat.zero_le _, a2⟩
        · simp only [if_neg hin]
          exact ⟨Nat.zero_le _, fun _ => rfl⟩
      · simp only [if_neg h7]
        have hs1 : (if t.uart_sysex_buffer.in_sysex = true then
            { t with uart_sysex_buffer := sysexReset t.uart_sysex_buffer }
          else t).uart_sysex_buffer.length ≤ UART_SYSEX_BUFFER_SIZE ∧
          ∀ j, (if t.uart_sysex_buffer.in_sysex = true then
            { t with uart_sysex_buffer := sysexReset t.uart_sysex_buffer }
          else t).uart_sysex_buffer.data (UART_SYSEX_BUFFER_SIZE + j)
            = t.uart_sysex_buffer.data (UART_SYSEX_BUFFER_SIZE + j) := by
          split
          · exact ⟨Nat.zero_le _, fun _ => rfl⟩
          · exact ⟨h, fun _ => rfl⟩
        generalize (if t.uart_sysex_buffer.in_sysex = true then
            { t with uart_sysex_buffer := sysexReset t.uart_sysex_buffer }
          else t) = s1 at hs1 ⊢
        by_cases hrt : rx_byte ≥ 0xF8
        · simp only [if_pos hrt]
          by_cases ha : MIDI_FILTER_ACTIVE_SENSING ≠ 0 ∧ rx_byte = MIDI_ACTIVE_SENSING
          · simp only [if_pos ha]
            exact hs1
          · simp only [if_neg ha]
            by_cases hc : MIDI_FILTER_TIMING_CLOCK ≠ 0 ∧ rx_byte = MIDI_TIMING_CLOCK
            · simp only [if_pos hc]
              exact hs1
            · simp only [if_neg hc, xQueueSend]
              cases hok : ok s1.sends
              · simp only [Bool.false_eq_true, if_false, incQueueFullErrors]
                exact hs1
              · simp only [if_true]
                exact hs1
        · simp only [if_neg hrt]
          by_cases hsc : rx_byte ≥ 0xF0
          · simp only [if_pos hsc, MIDI_ResetRunningStatus]
            exact hs1
          · simp only [if_neg hsc]
            exact hs1
  · simp only [if_neg hst]
    by_cases hin : t.uart_sysex_buffer.in_sysex = true
    · simp only [if_pos hin]
      exact sysexAppend_bounds t.uart_sysex_buffer rx_byte h
    · simp only [if_neg hin]
      by_cases hrun : t.midi_running_status ≠ 0 ∧ t.midi_msg_index < 3
      · rw [if_pos hrun, SendCompleteMessage_buffer]
        exact ⟨h, fun _ => rfl⟩
      · rw [if_neg hrun]
        exact ⟨h, fun _ => rfl⟩

theorem feedBytes_bounds (ok : Nat → Bool) (bytes : List Nat) :
    ∀ s : UartRxState, s.uart_sysex_buffer.length ≤ UART_SYSEX_BUFFER_SIZE →
      (feedBytes ok s bytes).uart_sysex_buffer.length ≤ UART_SYSEX_BUFFER_SIZE ∧
      ∀ j, (feedBytes ok s bytes).uart_sysex_buffer.data (UART_SYSEX_BUFFER_SIZE + j)
        = s.uart_sysex_buffer.data (UART_SYSEX_BUFFER_SIZE + j) := by
  induction bytes with
  | nil => intro s h; exact ⟨h, fun _ => rfl⟩
  | cons b bs ih =>
    intro s h
    obtain ⟨a1, a2⟩ := ProcessMidiByte_bounds ok s b h
    obtain ⟨b1, b2⟩ := ih (ProcessMidiByte ok s b) a1
    exact ⟨b1, fun j => (b2 j).trans (a2 j)⟩

theorem usbSysexAppendBytes_bounds (skip_zero : Bool) (packet : Nat → Nat) (n : Nat)
    (b : UartSysexBuffer) (h : b.length ≤ UART_SYSEX_BUFFER_SIZE) :
    (usbSysexAppendBytes skip_zero packet n b).length ≤ UART_SYSEX_BUFFER_SIZE ∧
    ∀ j, (usbSysexAppendBytes skip_zero packet n b).data (UART_SYSEX_BUFFER_SIZE + j)
      = b.data (UART_SYSEX_BUFFER_SIZE + j) := by
  unfold usbSysexAppendBytes
  induction n with
  | zero => exact ⟨h, fun _ => rfl⟩
  | succ n ih =>
    obtain ⟨a1, a2⟩ := ih
    rw [List.range_succ, List.foldl_append]
    generalize (List.range n).foldl
      (fun acc i => if skip_zero ∧ packet (i + 1) = 0x00 then acc
        else sysexAppend acc (packet (i + 1))) b = acc at a1 a2 ⊢
    simp only [List.foldl_cons, List.foldl_nil]
    by_cases hz : skip_zero = true ∧ packet (n + 1) = 0x00
    · rw [if_pos hz]
      exact ⟨a1, a2⟩
    · rw [if_neg hz]
      obtain ⟨b1, b2⟩ := sysexAppend_bounds acc (packet (n + 1)) a1
      exact ⟨b1, fun j => (b2 j).trans (a2 j)⟩

theorem usbSysexFlushLoop_buffer (ok : Nat → Bool) (fuel : Nat) :
    ∀ (offset : Nat) (s : UsbRxState),
      (usbSysexFlushLoop ok fuel offset s).sysex_buffer = s.sysex_buffer := by
  induction fuel with
  | zero => intro offset s; rfl
  | succ fuel ih =>
    intro offset s
    rw [usbSysexFlushLoop]
    by_cases hlt : offset < s.sysex_buffer.length
    · simp only [if_pos hlt, usbQueueSend]
      cases hok : ok s.sends
      · simp only [Bool.false_eq_true, if_false, usbIncQueueFullErrors]
      · simp only [if_true]
        rw [ih]
        rfl
    · rw [if_neg hlt]

/-- The packet loop of `vUsbRxMidiTask` keeps the accumulator within its array. -/
theorem vUsbRxMidiTask_packet_bounds (ok : Nat → Bool) (s : UsbRxState) (usb_packet : List Nat)
    (h : s.sysex_buffer.length ≤ UART_SYSEX_BUFFER_SIZE) :
    (vUsbRxMidiTask_packet ok s usb_packet).sysex_buffer.length ≤ UART_SYSEX_BUFFER_SIZE ∧
    ∀ j, (vUsbRxMidiTask_packet ok s usb_packet).sysex_buffer.data (UART_SYSEX_BUFFER_SIZE + j)
      = s.sysex_buffer.data (UART_SYSEX_BUFFER_SIZE + j) := by
  unfold vUsbRxMidiTask_packet
  simp only []
  generalize (if (usb_packet.getD 0 0 &&& 0x0F) = USB_MIDI_CIN_2BYTE_SYSCOM
        ∨ (usb_packet.getD 0 0 &&& 0x0F) = USB_MIDI_CIN_PROG_CHANGE
        ∨ (usb_packet.getD 0 0 &&& 0x0F) = USB_MIDI_CIN_CHAN_PRESSURE then (2, false)
    else if (usb_packet.getD 0 0 &&& 0x0F) = USB_MIDI_CIN_3BYTE_SYSCOM
        ∨ (usb_packet.getD 0 0 &&& 0x0F) = USB_MIDI_CIN_NOTE_OFF
        ∨ (usb_packet.getD 0 0 &&& 0x0F) = USB_MIDI_CIN_NOTE_ON
        ∨ (usb_packet.getD 0 0 &&& 0x0F) = USB_MIDI_CIN_POLY_KEYPRESS
        ∨ (usb_packet.getD 0 0 &&& 0x0F) = USB_MIDI_CIN_CTRL_CHANGE
        ∨ (usb_packet.getD 0 0 &&& 0x0F) = USB_MIDI_CIN_PITCH_BEND then (3, false)
    else if (usb_packet.getD 0 0 &&& 0x0F) = USB_MIDI_CIN_1BYTE then
      if usb_packet.getD 1 0 = 0xF7 then (1, true) else (1, false)
    else if (usb_packet.getD 0 0 &&& 0x0F) = USB_MIDI_CIN_SYSEX_START then (3, true)
    else if (usb_packet.getD 0 0 &&& 0x0F) = USB_MIDI_CIN_SYSEX_END_2 then (2, true)
    else if (usb_packet.getD 0 0 &&& 0x0F) = USB_MIDI_CIN_SYSEX_END_3 then (3, true)
    else ((3 : Nat), false)) = sw
  by_cases hsx : sw.2 = true
  · simp only [if_pos hsx]
    by_cases hstart : (usb_packet.getD 0 0 &&& 0x0F) = USB_MIDI_CIN_SYSEX_START
    · simp only [if_pos hstart]
      by_cases hf0 : usb_packet.getD 1 0 = 0xF0
      · simp only [if_pos hf0]
        exact usbSysexAppendBytes_bounds false _ 3
          { s.sysex_buffer with length := 0, in_sysex := true, overflow := false }
          (Nat.zero_le _)
      · simp only [if_neg hf0]
        by_cases hin : s.sysex_buffer.in_sysex = true
        · simp only [if_pos hin]
          exact usbSysexAppendBytes_bounds true _ 3 s.sysex_buffer h
        · rw [if_neg hin]
          exact ⟨h, fun _ => rfl⟩
    · simp only [if_neg hstart]
      by_cases hend : ((usb_packet.getD 0 0 &&& 0x0F) = USB_MIDI_CIN_SYSEX_END_2
          ∨ (usb_packet.getD 0 0 &&& 0x0F) = USB_MIDI_CIN_SYSEX_END_3
          ∨ ((usb_packet.getD 0 0 &&& 0x0F) = USB_MIDI_CIN_1BYTE ∧ usb_packet.getD 1 0 = 0xF7))
          ∧ s.sysex_buffer.in_sysex = true
      · simp only [if_pos hend]
        obtain ⟨a1, a2⟩ := usbSysexAppendBytes_bounds true (fun i => usb_packet.getD i 0) sw.1
          s.sysex_buffer h
        refine ⟨Nat.zero_le _, ?_⟩
        intro j
        show (if _ then _ else _ : UsbRxState).sysex_buffer.data _ = _
        split
        · rw [usbSysexFlushLoop_buffer]
          exact a2 j
        · split
          · exact a2 j
          · exact a2 j
      · rw [if_neg hend]
        exact ⟨h, fun _ => rfl⟩
  · simp only [if_neg hsx]
    split
    · exact ⟨h, fun _ => rfl⟩
    · simp only [usbQueueSend]
      cases hok : ok s.sends
      · simp only [Bool.false_eq_true, if_false, usbIncQueueFullErrors]
        exact ⟨h, fun _ => trivial⟩
      · simp only [if_true, incUsbRxCount]
        exact ⟨h, fun _ => trivial⟩

theorem usbFeedPackets_bounds (ok : Nat → Bool) (packets : List (List Nat)) :
    ∀ s : UsbRxState, s.sysex_buffer.length ≤ UART_SYSEX_BUFFER_SIZE →
      (usbFeedPackets ok s packets).sysex_buffer.length ≤ UART_SYSEX_BUFFER_SIZE ∧
      ∀ j, (usbFeedPackets ok s packets).sysex_buffer.data (UART_SYSEX_BUFFER_SIZE + j)
        = s.sysex_buffer.data (UART_SYSEX_BUFFER_SIZE + j) := by
  induction packets with
  | nil => intro s h; exact ⟨h, fun _ => rfl⟩
  | cons p ps ih =>
    intro s h
    obtain ⟨a1, a2⟩ := vUsbRxMidiTask_packet_bounds ok s p h
    obtain ⟨b1, b2⟩ := ih (vUsbRxMidiTask_packet ok s p) a1
    exact ⟨b1, fun j => (b2 j).trans (a2 j)⟩

/-- The copy loops write from `sysex_length` on, at most `min num_bytes 6` bytes. -/
theorem umpSysexCopy_range (keep : UmpDiscoveryState → Nat → Bool) (data : Nat → Nat)
    (n : Nat) (s : UmpDiscoveryState) :
    (umpSysexCopy keep data n s).sysex_length ≤ s.sysex_length + min n 6 ∧
    ∀ j, s.sysex_length + min n 6 ≤ j →
      (umpSysexCopy keep data n s).sysex_buffer j = s.sysex_buffer j := by
  unfold umpSysexCopy
  generalize min n 6 = m
  induction m with
  | zero => exact ⟨Nat.le_refl _, fun _ _ => rfl⟩
  | succ m ih =>
    obtain ⟨h1, h2⟩ := ih
    rw [List.range_succ, List.foldl_append]
    generalize (List.range m).foldl
      (fun acc i => if keep acc (data i) then umpSysexPush acc (data i) else acc) s = acc
      at h1 h2 ⊢
    simp only [List.foldl_cons, List.foldl_nil]
    by_cases hk : keep acc (data m) = true
    · rw [if_pos hk]
      refine ⟨by show acc.sysex_length + 1 ≤ _; omega, ?_⟩
      intro j hj
      have hne : j ≠ acc.sysex_length := by omega
      show Function.update acc.sysex_buffer acc.sysex_length (data m) j = _
      simp only [Function.update, hne, dite_false]
      exact h2 j (by omega)
    · rw [if_neg hk]
      exact ⟨by omega, fun j hj => h2 j (by omega)⟩

/-- The guarded copy loops stay within the buffer. -/
theorem umpSysexCopy_guarded (keep : UmpDiscoveryState → Nat → Bool) (data : Nat → Nat)
    (n : Nat) (s : UmpDiscoveryState) (hle : s.sysex_length ≤ UMP_SYSEX_BUFFER_SIZE)
    (hkeep : ∀ (acc : UmpDiscoveryState) (b : Nat), keep acc b = true →
      acc.sysex_length < UMP_SYSEX_BUFFER_SIZE) :
    (umpSysexCopy keep data n s).sysex_length ≤ UMP_SYSEX_BUFFER_SIZE ∧
    ∀ j, (umpSysexCopy keep data n s).sysex_buffer (UMP_SYSEX_BUFFER_SIZE + j)
      = s.sysex_buffer (UMP_SYSEX_BUFFER_SIZE + j) := by
  unfold umpSysexCopy
  generalize min n 6 = m
  induction m with
  | zero => exact ⟨hle, fun _ => rfl⟩
  | succ m ih =>
    obtain ⟨h1, h2⟩ := ih
    rw [List.range_succ, List.foldl_append]
    generalize (List.range m).foldl
      (fun acc i => if keep acc (data i) then umpSysexPush acc (data i) else acc) s = acc
      at h1 h2 ⊢
    simp only [List.foldl_cons, List.foldl_nil]
    by_cases hk : keep acc (data m) = true
    · rw [if_pos hk]
      have hlt := hkeep acc (data m) hk
      refine ⟨hlt, ?_⟩
      intro j
      have hne : UMP_SYSEX_BUFFER_SIZE + j ≠ acc.sysex_length := by omega
      show Function.update acc.sysex_buffer acc.sysex_length (data m) _ = _
      simp only [Function.update, hne, dite_false]
      exact h2 j
    · rw [if_neg hk]
      exact ⟨h1, h2⟩

/-- With at most 6 bytes stored the MIDI-CI block of a Complete message does nothing. -/
theorem UMP_ProcessDataMessage_ci_complete_short (tick : Nat) (s : UmpDiscoveryState)
    (h : s.sysex_length ≤ 6) : UMP_ProcessDataMessage_ci_complete tick s = some s := by
  unfold UMP_ProcessDataMessage_ci_complete
  have h17 : ¬ s.sysex_length ≥ 17 := by omega
  have h13 : ¬ s.sysex_length ≥ 13 := by omega
  simp only [h17, h13, and_false, if_false]
  split
  · split <;> rfl
  · rfl

/-- `UMP_ProcessDataMessage` returns on every input and keeps the reassembly within its
buffer. -/
theorem UMP_ProcessDataMessage_bounds (tick : Nat) (s : UmpDiscoveryState)
    (ump_data : List Nat) (word_count : Nat) (h : s.sysex_length ≤ UMP_SYSEX_BUFFER_SIZE) :
    ∃ r, UMP_ProcessDataMessage tick s ump_data word_count = some r ∧
      r.sysex_length ≤ UMP_SYSEX_BUFFER_SIZE ∧
      ∀ j, r.sysex_buffer (UMP_SYSEX_BUFFER_SIZE + j)
        = s.sysex_buffer (UMP_SYSEX_BUFFER_SIZE + j) := by
  have hB : UMP_SYSEX_BUFFER_SIZE = 256 := rfl
  unfold UMP_ProcessDataMessage
  by_cases hwc : word_count < 2
  · rw [if_pos hwc]
    exact ⟨s, rfl, h, fun _ => rfl⟩
  · rw [if_neg hwc]
    simp only []
    by_cases hmt : (ump_data.getD 0 0 >>> 28) &&& 0xF ≠ 0x3
    · rw [if_pos hmt]
      exact ⟨s, rfl, h, fun _ => rfl⟩
    · rw [if_neg hmt]
      generalize (ump_data.getD 0 0 >>> 20) &&& 0xF = status
      generalize (ump_data.getD 0 0 >>> 16) &&& 0xF = num_bytes
      generalize (fun i => [(ump_data.getD 0 0 >>> 8) &&& 0xFF, ump_data.getD 0 0 &&& 0xFF,
        (ump_data.getD 1 0 >>> 24) &&& 0xFF, (ump_data.getD 1 0 >>> 16) &&& 0xFF,
        (ump_data.getD 1 0 >>> 8) &&& 0xFF, ump_data.getD 1 0 &&& 0xFF].getD i 0) = data
      by_cases h0 : status = 0
      · rw [if_pos h0]
        obtain ⟨a1, a2⟩ := umpSysexCopy_range (fun _ b => decide (b ≠ 0xF7)) data num_bytes
          { s with sysex_length := 0, sysex_in_progress := false }
        have a1' : (umpSysexCopy (fun _ b => decide (b ≠ 0xF7)) data num_bytes
            { s with sysex_length := 0, sysex_in_progress := false }).sysex_length ≤ 6 := by
          have : (0 : Nat) + min num_bytes 6 ≤ 6 := by omega
          exact Nat.le_trans a1 this
        rw [UMP_ProcessDataMessage_ci_complete_short tick _ a1']
        refine ⟨_, rfl, by omega, fun j => a2 _ ?_⟩
        show 0 + min num_bytes 6 ≤ UMP_SYSEX_BUFFER_SIZE + j
        omega
      · rw [if_neg h0]
        by_cases h1 : status = 1
        · rw [if_pos h1]
          obtain ⟨a1, a2⟩ := umpSysexCopy_range (fun _ _ => true) data num_bytes
            { s with sysex_length := 0, sysex_in_progress := true }
          have a1' : (umpSysexCopy (fun _ _ => true) data num_bytes
              { s with sysex_length := 0, sysex_in_progress := true }).sysex_length ≤ 6 := by
            have : (0 : Nat) + min num_bytes 6 ≤ 6 := by omega
            exact Nat.le_trans a1 this
          refine ⟨_, rfl, by omega, fun j => a2 _ ?_⟩
          show 0 + min num_bytes 6 ≤ UMP_SYSEX_BUFFER_SIZE + j
          omega
        · rw [if_neg h1]
          by_cases h2 : status = 2
          · rw [if_pos h2]
            by_cases hc : s.sysex_in_progress = true ∧ s.sysex_length < UMP_SYSEX_BUFFER_SIZE
            · rw [if_pos hc]
              obtain ⟨a1, a2⟩ := umpSysexCopy_guarded
                (fun acc _ => decide (acc.sysex_length < UMP_SYSEX_BUFFER_SIZE)) data num_bytes
                s h (fun acc _ hk => of_decide_eq_true hk)
              exact ⟨_, rfl, a1, a2⟩
            · rw [if_neg hc]
              exact ⟨s, rfl, h, fun _ => rfl⟩
          · rw [if_neg h2]
            by_cases h3 : status = 3
            · rw [if_pos h3]
              by_cases hp : s.sysex_in_progress = true
              · rw [if_pos hp]
                obtain ⟨a1, a2⟩ := umpSysexCopy_guarded
                  (fun acc b => decide (b ≠ 0xF7 ∧ acc.sysex_length < UMP_SYSEX_BUFFER_SIZE))
                  data num_bytes s h (fun acc _ hk => (of_decide_eq_true hk).2)
                obtain ⟨r, e1, e2, e3, -⟩ := UMP_ProcessDataMessage_ci_end_frame tick
                  (umpSysexCopy
                    (fun acc b => decide (b ≠ 0xF7 ∧ acc.sysex_length < UMP_SYSEX_BUFFER_SIZE))
                    data num_bytes s)
                rw [e1]
                refine ⟨_, rfl, ?_, ?_⟩
                · show r.sysex_length ≤ _
                  rw [e3]
                  exact a1
                · intro j
                  show r.sysex_buffer _ = _
                  rw [e2]
                  exact a2 j
              · rw [if_neg hp]
                exact ⟨s, rfl, h, fun _ => rfl⟩
            · rw [if_neg h3]
              exact ⟨s, rfl, h, fun _ => rfl⟩

theorem umpFeedDataMessages_bounds (msgs : List (List Nat)) :
    ∀ (ticks : Nat → Nat) (s : UmpDiscoveryState),
      s.sysex_length ≤ UMP_SYSEX_BUFFER_SIZE →
      ∃ r, umpFeedDataMessages ticks s msgs = some r ∧
        r.sysex_length ≤ UMP_SYSEX_BUFFER_SIZE ∧
        ∀ j, r.sysex_buffer (UMP_SYSEX_BUFFER_SIZE + j)
          = s.sysex_buffer (UMP_SYSEX_BUFFER_SIZE + j) := by
  induction msgs with
  | nil => intro ticks s h; exact ⟨s, rfl, h, fun _ => rfl⟩
  | cons m ms ih =>
    intro ticks s h
    obtain ⟨r, e1, e2, e3⟩ := UMP_ProcessDataMessage_bounds (ticks 0) s m
      (GetUmpWordCount (m.getD 0 0)) h
    obtain ⟨r2, f1, f2, f3⟩ := ih (fun k => ticks (k + 1)) r e2
    refine ⟨r2, ?_, f2, fun j => (f3 j).trans (e3 j)⟩
    simp only [umpFeedDataMessages, e1, Option.some_bind]
    exact f1

/-- C34: after any bytes given to `ProcessMidiByte`, any packets given to the packet loop
of `vUsbRxMidiTask` and any Data Messages given to `UMP_ProcessDataMessage`, whatever the
outcomes of the sends, from the state after start-up: the UART accumulator and the USB
accumulator have a length of at most 1024 and the UMP reassembly buffer a `sysex_length`
of at most 256, and no write went beyond the array: every cell from index 1024, or 256,
on still holds its start-up value 0. -/
theorem C34_accumulator_bounds (ok : Nat → Bool) (bytes : List Nat)
    (packets : List (List Nat)) (ticks : Nat → Nat) (msgs : List (List Nat)) (j : Nat) :
    (feedBytes ok initialState bytes).uart_sysex_buffer.length ≤ 1024 ∧
    (feedBytes ok initialState bytes).uart_sysex_buffer.data (1024 + j) = 0 ∧
    (usbFeedPackets ok usbInitialState packets).sysex_buffer.length ≤ 1024 ∧
    (usbFeedPackets ok usbInitialState packets).sysex_buffer.data (1024 + j) = 0 ∧
    (∃ r, umpFeedDataMessages ticks umpInitialState msgs = some r ∧
      r.sysex_length ≤ 256 ∧ r.sysex_buffer (256 + j) = 0) ∧
    UART_SYSEX_BUFFER_SIZE = 1024 ∧ UMP_SYSEX_BUFFER_SIZE = 256 := by
  obtain ⟨a1, a2⟩ := feedBytes_bounds ok bytes initialState (by decide)
  obtain ⟨b1, b2⟩ := usbFeedPackets_bounds ok packets usbInitialState (by decide)
  obtain ⟨r, c1, c2, c3⟩ := umpFeedDataMessages_bounds msgs ticks umpInitialState (by decide)
  exact ⟨a1, a2 j, b1, b2 j, ⟨r, c1, c2, c3 j⟩, rfl, rfl⟩

/-! ## C35: the Discovery Reply and the transmit queue -/

theorem xUmpTxQueue_after_append (a b : List UmpTxEvent) :
    ∀ q, xUmpTxQueue_after q (a ++ b) = xUmpTxQueue_after (xUmpTxQueue_after q a) b := by
  induction a with
  | nil => intro q; rfl
  | cons e a ih =>
    intro q
    cases e with
    | reset =>
      show xUmpTxQueue_after [] (a ++ b) = xUmpTxQueue_after (xUmpTxQueue_after [] a) b
      exact ih []
    | send w =>
      show xUmpTxQueue_after (if q.length < UMP_QUEUE_LENGTH then q ++ [w] else q) (a ++ b)
        = xUmpTxQueue_after
            (xUmpTxQueue_after (if q.length < UMP_QUEUE_LENGTH then q ++ [w] else q) a) b
      exact ih _

theorem xUmpTxQueue_after_sends (msgs : List (List Nat)) :
    ∀ q, q.length + msgs.length ≤ UMP_QUEUE_LENGTH →
      xUmpTxQueue_after q (msgs.map UmpTxEvent.send) = q ++ msgs := by
  induction msgs with
  | nil => intro q _; simp [xUmpTxQueue_after]
  | cons m msgs ih =>
    intro q h
    simp only [List.length_cons] at h
    have hq : q.length < UMP_QUEUE_LENGTH := by omega
    simp only [List.map_cons, xUmpTxQueue_after, hq, if_true]
    rw [ih (q ++ [m]) (by simp only [List.length_append, List.length_singleton]; omega)]
    simp

/-- The Data Messages of a Discovery Reply: Start, four Continue, End. -/
theorem SendSysExAsUMP_reply_statuses (m d : Nat) :
    ∃ msgs, SendSysExAsUMP (discoveryReplySysex m d) 33 = some msgs ∧ msgs.length = 6 ∧
      msgs.map (fun w => (w.getD 0 0 >>> 20) &&& 0xF) = [1, 2, 2, 2, 2, 3] := by
  have hp : ∀ b ∈ [0x7E, 0x7F, 0x0D, 0x71, 0x02] ++ muidFields m ++ muidFields d
      ++ [0x7D, 0x00, 0x00] ++ [0x01, 0x00] ++ [0x01, 0x00] ++ [0x01, 0x00, 0x00, 0x00]
      ++ [0x01] ++ [0x00, 0x02, 0x00, 0x00] ++ [0x00] ++ [0x00], b < 0x80 := by
    repeat' apply forall_mem_append_lt
    all_goals first
      | exact muidFields_lt _
      | decide
  have h := SendSysExAsUMP_frame _ hp
  refine ⟨_, h, by simp [muidFields, sysex7Count], ?_⟩
  have hlen : ([0x7E, 0x7F, 0x0D, 0x71, 0x02] ++ muidFields m ++ muidFields d
      ++ [0x7D, 0x00, 0x00] ++ [0x01, 0x00] ++ [0x01, 0x00] ++ [0x01, 0x00, 0x00, 0x00]
      ++ [0x01] ++ [0x00, 0x02, 0x00, 0x00] ++ [0x00] ++ [0x00]).length = 31 := by
    simp [muidFields]
  generalize [0x7E, 0x7F, 0x0D, 0x71, 0x02] ++ muidFields m ++ muidFields d
      ++ [0x7D, 0x00, 0x00] ++ [0x01, 0x00] ++ [0x01, 0x00] ++ [0x01, 0x00, 0x00, 0x00]
      ++ [0x01] ++ [0x00, 0x02, 0x00, 0x00] ++ [0x00] ++ [0x00] = p at hp hlen
  have hst : (List.range (sysex7Count p.length)).map (fun i =>
        ((sysex7Message (sysex7Status p.length i) ((p.drop (6 * i)).take 6)).getD 0 0 >>> 20)
          &&& 0xF)
      = (List.range (sysex7Count p.length)).map (fun i => sysex7Status p.length i) := by
    apply List.map_congr_left
    intro i _
    exact (sysex7Message_decode (sysex7Status p.length i) ((p.drop (6 * i)).take 6)
      (sysex7Status_lt _ _) (by simp only [List.length_take]; omega)
      (chunk_mem_lt p hp _ _)).2.1
  rw [List.map_map]
  show (List.range (sysex7Count p.length)).map (fun i =>
        ((sysex7Message (sysex7Status p.length i) ((p.drop (6 * i)).take 6)).getD 0 0 >>> 20)
          &&& 0xF) = _
  rw [hst, hlen]
  decide

/-- C35: `MIDICI_SendDiscoveryReply(d)`, from every state and so after every earlier
traffic, calls `xQueueReset` and then `xQueueSendToBack` with the six Data Messages of the
reply, Start, four Continue, End. On a queue of 16 places from which nothing is taken out
meanwhile, whatever it held before, the queue holds after the call exactly these six
messages, in order. -/
theorem C35_discovery_reply_goes_first (s : UmpDiscoveryState) (d : Nat)
    (q : List (List Nat)) :
    ∃ msgs s1,
      SendSysExAsUMP (discoveryReplySysex s.device_muid d) 33 = some msgs ∧
      MIDICI_SendDiscoveryReply s d = some s1 ∧
      s1.tx = s.tx ++ UmpTxEvent.reset :: msgs.map UmpTxEvent.send ∧
      xUmpTxQueue_after q (UmpTxEvent.reset :: msgs.map UmpTxEvent.send) = msgs ∧
      xUmpTxQueue_after q s1.tx = msgs ∧
      msgs.length = 6 ∧
      msgs.map (fun w => (w.getD 0 0 >>> 20) &&& 0xF) = [1, 2, 2, 2, 2, 3] ∧
      (discoveryReplySysex s.device_muid d).length = 31 + 2 ∧
      UMP_QUEUE_LENGTH = 16 := by
  obtain ⟨msgs, hmsgs, hl, hst⟩ := SendSysExAsUMP_reply_statuses s.device_muid d
  have hstep : MIDICI_SendDiscoveryReply s d
      = some { s with
          tx := s.tx ++ [UmpTxEvent.reset] ++ msgs.map UmpTxEvent.send
          discovery_reply_sent := true } := by
    rw [MIDICI_SendDiscoveryReply_eq, hmsgs]
    rfl
  have hq : xUmpTxQueue_after q (UmpTxEvent.reset :: msgs.map UmpTxEvent.send) = msgs := by
    simp only [xUmpTxQueue_after]
    rw [xUmpTxQueue_after_sends msgs [] (by rw [hl]; decide)]
    rfl
  refine ⟨msgs, _, hmsgs, hstep, ?_, hq, ?_, hl, hst, rfl, rfl⟩
  · show s.tx ++ [UmpTxEvent.reset] ++ msgs.map UmpTxEvent.send = _
    simp
  · show xUmpTxQueue_after q (s.tx ++ [UmpTxEvent.reset] ++ msgs.map UmpTxEvent.send) = _
    rw [List.append_assoc, xUmpTxQueue_after_append]
    exact hq

/-! ## C36: a SysEx End outside a SysEx -/

/-- C36 at the failing input: after `90 3C`, with no SysEx open, the byte 0xF7 enqueues
nothing and keeps the running status and the message buffer, but sets `midi_msg_index`
from 2 to 0; the data byte 0x7F that follows does not complete `{90, 3C, 7F}`, nothing is
enqueued, and it is stored in place of the status, so that two more data bytes are sent
as the message `{7F, 40, 41}`. Without the 0xF7 the message `{90, 3C, 7F}` is sent. -/
theorem C36_stray_sysex_end_resets_index :
    (feedBytes allSendsOk initialState [0x90, 0x3C]).midi_msg_index = 2 ∧
    (feedBytes allSendsOk initialState [0x90, 0x3C]).uart_sysex_buffer.in_sysex = false ∧
    (feedBytes allSendsOk initialState [0x90, 0x3C, 0xF7]).midi_msg_index = 0 ∧
    (feedBytes allSendsOk initialState [0x90, 0x3C, 0xF7]).midi_running_status = 0x90 ∧
    (feedBytes allSendsOk initialState [0x90, 0x3C, 0xF7]).queue = [] ∧
    (feedBytes allSendsOk initialState [0x90, 0x3C, 0xF7, 0x7F]).queue = [] ∧
    (feedBytes allSendsOk initialState [0x90, 0x3C, 0xF7, 0x7F, 0x40, 0x41]).queue
      = [⟨[0x7F, 0x40, 0x41], 3⟩] ∧
    (feedBytes allSendsOk initialState [0x90, 0x3C, 0x7F]).queue = [⟨[0x90, 0x3C, 0x7F], 3⟩] := by
  decide

/-! ## C38, C39: the MIDI 2.0 tasks -/

/-- C38 at the failing input: the SysEx `F0 01 02 F7` is flushed by `ProcessMidiByte` as
the chunks `{F0, 01, 02}` and `{F7}`; `vMidi2UartToUmpTask` passes the three bytes of the
first to `midi2_bs_to_ump_process_byte` and none of the second, a packet of length 1 whose
byte is below 0xF8: the converter gets `F0 01 02` and never the 0xF7. The SysEx
`F0 01 F7`, one chunk of length 3, is passed whole. -/
theorem C38_sysex_end_chunk_is_dropped :
    (feedBytes allSendsOk initialState [0xF0, 0x01, 0x02, 0xF7]).queue
      = [⟨[0xF0, 0x01, 0x02], 3⟩, ⟨[0xF7], 1⟩] ∧
    vMidi2UartToUmpTask_bytes ⟨[0xF7], 1⟩ = [] ∧
    ((feedBytes allSendsOk initialState [0xF0, 0x01, 0x02, 0xF7]).queue.map
        vMidi2UartToUmpTask_bytes).flatten = [0xF0, 0x01, 0x02] ∧
    ((feedBytes allSendsOk initialState [0xF0, 0x01, 0x02, 0x03, 0x04, 0x05, 0xF7]).queue.map
        vMidi2UartToUmpTask_bytes).flatten = [0xF0, 0x01, 0x02, 0x03, 0x04, 0x05] ∧
    ((feedBytes allSendsOk initialState [0xF0, 0x01, 0xF7]).queue.map
        vMidi2UartToUmpTask_bytes).flatten = [0xF0, 0x01, 0xF7] := by
  decide

/-- C39 at the failing inputs: the MIDI 2.0 Control Change `40B00700 00000000` (controller
7, value 0) has Message Type 4 and two words, and `vUsbToUmpTask` forwards the buffer
`{40B00700, 00000000, 0, 0}`; `vMidi2UmpToUartTask` passes only `40B00700` to
`midi2_ump_to_midi1_process`, the second word being zero. For the one-word message
`20903C7F` in a buffer that still holds `12345678` from an earlier read, it passes both
words. -/
theorem C39_zero_words_are_skipped :
    GetUmpWordCount 0x40B00700 = 2 ∧
    vUsbToUmpTask_forward [0x40B00700, 0x00000000, 0, 0]
      = some [0x40B00700, 0x00000000, 0, 0] ∧
    vMidi2UmpToUartTask_words [0x40B00700, 0x00000000, 0, 0] = [0x40B00700] ∧
    [0x40B00700, 0x00000000, 0, 0].take (GetUmpWordCount 0x40B00700)
      = [0x40B00700, 0x00000000] ∧
    GetUmpWordCount 0x20903C7F = 1 ∧
    vUsbToUmpTask_forward [0x20903C7F, 0x12345678, 0, 0]
      = some [0x20903C7F, 0x12345678, 0, 0] ∧
    vMidi2UmpToUartTask_words [0x20903C7F, 0x12345678, 0, 0] = [0x20903C7F, 0x12345678] := by
  decide

/-! ## C40: a flush under back-pressure -/

theorem chunk3_range_step (f : Nat → Nat) (len offset : Nat) (h : offset < len) :
    chunk3 ((List.range (len - offset)).map (fun i => f (offset + i)))
      = ⟨(List.range (if len - offset > 3 then 3 else len - offset)).map
            (fun i => f (offset + i)),
          if len - offset > 3 then 3 else len - offset⟩
        :: chunk3 ((List.range
            (len - (offset + if len - offset > 3 then 3 else len - offset))).map
            (fun i => f (offset + (if len - offset > 3 then 3 else len - offset) + i))) := by
  obtain ⟨m, hm⟩ : ∃ m, len - offset = m := ⟨_, rfl⟩
  rcases m with _ | _ | _ | k
  · omega
  · have hnext : len - (offset + 1) = 0 := by omega
    simp [hm, hnext, chunk3, List.range_succ]
  · have hnext : len - (offset + 2) = 0 := by omega
    simp [hm, hnext, chunk3, List.range_succ]
  · have hnext : len - (offset + 3) = k := by omega
    have hchunk : (if k + 1 + 1 + 1 > 3 then 3 else k + 1 + 1 + 1) = 3 := by
      split <;> omega
    rw [hm, hchunk, hnext, map_range_three_first, map_range_three]
    simp [chunk3]

theorem take_sendsBeforeFailure_sent (ok : Nat → Bool) (start : Nat) (c : MIDIPacket_t)
    (cs : List MIDIPacket_t) (h : ok start = true) :
    (c :: cs).take (sendsBeforeFailure ok start (c :: cs).length)
      = c :: cs.take (sendsBeforeFailure ok (start + 1) cs.length) := by
  simp [sendsBeforeFailure, h]

theorem take_sendsBeforeFailure_failed (ok : Nat → Bool) (start : Nat) (c : MIDIPacket_t)
    (cs : List MIDIPacket_t) (h : ok start = false) :
    (c :: cs).take (sendsBeforeFailure ok start (c :: cs).length) = [] := by
  simp [sendsBeforeFailure, h]

/-- The value of `sendsBeforeFailure` is the place of the first send that fails. -/
theorem sendsBeforeFailure_first (ok : Nat → Bool) (n : Nat) :
    ∀ start, sendsBeforeFailure ok start n ≤ n ∧
      (∀ k, k < sendsBeforeFailure ok start n → ok (start + k) = true) ∧
      (sendsBeforeFailure ok start n < n →
        ok (start + sendsBeforeFailure ok start n) = false) := by
  induction n with
  | zero =>
    intro start
    exact ⟨Nat.le_refl _, fun k hk => absurd hk (Nat.not_lt_zero _),
      fun h => absurd h (Nat.lt_irrefl _)⟩
  | succ n ih =>
    intro start
    obtain ⟨a1, a2, a3⟩ := ih (start + 1)
    unfold sendsBeforeFailure
    by_cases h0 : ok start = true
    · rw [if_pos h0]
      refine ⟨Nat.succ_le_succ a1, ?_, ?_⟩
      · intro k hk
        rcases k with _ | k
        · exact h0
        · have := a2 k (by omega)
          rwa [Nat.add_assoc, Nat.add_comm 1 k] at this
      · intro hlt
        have := a3 (by omega)
        rwa [Nat.add_assoc, Nat.add_comm 1 _] at this
    · rw [if_neg h0]
      refine ⟨Nat.zero_le _, fun k hk => absurd hk (Nat.not_lt_zero _), fun _ => ?_⟩
      simpa using h0

/-- The flush loop of `ProcessMidiByte` enqueues the chunks up to the first send that
fails. -/
theorem sysexFlushLoop_leading (ok : Nat → Bool) (fuel : Nat) :
    ∀ (offset : Nat) (s : UartRxState), s.uart_sysex_buffer.length - offset ≤ fuel →
      (sysexFlushLoop ok fuel offset s).queue
        = s.queue ++
          (chunk3 ((List.range (s.uart_sysex_buffer.length - offset)).map
            (fun i => s.uart_sysex_buffer.data (offset + i)))).take
            (sendsBeforeFailure ok s.sends
              (chunk3 ((List.range (s.uart_sysex_buffer.length - offset)).map
                (fun i => s.uart_sysex_buffer.data (offset + i)))).length) := by
  induction fuel with
  | zero =>
    intro offset s h
    have h0 : s.uart_sysex_buffer.length - offset = 0 := by omega
    simp [sysexFlushLoop, h0, chunk3]
  | succ fuel ih =>
    intro offset s h
    by_cases hlt : offset < s.uart_sysex_buffer.length
    · rw [chunk3_range_step s.uart_sysex_buffer.data _ _ hlt, sysexFlushLoop]
      simp only [if_pos hlt, xQueueSend]
      generalize hcs : (if s.uart_sysex_buffer.length - offset > 3 then 3
        else s.uart_sysex_buffer.length - offset) = cs
      have hcs1 : 1 ≤ cs := by rw [← hcs]; split <;> omega
      cases hok : ok s.sends
      · rw [take_sendsBeforeFailure_failed ok _ _ _ hok]
        simp [incQueueFullErrors]
      · rw [take_sendsBeforeFailure_sent ok _ _ _ hok]
        simp only [if_true]
        rw [ih (offset + cs) _ (by show s.uart_sysex_buffer.length - (offset + cs) ≤ fuel; omega)]
        simp only [List.append_assoc, List.singleton_append]
    · have h0 : s.uart_sysex_buffer.length - offset = 0 := by omega
      rw [sysexFlushLoop_done ok _ _ _ hlt]
      simp [h0, chunk3]

theorem usbSysexFlushLoop_done (ok : Nat → Bool) (fuel offset : Nat) (s : UsbRxState)
    (h : ¬ offset < s.sysex_buffer.length) : usbSysexFlushLoop ok fuel offset s = s := by
  cases fuel <;> simp [usbSysexFlushLoop, h]

/-- The flush loop of `vUsbRxMidiTask` enqueues the chunks up to the first send that
fails. -/
theorem usbSysexFlushLoop_leading (ok : Nat → Bool) (fuel : Nat) :
    ∀ (offset : Nat) (s : UsbRxState), s.sysex_buffer.length - offset ≤ fuel →
      (usbSysexFlushLoop ok fuel offset s).queue
        = s.queue ++
          (chunk3 ((List.range (s.sysex_buffer.length - offset)).map
            (fun i => s.sysex_buffer.data (offset + i)))).take
            (sendsBeforeFailure ok s.sends
              (chunk3 ((List.range (s.sysex_buffer.length - offset)).map
                (fun i => s.sysex_buffer.data (offset + i)))).length) := by
  induction fuel with
  | zero =>
    intro offset s h
    have h0 : s.sysex_buffer.length - offset = 0 := by omega
    simp [usbSysexFlushLoop, h0, chunk3]
  | succ fuel ih =>
    intro offset s h
    by_cases hlt : offset < s.sysex_buffer.length
    · rw [chunk3_range_step s.sysex_buffer.data _ _ hlt, usbSysexFlushLoop]
      simp only [if_pos hlt, usbQueueSend]
      generalize hcs : (if s.sysex_buffer.length - offset > 3 then 3
        else s.sysex_buffer.length - offset) = cs
      have hcs1 : 1 ≤ cs := by rw [← hcs]; split <;> omega
      cases hok : ok s.sends
      · rw [take_sendsBeforeFailure_failed ok _ _ _ hok]
        simp [usbIncQueueFullErrors]
      · rw [take_sendsBeforeFailure_sent ok _ _ _ hok]
        simp only [if_true]
        rw [ih (offset + cs) _ (by show s.sysex_buffer.length - (offset + cs) ≤ fuel; omega)]
        simp only [incUsbRxCount, List.append_assoc, List.singleton_append]
    · have h0 : s.sysex_buffer.length - offset = 0 := by omega
      rw [usbSysexFlushLoop_done ok _ _ _ hlt]
      simp [h0, chunk3]

theorem sysexFlushLoop_leading_queue (ok : Nat → Bool) (s : UartRxState) :
    (sysexFlushLoop ok s.uart_sysex_buffer.length 0 s).queue
      = s.queue ++
        (chunk3 ((List.range s.uart_sysex_buffer.length).map s.uart_sysex_buffer.data)).take
          (sendsBeforeFailure ok s.sends
            (chunk3 ((List.range s.uart_sysex_buffer.length).map
              s.uart_sysex_buffer.data)).length) := by
  rw [sysexFlushLoop_leading ok _ 0 s (Nat.sub_le _ _)]
  simp

theorem usbSysexFlushLoop_leading_queue (ok : Nat → Bool) (s : UsbRxState) :
    (usbSysexFlushLoop ok s.sysex_buffer.length 0 s).queue
      = s.queue ++
        (chunk3 ((List.range s.sysex_buffer.length).map s.sysex_buffer.data)).take
          (sendsBeforeFailure ok s.sends
            (chunk3 ((List.range s.sysex_buffer.length).map s.sysex_buffer.data)).length) := by
  rw [usbSysexFlushLoop_leading ok _ 0 s (Nat.sub_le _ _)]
  simp

theorem pmb_sysex_end_leading (ok : Nat → Bool) (s : UartRxState)
    (hsx : s.uart_sysex_buffer.in_sysex = true)
    (hlen : s.uart_sysex_buffer.length < UART_SYSEX_BUFFER_SIZE)
    (hov : s.uart_sysex_buffer.overflow = false) :
    (ProcessMidiByte ok s 0xF7).queue
      = s.queue ++
        (chunk3 ((List.range (s.uart_sysex_buffer.length + 1)).map
          (Function.update s.uart_sysex_buffer.data s.uart_sysex_buffer.length 0xF7))).take
          (sendsBeforeFailure ok s.sends
            (chunk3 ((List.range (s.uart_sysex_buffer.length + 1)).map
              (Function.update s.uart_sysex_buffer.data
                s.uart_sysex_buffer.length 0xF7))).length) := by
  unfold ProcessMidiByte
  simp [MIDI_SYSEX_START, MIDI_SYSEX_END, sysexAppend, hlen, hsx, hov, incUartRxCount]
  exact sysexFlushLoop_leading_queue ok ⟨_, _, _, ⟨_, _, _, _⟩, _, _, _⟩

theorem usb_sysex_end_leading (ok : Nat → Bool) (u : UsbRxState) (usb_packet : List Nat)
    (n : Nat)
    (hcin : (usb_packet.getD 0 0 &&& 0x0F = USB_MIDI_CIN_SYSEX_END_2 ∧ n = 2)
      ∨ (usb_packet.getD 0 0 &&& 0x0F = USB_MIDI_CIN_SYSEX_END_3 ∧ n = 3)
      ∨ (usb_packet.getD 0 0 &&& 0x0F = USB_MIDI_CIN_1BYTE ∧ usb_packet.getD 1 0 = 0xF7
          ∧ n = 1))
    (husx : u.sysex_buffer.in_sysex = true)
    (hulen : 0 < (usbSysexAppendBytes true (fun i => usb_packet.getD i 0) n
      u.sysex_buffer).length)
    (huov : (usbSysexAppendBytes true (fun i => usb_packet.getD i 0) n
      u.sysex_buffer).overflow = false) :
    (vUsbRxMidiTask_packet ok u usb_packet).queue
      = u.queue ++
        (chunk3 ((List.range (usbSysexAppendBytes true (fun i => usb_packet.getD i 0) n
            u.sysex_buffer).length).map
          (usbSysexAppendBytes true (fun i => usb_packet.getD i 0) n u.sysex_buffer).data)).take
          (sendsBeforeFailure ok u.sends
            (chunk3 ((List.range (usbSysexAppendBytes true (fun i => usb_packet.getD i 0) n
                u.sysex_buffer).length).map
              (usbSysexAppendBytes true (fun i => usb_packet.getD i 0) n
                u.sysex_buffer).data)).length) := by
  have hflush := usbSysexFlushLoop_leading_queue ok
    { u with sysex_buffer :=
        (usbSysexAppendBytes true (fun i => usb_packet.getD i 0) n u.sysex_buffer) }
  have hpos : (usbSysexAppendBytes true (fun i => usb_packet.getD i 0) n
      u.sysex_buffer).length > 0 := hulen
  unfold vUsbRxMidiTask_packet
  rcases hcin with ⟨hc, hn⟩ | ⟨hc, hn⟩ | ⟨hc, hf7, hn⟩
  · subst hn
    simp only [hc]
    simp [-List.getD_eq_getElem?_getD, USB_MIDI_CIN_2BYTE_SYSCOM, USB_MIDI_CIN_PROG_CHANGE,
      USB_MIDI_CIN_CHAN_PRESSURE,
      USB_MIDI_CIN_3BYTE_SYSCOM, USB_MIDI_CIN_NOTE_OFF, USB_MIDI_CIN_NOTE_ON,
      USB_MIDI_CIN_POLY_KEYPRESS, USB_MIDI_CIN_CTRL_CHANGE, USB_MIDI_CIN_PITCH_BEND,
      USB_MIDI_CIN_1BYTE, USB_MIDI_CIN_SYSEX_START, USB_MIDI_CIN_SYSEX_END_2,
      USB_MIDI_CIN_SYSEX_END_3, husx, hpos, huov, sysexReset]
    exact hflush
  · subst hn
    simp only [hc]
    simp [-List.getD_eq_getElem?_getD, USB_MIDI_CIN_2BYTE_SYSCOM, USB_MIDI_CIN_PROG_CHANGE,
      USB_MIDI_CIN_CHAN_PRESSURE,
      USB_MIDI_CIN_3BYTE_SYSCOM, USB_MIDI_CIN_NOTE_OFF, USB_MIDI_CIN_NOTE_ON,
      USB_MIDI_CIN_POLY_KEYPRESS, USB_MIDI_CIN_CTRL_CHANGE, USB_MIDI_CIN_PITCH_BEND,
      USB_MIDI_CIN_1BYTE, USB_MIDI_CIN_SYSEX_START, USB_MIDI_CIN_SYSEX_END_2,
      USB_MIDI_CIN_SYSEX_END_3, husx, hpos, huov, sysexReset]
    exact hflush
  · subst hn
    simp only [hc, hf7]
    simp [-List.getD_eq_getElem?_getD, USB_MIDI_CIN_2BYTE_SYSCOM, USB_MIDI_CIN_PROG_CHANGE,
      USB_MIDI_CIN_CHAN_PRESSURE,
      USB_MIDI_CIN_3BYTE_SYSCOM, USB_MIDI_CIN_NOTE_OFF, USB_MIDI_CIN_NOTE_ON,
      USB_MIDI_CIN_POLY_KEYPRESS, USB_MIDI_CIN_CTRL_CHANGE, USB_MIDI_CIN_PITCH_BEND,
      USB_MIDI_CIN_1BYTE, USB_MIDI_CIN_SYSEX_START, USB_MIDI_CIN_SYSEX_END_2,
      USB_MIDI_CIN_SYSEX_END_3, husx, hpos, huov, sysexReset]
    exact hflush

/-- C40 (amended): a flush stops at the first send that fails and keeps what it has sent.
For every parser state with an open, non-overflowed SysEx that 0xF7 completes, and for
every USB receive state with an open SysEx that an End packet (CIN 0x6, CIN 0x7, or CIN 0x5
with 0xF7) completes without overflow, whatever the outcomes `ok` of the sends: the chunks
enqueued are the first `sendsBeforeFailure` chunks of the SysEx, in order, where
`sendsBeforeFailure` is the number of sends made before the first one that fails (all of
them when none fails). -/
theorem C40_flush_stops_at_first_failed_send (ok : Nat → Bool) (s : UartRxState)
    (u : UsbRxState) (usb_packet : List Nat) (n : Nat)
    (hsx : s.uart_sysex_buffer.in_sysex = true)
    (hlen : s.uart_sysex_buffer.length < UART_SYSEX_BUFFER_SIZE)
    (hov : s.uart_sysex_buffer.overflow = false)
    (hcin : (usb_packet.getD 0 0 &&& 0x0F = USB_MIDI_CIN_SYSEX_END_2 ∧ n = 2)
      ∨ (usb_packet.getD 0 0 &&& 0x0F = USB_MIDI_CIN_SYSEX_END_3 ∧ n = 3)
      ∨ (usb_packet.getD 0 0 &&& 0x0F = USB_MIDI_CIN_1BYTE ∧ usb_packet.getD 1 0 = 0xF7
          ∧ n = 1))
    (husx : u.sysex_buffer.in_sysex = true)
    (hulen : 0 < (usbSysexAppendBytes true (fun i => usb_packet.getD i 0) n
      u.sysex_buffer).length)
    (huov : (usbSysexAppendBytes true (fun i => usb_packet.getD i 0) n
      u.sysex_buffer).overflow = false) :
    (ProcessMidiByte ok s 0xF7).queue
      = s.queue ++
        (chunk3 ((List.range (s.uart_sysex_buffer.length + 1)).map
          (Function.update s.uart_sysex_buffer.data s.uart_sysex_buffer.length 0xF7))).take
          (sendsBeforeFailure ok s.sends
            (chunk3 ((List.range (s.uart_sysex_buffer.length + 1)).map
              (Function.update s.uart_sysex_buffer.data
                s.uart_sysex_buffer.length 0xF7))).length) ∧
    (vUsbRxMidiTask_packet ok u usb_packet).queue
      = u.queue ++
        (chunk3 ((List.range (usbSysexAppendBytes true (fun i => usb_packet.getD i 0) n
            u.sysex_buffer).length).map
          (usbSysexAppendBytes true (fun i => usb_packet.getD i 0) n u.sysex_buffer).data)).take
          (sendsBeforeFailure ok u.sends
            (chunk3 ((List.range (usbSysexAppendBytes true (fun i => usb_packet.getD i 0) n
                u.sysex_buffer).length).map
              (usbSysexAppendBytes true (fun i => usb_packet.getD i 0) n
                u.sysex_buffer).data)).length) ∧
    ∀ start m, sendsBeforeFailure ok start m ≤ m ∧
      (∀ k, k < sendsBeforeFailure ok start m → ok (start + k) = true) ∧
      (sendsBeforeFailure ok start m < m →
        ok (start + sendsBeforeFailure ok start m) = false) :=
  ⟨pmb_sysex_end_leading ok s hsx hlen hov,
   usb_sysex_end_leading ok u usb_packet n hcin husx hulen huov,
   fun start m => sendsBeforeFailure_first ok m start⟩

/-- Witness of C40: `F0 01 02 03 04` has come in from the UART and `04 F0 01 02` from USB;
the End packet is `07 03 04 F7`, and only the first send succeeds. -/
theorem C40_flush_stops_at_first_failed_send_witness :
    (ProcessMidiByte (fun k => decide (k = 0))
        (feedBytes allSendsOk initialState [0xF0, 0x01, 0x02, 0x03, 0x04]) 0xF7).queue
      = (feedBytes allSendsOk initialState [0xF0, 0x01, 0x02, 0x03, 0x04]).queue ++
        (chunk3 ((List.range ((feedBytes allSendsOk initialState
            [0xF0, 0x01, 0x02, 0x03, 0x04]).uart_sysex_buffer.length + 1)).map
          (Function.update (feedBytes allSendsOk initialState
              [0xF0, 0x01, 0x02, 0x03, 0x04]).uart_sysex_buffer.data
            (feedBytes allSendsOk initialState
              [0xF0, 0x01, 0x02, 0x03, 0x04]).uart_sysex_buffer.length 0xF7))).take
          (sendsBeforeFailure (fun k => decide (k = 0))
            (feedBytes allSendsOk initialState [0xF0, 0x01, 0x02, 0x03, 0x04]).sends
            (chunk3 ((List.range ((feedBytes allSendsOk initialState
                [0xF0, 0x01, 0x02, 0x03, 0x04]).uart_sysex_buffer.length + 1)).map
              (Function.update (feedBytes allSendsOk initialState
                  [0xF0, 0x01, 0x02, 0x03, 0x04]).uart_sysex_buffer.data
                (feedBytes allSendsOk initialState
                  [0xF0, 0x01, 0x02, 0x03, 0x04]).uart_sysex_buffer.length 0xF7))).length) ∧
    (vUsbRxMidiTask_packet (fun k => decide (k = 0))
        (usbFeedPackets allSendsOk usbInitialState [[0x04, 0xF0, 0x01, 0x02]])
        [0x07, 0x03, 0x04, 0xF7]).queue
      = (usbFeedPackets allSendsOk usbInitialState [[0x04, 0xF0, 0x01, 0x02]]).queue ++
        (chunk3 ((List.range (usbSysexAppendBytes true
            (fun i => [0x07, 0x03, 0x04, 0xF7].getD i 0) 3
            (usbFeedPackets allSendsOk usbInitialState
              [[0x04, 0xF0, 0x01, 0x02]]).sysex_buffer).length).map
          (usbSysexAppendBytes true (fun i => [0x07, 0x03, 0x04, 0xF7].getD i 0) 3
            (usbFeedPackets allSendsOk usbInitialState
              [[0x04, 0xF0, 0x01, 0x02]]).sysex_buffer).data)).take
          (sendsBeforeFailure (fun k => decide (k = 0))
            (usbFeedPackets allSendsOk usbInitialState [[0x04, 0xF0, 0x01, 0x02]]).sends
            (chunk3 ((List.range (usbSysexAppendBytes true
                (fun i => [0x07, 0x03, 0x04, 0xF7].getD i 0) 3
                (usbFeedPackets allSendsOk usbInitialState
                  [[0x04, 0xF0, 0x01, 0x02]]).sysex_buffer).length).map
              (usbSysexAppendBytes true (fun i => [0x07, 0x03, 0x04, 0xF7].getD i 0) 3
                (usbFeedPackets allSendsOk usbInitialState
                  [[0x04, 0xF0, 0x01, 0x02]]).sysex_buffer).data)).length) ∧
    ∀ start m, sendsBeforeFailure (fun k => decide (k = 0)) start m ≤ m ∧
      (∀ k, k < sendsBeforeFailure (fun k => decide (k = 0)) start m →
        (fun k => decide (k = 0)) (start + k) = true) ∧
      (sendsBeforeFailure (fun k => decide (k = 0)) start m < m →
        (fun k => decide (k = 0))
          (start + sendsBeforeFailure (fun k => decide (k = 0)) start m) = false) :=
  C40_flush_stops_at_first_failed_send (fun k => decide (k = 0))
    (feedBytes allSendsOk initialState [0xF0, 0x01, 0x02, 0x03, 0x04])
    (usbFeedPackets allSendsOk usbInitialState [[0x04, 0xF0, 0x01, 0x02]])
    [0x07, 0x03, 0x04, 0xF7] 3
    (by decide) (by decide) (by decide) (Or.inr (Or.inl ⟨by decide, rfl⟩))
    (by decide) (by decide) (by decide)

/-- Counterexample to C40: the SysEx `F0 01 02 03 04 F7` makes the two chunks `F0 01 02`
and `03 04 F7`. When the first send succeeds and the second fails, the queue holds the
first chunk alone, on the UART side and on the USB side: neither all the chunks nor none,
and `queue_full_errors` counts one failure. -/
theorem C40_counterexample :
    (feedBytes (fun k => decide (k = 0)) initialState
        [0xF0, 0x01, 0x02, 0x03, 0x04, 0xF7]).queue = [⟨[0xF0, 0x01, 0x02], 3⟩] ∧
    (feedBytes (fun k => decide (k = 0)) initialState
        [0xF0, 0x01, 0x02, 0x03, 0x04, 0xF7]).midi_stats.queue_full_errors = 1 ∧
    (usbFeedPackets (fun k => decide (k = 0)) usbInitialState
        [[0x04, 0xF0, 0x01, 0x02], [0x07, 0x03, 0x04, 0xF7]]).queue
      = [⟨[0xF0, 0x01, 0x02], 3⟩] ∧
    (usbFeedPackets (fun k => decide (k = 0)) usbInitialState
        [[0x04, 0xF0, 0x01, 0x02], [0x07, 0x03, 0x04, 0xF7]]).midi_stats.queue_full_errors
      = 1 ∧
    chunk3 [0xF0, 0x01, 0x02, 0x03, 0x04, 0xF7]
      = [⟨[0xF0, 0x01, 0x02], 3⟩, ⟨[0x03, 0x04, 0xF7], 3⟩] ∧
    (feedBytes allSendsOk initialState [0xF0, 0x01, 0x02, 0x03, 0x04, 0xF7]).queue
      = chunk3 [0xF0, 0x01, 0x02, 0x03, 0x04, 0xF7] := by
  decide

end MIDI2USB
